import Mathlib

/-!
OpenFlow reference library: wire layout, message builders, netlink framing,
connection classes, control socket of the logging module.

A shallow embedding of `include/openflow.h`, of the message builders and the
class dispatch of `lib/vconn.c`, of the netlink framing, the receiving and the
flow dump done in `lib/dpif.c`, and of `lib/vlog-socket.c`.

Memory is a list of bytes (naturals below 256).  C object layout follows the
usual rule of the System V ABIs: every scalar is aligned to its own size, a
struct places each member at the next multiple of the member's alignment and
rounds its size up to its largest member alignment, a union is as large as its
largest member rounded up likewise.
-/

namespace OpenFlow

/-! ## Target description -/

/-- Properties of the compilation target that the C sources depend on. -/
structure ABI where
  /-- Byte order of the host: true when little-endian. -/
  little_endian : Bool
  /-- Value of `sizeof (void *)`. -/
  ptr_size : Nat
  /-- Alignment of `uint64_t` inside a struct. -/
  u64_align : Nat
deriving DecidableEq, Repr

/-- The x86-64 System V target. -/
def lp64 : ABI := ⟨true, 8, 8⟩

/-- The i386 System V target. -/
def ilp32 : ABI := ⟨true, 4, 4⟩

/-- A big-endian 32-bit target (PowerPC). -/
def ppc32 : ABI := ⟨false, 4, 8⟩

/-! ## C object layout -/

/-- Size and alignment of a C type. -/
structure CLayout where
  size : Nat
  align : Nat
deriving DecidableEq, Repr

/-- A named member of a struct or union. -/
structure CField where
  name : String
  ty : CLayout
deriving DecidableEq, Repr

def uint8_t : CLayout := ⟨1, 1⟩
def uint16_t : CLayout := ⟨2, 2⟩
def uint32_t : CLayout := ⟨4, 4⟩
def uint64_t (abi : ABI) : CLayout := ⟨8, abi.u64_align⟩

/-- The array type `t[n]`; `t[0]` is a flexible array member. -/
def c_array (t : CLayout) (n : Nat) : CLayout := ⟨t.size * n, t.align⟩

/-- Round `n` up to the next multiple of `a`. -/
def align_up (n a : Nat) : Nat := (n + a - 1) / a * a

/-- Largest alignment among the members (1 for no members). -/
def max_align : List CField → Nat
  | [] => 1
  | f :: fs => max f.ty.align (max_align fs)

/-- Offset of the first byte after the last member, when the members are laid
out in order starting at offset `pos`. -/
def struct_end : List CField → Nat → Nat
  | [], pos => pos
  | f :: fs, pos => struct_end fs (align_up pos f.ty.align + f.ty.size)

/-- Offset of member `name`, laying the members out from offset `pos`
(the end offset when there is no such member). -/
def offset_from : List CField → Nat → String → Nat
  | [], pos, _ => pos
  | f :: fs, pos, name =>
    if f.name = name then align_up pos f.ty.align
    else offset_from fs (align_up pos f.ty.align + f.ty.size) name

/-- The C `offsetof` of a struct member. -/
def c_offsetof (fields : List CField) (name : String) : Nat :=
  offset_from fields 0 name

/-- Layout of `struct { fields }`. -/
def c_struct (fields : List CField) : CLayout :=
  ⟨align_up (struct_end fields 0) (max_align fields), max_align fields⟩

/-- Largest member size of a union. -/
def max_size : List CField → Nat
  | [] => 0
  | f :: fs => max f.ty.size (max_size fs)

/-- Layout of `union { members }`. -/
def c_union (members : List CField) : CLayout :=
  ⟨align_up (max_size members) (max_align members), max_align members⟩

/-- Sum of the declared member sizes, padding between members not counted. -/
def declared_size : List CField → Nat
  | [] => 0
  | f :: fs => f.ty.size + declared_size fs

/-! ## `openflow.h` -/

def OFP_VERSION : Nat := 1
def OFP_MAX_TABLE_NAME_LEN : Nat := 32
def OFP_MAX_PORT_NAME_LEN : Nat := 16
def OFP_ETH_ALEN : Nat := 6

def OFPP_MAX : Nat := 0x100
def OFPP_NONE : Nat := 0xffff

def OFPT_CONTROL_HELLO : Nat := 0
def OFPT_DATA_HELLO : Nat := 1
def OFPT_PACKET_IN : Nat := 2
def OFPT_PACKET_OUT : Nat := 3
def OFPT_FLOW_MOD : Nat := 4
def OFPT_FLOW_EXPIRED : Nat := 5
def OFPT_TABLE : Nat := 6

def OFPAT_OUTPUT : Nat := 0
def OFPFC_ADD : Nat := 0
def OFPFW_ALL : Nat := (1 <<< 10) - 1

def UINT32_MAX : Nat := 0xffffffff

def ofp_header_fields : List CField :=
  [⟨"version", uint8_t⟩, ⟨"type", uint8_t⟩, ⟨"length", uint16_t⟩, ⟨"xid", uint32_t⟩]

def ofp_header : CLayout := c_struct ofp_header_fields

def ofp_phy_port_fields : List CField :=
  [⟨"port_no", uint16_t⟩,
   ⟨"hw_addr", c_array uint8_t OFP_ETH_ALEN⟩,
   ⟨"name", c_array uint8_t OFP_MAX_PORT_NAME_LEN⟩,
   ⟨"flags", uint32_t⟩,
   ⟨"speed", uint32_t⟩,
   ⟨"features", uint32_t⟩]

def ofp_phy_port : CLayout := c_struct ofp_phy_port_fields

def ofp_data_hello_fields (abi : ABI) : List CField :=
  [⟨"header", ofp_header⟩,
   ⟨"datapath_id", uint64_t abi⟩,
   ⟨"n_exact", uint32_t⟩,
   ⟨"n_mac_only", uint32_t⟩,
   ⟨"n_compression", uint32_t⟩,
   ⟨"n_general", uint32_t⟩,
   ⟨"buffer_mb", uint32_t⟩,
   ⟨"n_buffers", uint32_t⟩,
   ⟨"capabilities", uint32_t⟩,
   ⟨"actions", uint32_t⟩,
   ⟨"miss_send_len", uint16_t⟩,
   ⟨"pad", c_array uint8_t 2⟩,
   ⟨"ports", c_array ofp_phy_port 0⟩]

def ofp_data_hello (abi : ABI) : CLayout := c_struct (ofp_data_hello_fields abi)

/-- Maximum length of an OpenFlow packet (the macro `OFP_MAXLEN`). -/
def OFP_MAXLEN (abi : ABI) : Nat :=
  (ofp_data_hello abi).size + ofp_phy_port.size * OFPP_MAX + 200

def ofp_packet_in_fields : List CField :=
  [⟨"header", ofp_header⟩,
   ⟨"buffer_id", uint32_t⟩,
   ⟨"total_len", uint16_t⟩,
   ⟨"in_port", uint16_t⟩,
   ⟨"reason", uint8_t⟩,
   ⟨"pad", uint8_t⟩,
   ⟨"data", c_array uint8_t 0⟩]

def ofp_packet_in : CLayout := c_struct ofp_packet_in_fields

def ofp_action_output_fields : List CField :=
  [⟨"max_len", uint16_t⟩, ⟨"port", uint16_t⟩]

def ofp_action_output : CLayout := c_struct ofp_action_output_fields

def ofp_action_arg_members : List CField :=
  [⟨"output", ofp_action_output⟩,
   ⟨"vlan_id", uint16_t⟩,
   ⟨"dl_addr", c_array uint8_t OFP_ETH_ALEN⟩,
   ⟨"nw_addr", uint32_t⟩,
   ⟨"tp", uint16_t⟩]

def ofp_action_arg : CLayout := c_union ofp_action_arg_members

def ofp_action_fields : List CField :=
  [⟨"type", uint16_t⟩, ⟨"arg", ofp_action_arg⟩]

def ofp_action : CLayout := c_struct ofp_action_fields

def ofp_packet_out_u_members : List CField :=
  [⟨"actions", c_array ofp_action 0⟩, ⟨"data", c_array uint8_t 0⟩]

def ofp_packet_out_u : CLayout := c_union ofp_packet_out_u_members

def ofp_packet_out_fields : List CField :=
  [⟨"header", ofp_header⟩,
   ⟨"buffer_id", uint32_t⟩,
   ⟨"in_port", uint16_t⟩,
   ⟨"out_port", uint16_t⟩,
   ⟨"u", ofp_packet_out_u⟩]

def ofp_packet_out : CLayout := c_struct ofp_packet_out_fields

def ofp_match_fields : List CField :=
  [⟨"wildcards", uint16_t⟩,
   ⟨"in_port", uint16_t⟩,
   ⟨"dl_src", c_array uint8_t OFP_ETH_ALEN⟩,
   ⟨"dl_dst", c_array uint8_t OFP_ETH_ALEN⟩,
   ⟨"dl_vlan", uint16_t⟩,
   ⟨"dl_type", uint16_t⟩,
   ⟨"nw_src", uint32_t⟩,
   ⟨"nw_dst", uint32_t⟩,
   ⟨"nw_proto", uint8_t⟩,
   ⟨"pad", c_array uint8_t 3⟩,
   ⟨"tp_src", uint16_t⟩,
   ⟨"tp_dst", uint16_t⟩]

def ofp_match : CLayout := c_struct ofp_match_fields

def ofp_flow_mod_fields : List CField :=
  [⟨"header", ofp_header⟩,
   ⟨"match", ofp_match⟩,
   ⟨"command", uint16_t⟩,
   ⟨"max_idle", uint16_t⟩,
   ⟨"buffer_id", uint32_t⟩,
   ⟨"group_id", uint32_t⟩,
   ⟨"actions", c_array ofp_action 0⟩]

def ofp_flow_mod : CLayout := c_struct ofp_flow_mod_fields

/-! ## Byte memory -/

/-- Memory contents: one natural below 256 per byte. -/
abbrev Bytes := List Nat

/-- The byte at address `p` (0 outside the memory). -/
def peek (m : Bytes) (p : Nat) : Nat := m.getD p 0

/-- The C `memset`: sets the `n` bytes starting at `dst` to `c` (as a byte). -/
def memset (m : Bytes) (dst c : Nat) : Nat → Bytes
  | 0 => m
  | n + 1 => (memset m dst c n).set (dst + n) (c % 256)

/-- The C `memcpy`: copies the first `n` bytes of `src` to offset `dst`. -/
def memcpy (m : Bytes) (dst : Nat) (src : Bytes) : Nat → Bytes
  | 0 => m
  | n + 1 => (memcpy m dst src n).set (dst + n) (peek src n)

/-- Store to a `uint8_t` object. -/
def store_u8 (m : Bytes) (p v : Nat) : Bytes := m.set p (v % 256)

/-- Store to a `uint16_t` object, in the byte order of the host. -/
def store_u16 (abi : ABI) (m : Bytes) (p v : Nat) : Bytes :=
  if abi.little_endian then
    (m.set p (v % 256)).set (p + 1) (v / 256 % 256)
  else
    (m.set p (v / 256 % 256)).set (p + 1) (v % 256)

/-- Store to a `uint32_t` object, in the byte order of the host. -/
def store_u32 (abi : ABI) (m : Bytes) (p v : Nat) : Bytes :=
  if abi.little_endian then
    (((m.set p (v % 256)).set (p + 1) (v / 256 % 256)).set (p + 2)
      (v / 65536 % 256)).set (p + 3) (v / 16777216 % 256)
  else
    (((m.set p (v / 16777216 % 256)).set (p + 1) (v / 65536 % 256)).set (p + 2)
      (v / 256 % 256)).set (p + 3) (v % 256)

/-- Load from a `uint8_t` object. -/
def load_u8 (m : Bytes) (p : Nat) : Nat := peek m p

/-- Load from a `uint16_t` object, in the byte order of the host. -/
def load_u16 (abi : ABI) (m : Bytes) (p : Nat) : Nat :=
  if abi.little_endian then peek m p + 256 * peek m (p + 1)
  else 256 * peek m p + peek m (p + 1)

/-- Load from a `uint32_t` object, in the byte order of the host. -/
def load_u32 (abi : ABI) (m : Bytes) (p : Nat) : Nat :=
  if abi.little_endian then
    peek m p + 256 * peek m (p + 1) + 65536 * peek m (p + 2)
      + 16777216 * peek m (p + 3)
  else
    16777216 * peek m p + 65536 * peek m (p + 1) + 256 * peek m (p + 2)
      + peek m (p + 3)

/-- Swap the two bytes of a 16-bit value. -/
def bswap16 (x : Nat) : Nat := x % 256 * 256 + x / 256 % 256

/-- Reverse the four bytes of a 32-bit value. -/
def bswap32 (x : Nat) : Nat :=
  x % 256 * 16777216 + x / 256 % 256 * 65536 + x / 65536 % 256 * 256
    + x / 16777216 % 256

/-- Host to network byte order, 16 bits; the argument converts to `uint16_t`. -/
def htons (abi : ABI) (x : Nat) : Nat :=
  if abi.little_endian then bswap16 (x % 65536) else x % 65536

/-- Host to network byte order, 32 bits; the argument converts to `uint32_t`. -/
def htonl (abi : ABI) (x : Nat) : Nat :=
  if abi.little_endian then bswap32 (x % 4294967296) else x % 4294967296

/-- Network to host byte order, 16 bits. -/
def ntohs (abi : ABI) (x : Nat) : Nat := htons abi x

/-- Network to host byte order, 32 bits. -/
def ntohl (abi : ABI) (x : Nat) : Nat := htonl abi x

/-- The two bytes at `p` read as a big-endian 16-bit integer. -/
def be16 (m : Bytes) (p : Nat) : Nat := 256 * peek m p + peek m (p + 1)

/-- The four bytes at `p` read as a big-endian 32-bit integer. -/
def be32 (m : Bytes) (p : Nat) : Nat :=
  16777216 * peek m p + 65536 * peek m (p + 1) + 256 * peek m (p + 2)
    + peek m (p + 3)

/-- The `n` bytes starting at `p`. -/
def bytes_at (m : Bytes) (p n : Nat) : Bytes := (m.drop p).take n

/-! ### Member addresses -/

def ofp_header_at (p : Nat) (name : String) : Nat := p + c_offsetof ofp_header_fields name
def ofp_match_at (p : Nat) (name : String) : Nat := p + c_offsetof ofp_match_fields name
def ofp_flow_mod_at (p : Nat) (name : String) : Nat := p + c_offsetof ofp_flow_mod_fields name
def ofp_action_at (p : Nat) (name : String) : Nat := p + c_offsetof ofp_action_fields name
def ofp_action_output_at (p : Nat) (name : String) : Nat :=
  p + c_offsetof ofp_action_output_fields name
def ofp_packet_out_at (p : Nat) (name : String) : Nat :=
  p + c_offsetof ofp_packet_out_fields name
def ofp_packet_in_at (p : Nat) (name : String) : Nat :=
  p + c_offsetof ofp_packet_in_fields name

/-- Address of a union member: every member starts where the union starts. -/
def union_at (p : Nat) (_name : String) : Nat := p

/-- Address of element `i` of an array of `t` starting at `p`. -/
def elem_at (t : CLayout) (p i : Nat) : Nat := p + i * t.size

/-! ## Buffers and flows -/

/-- Modelled from the spec: the byte buffer of `buffer.h`, which is not among
the sources: an owned octet container, `size` being the number of bytes in
use. -/
structure buffer where
  data : Bytes
deriving DecidableEq, Repr

/-- Number of bytes in use. -/
def buffer.size (b : buffer) : Nat := b.data.length

/-- Modelled from the spec: `buffer_new (capacity)` of the missing `buffer.c`
creates an empty buffer. -/
def buffer_new (_capacity : Nat) : buffer := ⟨[]⟩

/-- Modelled from the spec: `buffer_put_uninit (b, n)` of the missing
`buffer.c` appends `n` uninitialized bytes and returns the writable region,
here its offset.  The unspecified contents of the new bytes are `junk`. -/
def buffer_put_uninit (b : buffer) (n : Nat) (junk : Nat → Nat) : buffer × Nat :=
  (⟨b.data ++ (List.range n).map (fun i => junk i % 256)⟩, b.data.length)

/-- Modelled from the spec: `struct flow` of the missing `flow.h`, with the
members that `make_add_simple_flow` reads; each has the type of the
`ofp_match` member it is assigned to, and holds the value as the host reads
it. -/
structure flow where
  nw_src : Nat
  nw_dst : Nat
  in_port : Nat
  dl_vlan : Nat
  dl_type : Nat
  tp_src : Nat
  tp_dst : Nat
  dl_src : List Nat
  dl_dst : List Nat
  nw_proto : Nat
deriving DecidableEq, Repr

/-- Every member of the flow is in the range of its C type. -/
def flow.wf (f : flow) : Prop :=
  f.nw_src < 4294967296 ∧ f.nw_dst < 4294967296 ∧ f.in_port < 65536 ∧
  f.dl_vlan < 65536 ∧ f.dl_type < 65536 ∧ f.tp_src < 65536 ∧ f.tp_dst < 65536 ∧
  f.dl_src.length = OFP_ETH_ALEN ∧ (∀ b ∈ f.dl_src, b < 256) ∧
  f.dl_dst.length = OFP_ETH_ALEN ∧ (∀ b ∈ f.dl_dst, b < 256) ∧
  f.nw_proto < 256

instance (f : flow) : Decidable f.wf := by
  unfold flow.wf; exact inferInstance

/-! ## `vconn.c`: message builders -/

/-- The function `make_add_simple_flow` of `vconn.c`. -/
def make_add_simple_flow (abi : ABI) (junk : Nat → Nat) (f : flow)
    (buffer_id out_port : Nat) : buffer :=
  let size := ofp_flow_mod.size + ofp_action.size
  let out := buffer_new size
  let (out, ofm) := buffer_put_uninit out size junk
  let m := memset out.data ofm 0 size
  let header := ofp_flow_mod_at ofm "header"
  let mtch := ofp_flow_mod_at ofm "match"
  let action0 := elem_at ofp_action (ofp_flow_mod_at ofm "actions") 0
  let output := union_at (ofp_action_at action0 "arg") "output"
  let m := store_u8 m (ofp_header_at header "version") OFP_VERSION
  let m := store_u8 m (ofp_header_at header "type") OFPT_FLOW_MOD
  let m := store_u16 abi m (ofp_header_at header "length") (htons abi size)
  let m := store_u16 abi m (ofp_match_at mtch "wildcards") (htons abi 0)
  let m := store_u16 abi m (ofp_match_at mtch "in_port") f.in_port
  let m := memcpy m (ofp_match_at mtch "dl_src") f.dl_src (c_array uint8_t OFP_ETH_ALEN).size
  let m := memcpy m (ofp_match_at mtch "dl_dst") f.dl_dst (c_array uint8_t OFP_ETH_ALEN).size
  let m := store_u16 abi m (ofp_match_at mtch "dl_vlan") f.dl_vlan
  let m := store_u16 abi m (ofp_match_at mtch "dl_type") f.dl_type
  let m := store_u32 abi m (ofp_match_at mtch "nw_src") f.nw_src
  let m := store_u32 abi m (ofp_match_at mtch "nw_dst") f.nw_dst
  let m := store_u8 m (ofp_match_at mtch "nw_proto") f.nw_proto
  let m := store_u16 abi m (ofp_match_at mtch "tp_src") f.tp_src
  let m := store_u16 abi m (ofp_match_at mtch "tp_dst") f.tp_dst
  let m := store_u16 abi m (ofp_flow_mod_at ofm "command") (htons abi OFPFC_ADD)
  let m := store_u16 abi m (ofp_flow_mod_at ofm "max_idle") (htons abi 60)
  let m := store_u32 abi m (ofp_flow_mod_at ofm "buffer_id") (htonl abi buffer_id)
  let m := store_u32 abi m (ofp_flow_mod_at ofm "group_id") (htonl abi 0)
  let m := store_u16 abi m (ofp_action_at action0 "type") (htons abi OFPAT_OUTPUT)
  let m := store_u16 abi m (ofp_action_output_at output "max_len") (htons abi 0)
  let m := store_u16 abi m (ofp_action_output_at output "port") (htons abi out_port)
  ⟨m⟩

/-- The function `make_unbuffered_packet_out` of `vconn.c`. -/
def make_unbuffered_packet_out (abi : ABI) (junk : Nat → Nat) (packet : buffer)
    (in_port out_port : Nat) : buffer :=
  let size := ofp_packet_out.size + packet.size
  let out := buffer_new size
  let (out, opo) := buffer_put_uninit out size junk
  let m := memset out.data opo 0 ofp_packet_out.size
  let header := ofp_packet_out_at opo "header"
  let m := store_u8 m (ofp_header_at header "version") OFP_VERSION
  let m := store_u8 m (ofp_header_at header "type") OFPT_PACKET_OUT
  let m := store_u16 abi m (ofp_header_at header "length") (htons abi size)
  let m := store_u32 abi m (ofp_packet_out_at opo "buffer_id") (htonl abi UINT32_MAX)
  let m := store_u16 abi m (ofp_packet_out_at opo "in_port") (htons abi in_port)
  let m := store_u16 abi m (ofp_packet_out_at opo "out_port") (htons abi out_port)
  let m := memcpy m (union_at (ofp_packet_out_at opo "u") "data") packet.data packet.size
  ⟨m⟩

/-- The function `make_buffered_packet_out` of `vconn.c`. -/
def make_buffered_packet_out (abi : ABI) (junk : Nat → Nat)
    (buffer_id in_port out_port : Nat) : buffer :=
  let size := ofp_packet_out.size + ofp_action.size
  let out := buffer_new size
  let (out, opo) := buffer_put_uninit out size junk
  let m := memset out.data opo 0 size
  let header := ofp_packet_out_at opo "header"
  let action0 := elem_at ofp_action (union_at (ofp_packet_out_at opo "u") "actions") 0
  let output := union_at (ofp_action_at action0 "arg") "output"
  let m := store_u8 m (ofp_header_at header "version") OFP_VERSION
  let m := store_u8 m (ofp_header_at header "type") OFPT_PACKET_OUT
  let m := store_u16 abi m (ofp_header_at header "length") (htons abi size)
  let m := store_u32 abi m (ofp_packet_out_at opo "buffer_id") (htonl abi buffer_id)
  let m := store_u16 abi m (ofp_packet_out_at opo "in_port") (htons abi in_port)
  let m := store_u16 abi m (ofp_packet_out_at opo "out_port") (htons abi out_port)
  let m := store_u16 abi m (ofp_action_at action0 "type") (htons abi OFPAT_OUTPUT)
  let m := store_u16 abi m (ofp_action_output_at output "max_len") (htons abi 0)
  let m := store_u16 abi m (ofp_action_output_at output "port") (htons abi out_port)
  ⟨m⟩

/-! ## Netlink framing -/

def NLMSG_ALIGNTO : Nat := 4
def NLA_ALIGNTO : Nat := 4

/-- The macro `NLMSG_ALIGN`: round up to a multiple of `NLMSG_ALIGNTO` by
clearing the low bits of `len + NLMSG_ALIGNTO - 1`. -/
def NLMSG_ALIGN (len : Nat) : Nat :=
  (len + NLMSG_ALIGNTO - 1) - (len + NLMSG_ALIGNTO - 1) % NLMSG_ALIGNTO

/-- The macro `NLA_ALIGN`: round up to a multiple of `NLA_ALIGNTO` by
clearing the low bits of `len + NLA_ALIGNTO - 1`. -/
def NLA_ALIGN (len : Nat) : Nat :=
  (len + NLA_ALIGNTO - 1) - (len + NLA_ALIGNTO - 1) % NLA_ALIGNTO

def NLM_F_REQUEST : Nat := 1

def nlmsghdr_fields : List CField :=
  [⟨"nlmsg_len", uint32_t⟩,
   ⟨"nlmsg_type", uint16_t⟩,
   ⟨"nlmsg_flags", uint16_t⟩,
   ⟨"nlmsg_seq", uint32_t⟩,
   ⟨"nlmsg_pid", uint32_t⟩]

def nlmsghdr : CLayout := c_struct nlmsghdr_fields

def genlmsghdr_fields : List CField :=
  [⟨"cmd", uint8_t⟩, ⟨"version", uint8_t⟩, ⟨"reserved", uint16_t⟩]

def genlmsghdr : CLayout := c_struct genlmsghdr_fields

def nlattr_fields : List CField :=
  [⟨"nla_len", uint16_t⟩, ⟨"nla_type", uint16_t⟩]

def nlattr : CLayout := c_struct nlattr_fields

def NLMSG_HDRLEN : Nat := NLMSG_ALIGN nlmsghdr.size
def GENL_HDRLEN : Nat := NLMSG_ALIGN genlmsghdr.size
def NLA_HDRLEN : Nat := NLA_ALIGN nlattr.size

def nlmsghdr_at (p : Nat) (name : String) : Nat := p + c_offsetof nlmsghdr_fields name
def genlmsghdr_at (p : Nat) (name : String) : Nat := p + c_offsetof genlmsghdr_fields name
def nlattr_at (p : Nat) (name : String) : Nat := p + c_offsetof nlattr_fields name

/-- Conversion of an `int` to `uint16_t`. -/
def to_u16 (x : Int) : Nat := (x % 65536).toNat

/-- Conversion of an `int` to `uint32_t`. -/
def to_u32 (x : Int) : Nat := (x % 4294967296).toNat

/-- The enumerators of the missing `openflow-netlink.h` that `dpif.c` uses. -/
structure openflow_netlink_h where
  DP_GENL_A_DP_IDX : Nat
  DP_GENL_A_OPENFLOW : Nat
  DP_GENL_A_TABLEIDX : Nat
  DP_GENL_A_NUMFLOWS : Nat
  DP_GENL_A_FLOW : Nat
  DP_GENL_C_OPENFLOW : Nat
  DP_GENL_C_QUERY_FLOW : Nat
deriving DecidableEq, Repr

/-- Modelled from the spec: the netlink socket of the missing `netlink.c`, as
far as message construction reads it: the port id of the socket and the
sequence number given to the next message. -/
structure nl_sock where
  pid : Nat
  next_seq : Nat
deriving DecidableEq, Repr

/-- The datapath handle `struct dpif`. -/
structure dpif where
  dp_idx : Int
  sock : nl_sock
deriving DecidableEq, Repr

/-- Modelled from the spec: `buffer_init` of the missing `buffer.c` starts an
empty buffer. -/
def buffer_init (_capacity : Nat) : buffer := ⟨[]⟩

/-- Modelled from the spec: `buffer_use` of the missing `buffer.c` starts an
empty buffer on storage of the caller (here `_capacity` bytes). -/
def buffer_use (_capacity : Nat) : buffer := ⟨[]⟩

/-- Modelled from the spec: `nl_msg_put_uninit` of the missing `netlink.c`
appends `size` uninitialized bytes followed by zero padding to the next
4-byte boundary, and returns the offset of the new bytes. -/
def nl_msg_put_uninit (junk : Nat → Nat) (msg : buffer) (size : Nat) : buffer × Nat :=
  let pad := NLMSG_ALIGN size - size
  let (msg, p) := buffer_put_uninit msg (size + pad) junk
  (⟨memset msg.data (p + size) 0 pad⟩, p)

/-- Modelled from the spec: `nl_msg_put_genlmsghdr` of the missing `netlink.c`
starts a message with a netlink header (length still 0) and a
generic-netlink header. -/
def nl_msg_put_genlmsghdr (abi : ABI) (junk : Nat → Nat) (msg : buffer) (sock : nl_sock)
    (_expected_payload family flags cmd version : Nat) : buffer :=
  let (msg, nlh) := nl_msg_put_uninit junk msg NLMSG_HDRLEN
  let m := store_u32 abi msg.data (nlmsghdr_at nlh "nlmsg_len") 0
  let m := store_u16 abi m (nlmsghdr_at nlh "nlmsg_type") family
  let m := store_u16 abi m (nlmsghdr_at nlh "nlmsg_flags") flags
  let m := store_u32 abi m (nlmsghdr_at nlh "nlmsg_seq") sock.next_seq
  let m := store_u32 abi m (nlmsghdr_at nlh "nlmsg_pid") sock.pid
  let (msg, gh) := nl_msg_put_uninit junk ⟨m⟩ GENL_HDRLEN
  let m := store_u8 msg.data (genlmsghdr_at gh "cmd") cmd
  let m := store_u8 m (genlmsghdr_at gh "version") version
  let m := store_u16 abi m (genlmsghdr_at gh "reserved") 0
  ⟨m⟩

/-- Modelled from the spec: `nl_msg_put_unspec_uninit` of the missing
`netlink.c` appends an attribute `{len:u16, type:u16, value...}` whose `len`
is the unpadded length including the attribute header, padded with zeros to a
4-byte boundary; it returns the offset of the (uninitialized) value. -/
def nl_msg_put_unspec_uninit (abi : ABI) (junk : Nat → Nat) (msg : buffer)
    (type size : Nat) : buffer × Nat :=
  let total_size := NLA_HDRLEN + size
  let (msg, nla) := nl_msg_put_uninit junk msg total_size
  let m := store_u16 abi msg.data (nlattr_at nla "nla_len") total_size
  let m := store_u16 abi m (nlattr_at nla "nla_type") type
  (⟨m⟩, nla + NLA_HDRLEN)

/-- Modelled from the spec: `nl_msg_put_u16` of the missing `netlink.c`. -/
def nl_msg_put_u16 (abi : ABI) (junk : Nat → Nat) (msg : buffer) (type value : Nat) : buffer :=
  let (msg, p) := nl_msg_put_unspec_uninit abi junk msg type uint16_t.size
  ⟨store_u16 abi msg.data p value⟩

/-- Modelled from the spec: `nl_msg_put_u32` of the missing `netlink.c`. -/
def nl_msg_put_u32 (abi : ABI) (junk : Nat → Nat) (msg : buffer) (type value : Nat) : buffer :=
  let (msg, p) := nl_msg_put_unspec_uninit abi junk msg type uint32_t.size
  ⟨store_u32 abi msg.data p value⟩

/-- Modelled from the spec: `nl_msg_nlmsghdr` of the missing `netlink.c`:
the netlink header is at the start of the message. -/
def nl_msg_nlmsghdr (_msg : buffer) : Nat := 0

/-! ## `dpif.c` -/

/-- One call of `nl_sock_sendv`: the byte ranges `iov[0 .. n_iov - 1]` and the
`wait` argument. -/
structure sendv_call where
  iov : List Bytes
  wait : Bool
deriving DecidableEq, Repr

/-- The argument `n_iov` of the call. -/
def sendv_call.n_iov (c : sendv_call) : Nat := c.iov.length

/-- The datagram that the call hands to the kernel: the ranges in order. -/
def sendv_call.datagram (c : sendv_call) : Bytes := c.iov.foldr (fun v acc => v ++ acc) []

/-- State of `dpif_send_openflow` at the call of `nl_sock_sendv`. -/
structure send_openflow_frame where
  /-- Offset in `hdr` of the region returned by `buffer_put_uninit`. -/
  nla : Nat
  /-- Size of `hdr`, which is `iov[0].iov_len`. -/
  hdr_size : Nat
  pad_bytes : Nat
  call : sendv_call
deriving DecidableEq, Repr

/-- The function `dpif_send_openflow` of `dpif.c` up to and including its call
of `nl_sock_sendv`. -/
def dpif_send_openflow_frame (abi : ABI) (nl : openflow_netlink_h) (junk : Nat → Nat)
    (openflow_family : Nat) (dp : dpif) (buffer : buffer) (_wait : Bool) :
    send_openflow_frame :=
  let hdr := buffer_use (c_array uint32_t (64 / 4)).size
  let hdr := nl_msg_put_genlmsghdr abi junk hdr dp.sock 32 openflow_family
    NLM_F_REQUEST nl.DP_GENL_C_OPENFLOW 1
  let hdr := nl_msg_put_u32 abi junk hdr nl.DP_GENL_A_DP_IDX (to_u32 dp.dp_idx)
  let (hdr, nla) := buffer_put_uninit hdr abi.ptr_size junk
  let m := store_u16 abi hdr.data (nlattr_at nla "nla_len") (abi.ptr_size + buffer.size)
  let m := store_u16 abi m (nlattr_at nla "nla_type") nl.DP_GENL_A_OPENFLOW
  let nla_len := load_u16 abi m (nlattr_at nla "nla_len")
  let pad_bytes := NLA_ALIGN nla_len - nla_len
  let hdr : OpenFlow.buffer := ⟨m⟩
  let m := store_u32 abi hdr.data (nlmsghdr_at (nl_msg_nlmsghdr hdr) "nlmsg_len")
    (hdr.size + buffer.size + pad_bytes)
  let hdr : OpenFlow.buffer := ⟨m⟩
  let zeros : Bytes := List.replicate NLA_ALIGNTO 0
  let iov := [hdr.data.take hdr.size, buffer.data.take buffer.size]
  let iov := if pad_bytes ≠ 0 then iov ++ [zeros.take pad_bytes] else iov
  ⟨nla, hdr.size, pad_bytes, ⟨iov, false⟩⟩

/-- The function `dpif_send_openflow` of `dpif.c`: the call of `nl_sock_sendv`
it makes and the value it returns, `nl_sock_sendv` being the result of that
call. -/
def dpif_send_openflow (abi : ABI) (nl : openflow_netlink_h) (junk : Nat → Nat)
    (openflow_family : Nat) (nl_sock_sendv : sendv_call → Nat)
    (dp : dpif) (buffer : buffer) (wait : Bool) : sendv_call × Nat :=
  let frame := dpif_send_openflow_frame abi nl junk openflow_family dp buffer wait
  let retval := nl_sock_sendv frame.call
  (frame.call, retval)

/-- The request that `dpif_dump_flows` of `dpif.c` builds before it calls
`nl_sock_transact`, together with the address `ofm` of the OpenFlow message
inside the `DP_GENL_A_FLOW` attribute.  A null `match` is `none`. -/
def dpif_dump_flows_request (abi : ABI) (nl : openflow_netlink_h) (junk : Nat → Nat)
    (openflow_family : Nat) (dp : dpif) (table : Int) (mtch : Option Bytes) :
    buffer × Nat :=
  let request := buffer_init 0
  let request := nl_msg_put_genlmsghdr abi junk request dp.sock 0 openflow_family
    NLM_F_REQUEST nl.DP_GENL_C_QUERY_FLOW 1
  let request := nl_msg_put_u32 abi junk request nl.DP_GENL_A_DP_IDX (to_u32 dp.dp_idx)
  let request := nl_msg_put_u16 abi junk request nl.DP_GENL_A_TABLEIDX (to_u16 table)
  let (request, ofm) :=
    nl_msg_put_unspec_uninit abi junk request nl.DP_GENL_A_FLOW ofp_flow_mod.size
  let m := memset request.data ofm 0 ofp_flow_mod.size
  let header := ofp_flow_mod_at ofm "header"
  let m := store_u8 m (ofp_header_at header "version") 1
  let m := store_u8 m (ofp_header_at header "type") OFPT_FLOW_MOD
  let m := store_u16 abi m (ofp_header_at header "length") (htons abi abi.ptr_size)
  let m := match mtch with
    | some mt => memcpy m (ofp_flow_mod_at ofm "match") mt ofp_match.size
    | none =>
      store_u16 abi m (ofp_match_at (ofp_flow_mod_at ofm "match") "wildcards")
        (htons abi OFPFW_ALL)
  (⟨m⟩, ofm)

/-! ## `dpif.c`: receiving -/

/-- The `errno` values that `dpif.c` names, as Linux numbers them. -/
def EAGAIN : Int := 11
def EPROTO : Int := 71
def ENOBUFS : Int := 105

/-- What `nl_attr_get` and `nl_attr_get_size` give for one attribute of a
message: its type, the offset of its payload in the message buffer and the
length of its payload. -/
structure nlattr_ref where
  type : Nat
  off : Nat
  len : Nat
deriving DecidableEq, Repr

/-- Modelled from the spec: a buffer that `nl_sock_recv` or `nl_sock_transact`
of the missing `netlink.c` returned, as the accessors of `netlink.c` show it:
the memory of the buffer, whether it is a netlink error message
(`nl_msg_nlmsgerr`), whether it is long enough to have a generic-netlink header
(`nl_msg_genlmsghdr` is non-null), its `nlmsg_type`, and its attributes in the
order in which the parser walks them. -/
structure nl_msg where
  mem : Bytes
  nlmsgerr : Bool
  genlmsghdr : Bool
  nlmsg_type : Nat
  attrs : List nlattr_ref
deriving DecidableEq, Repr

/-- The attribute types of `netlink.h` that the policies of `dpif.c` use. -/
inductive nl_attr_type
  | NL_A_U16
  | NL_A_U32
  | NL_A_UNSPEC
deriving DecidableEq, Repr

/-- One designated entry `[index] = { .type, .min_len, .max_len }` of a policy
table; a length that the entry does not give is 0. -/
structure nl_policy where
  index : Nat
  type : nl_attr_type
  min_len : Nat
  max_len : Nat
deriving DecidableEq, Repr

/-- Modelled from the spec: the payload lengths that a policy entry admits: an
integer attribute has the size of its integer; otherwise at least `min_len`
and, when `max_len` is given, at most `max_len`. -/
def nl_policy.admits (p : nl_policy) (len : Nat) : Bool :=
  match p.type with
  | .NL_A_U16 => len == 2
  | .NL_A_U32 => len == 4
  | .NL_A_UNSPEC => decide (p.min_len ≤ len) && (p.max_len == 0 || decide (len ≤ p.max_len))

/-- Modelled from the spec: the walk of `nl_policy_parse` over the attributes:
an attribute without policy entry is ignored, an attribute that its entry does
not admit fails the parse, a later attribute of the same type replaces an
earlier one. -/
def nl_policy_walk (policy : List nl_policy) : List nlattr_ref → List nlattr_ref →
    Option (List nlattr_ref)
  | [], slots => some slots
  | a :: rest, slots =>
    match policy.find? (fun p => p.index == a.type) with
    | none => nl_policy_walk policy rest slots
    | some p =>
      if p.admits a.len then
        nl_policy_walk policy rest (a :: slots.filter (fun s => s.type != a.type))
      else none

/-- Modelled from the spec: `nl_policy_parse` of the missing `netlink.c`: the
walk succeeds and every entry of the policy has found its attribute. -/
def nl_policy_parse (msg : nl_msg) (policy : List nl_policy) : Option (List nlattr_ref) :=
  match nl_policy_walk policy msg.attrs [] with
  | none => none
  | some slots =>
    if policy.all (fun p => slots.any (fun s => s.type == p.index)) then some slots else none

/-- The element `attrs[index]` of the array that `nl_policy_parse` filled. -/
def nl_attrs_get (attrs : List nlattr_ref) (index : Nat) : nlattr_ref :=
  (attrs.find? (fun s => s.type == index)).getD ⟨index, 0, 0⟩

/-- Modelled from the spec: `nl_attr_get` of the missing `netlink.c`: the
address of the payload. -/
def nl_attr_get (a : nlattr_ref) : Nat := a.off

/-- Modelled from the spec: `nl_attr_get_size` of the missing `netlink.c`. -/
def nl_attr_get_size (a : nlattr_ref) : Nat := a.len

/-- Modelled from the spec: `nl_attr_get_u32` of the missing `netlink.c`: the
payload read as a `uint32_t` of the host. -/
def nl_attr_get_u32 (abi : ABI) (msg : nl_msg) (a : nlattr_ref) : Nat :=
  load_u32 abi msg.mem a.off

/-- The table `openflow_policy` of `dpif.c`. -/
def openflow_policy (abi : ABI) (nl : openflow_netlink_h) : List nl_policy :=
  [⟨nl.DP_GENL_A_DP_IDX, .NL_A_U32, 0, 0⟩,
   ⟨nl.DP_GENL_A_OPENFLOW, .NL_A_UNSPEC, ofp_header.size, OFP_MAXLEN abi⟩]

/-- The table `flow_policy` of `dpif.c`. -/
def flow_policy (nl : openflow_netlink_h) : List nl_policy :=
  [⟨nl.DP_GENL_A_TABLEIDX, .NL_A_U16, 0, 0⟩,
   ⟨nl.DP_GENL_A_NUMFLOWS, .NL_A_U32, 0, 0⟩,
   ⟨nl.DP_GENL_A_FLOW, .NL_A_UNSPEC, 0, 0⟩]

/-- Result of one `nl_sock_recv` (or `nl_sock_transact`): return value 0 with
a message, or a non-zero return value, a positive errno by the contract of
these functions, with no message. -/
inductive recv_result
  | msg (m : nl_msg)
  | err (errno : Int)
deriving DecidableEq, Repr

/-- Modelled from the spec: `nl_sock_recv` of the missing `netlink.c` on a
socket whose pending read results are `sock`: it takes the first; on an empty
socket it returns `EAGAIN` when `wait` is false and never returns (`none`)
when `wait` is true. -/
def nl_sock_recv (sock : List recv_result) (wait : Bool) :
    Option (recv_result × List recv_result) :=
  match sock with
  | [] => if wait then none else some (.err EAGAIN, [])
  | r :: rest => some (r, rest)

/-- The `struct buffer` that `dpif_recv_openflow` returns: the received
message with `data` and `size` set anew. -/
structure buffer_ref where
  msg : nl_msg
  data : Nat
  size : Nat
deriving DecidableEq, Repr

/-- The bytes `data[0 .. size - 1]` of the buffer. -/
def buffer_ref.bytes (b : buffer_ref) : Bytes := bytes_at b.msg.mem b.data b.size

/-- The loop condition of `dpif_recv_openflow`:
`retval == ENOBUFS || (!retval && nl_msg_nlmsgerr(buffer, NULL))`. -/
def recv_again (r : recv_result) : Bool :=
  match r with
  | .err e => e == ENOBUFS
  | .msg m => m.nlmsgerr

/-- The `do ... while` loop of `dpif_recv_openflow`: reads with `nl_sock_recv`
until the result is not to be read again; gives that result, the socket after
it and the number of reads, `n` being the reads done before. -/
def dpif_recv_openflow_loop (wait : Bool) :
    List recv_result → Nat → Option (recv_result × List recv_result × Nat)
  | [], n =>
    if wait then none
    else if recv_again (.err EAGAIN) then none else some (.err EAGAIN, [], n + 1)
  | r :: rest, n =>
    if recv_again r then dpif_recv_openflow_loop wait rest (n + 1)
    else some (r, rest, n + 1)

/-- The part of `dpif_recv_openflow` after the loop, for a received message:
the return value and what is stored in `*bufferp`. -/
def dpif_recv_openflow_check (abi : ABI) (nl : openflow_netlink_h) (openflow_family : Nat)
    (dp : dpif) (m : nl_msg) : Int × Option buffer_ref :=
  if m.genlmsghdr = false then (EPROTO, none)
  else if m.nlmsg_type ≠ openflow_family then (EPROTO, none)
  else
    match nl_policy_parse m (openflow_policy abi nl) with
    | none => (EPROTO, none)
    | some attrs =>
      if nl_attr_get_u32 abi m (nl_attrs_get attrs nl.DP_GENL_A_DP_IDX) ≠ to_u32 dp.dp_idx then
        (EPROTO, none)
      else
        let oh := nl_attr_get (nl_attrs_get attrs nl.DP_GENL_A_OPENFLOW)
        let size := nl_attr_get_size (nl_attrs_get attrs nl.DP_GENL_A_OPENFLOW)
        let ofp_len := ntohs abi (load_u16 abi m.mem (ofp_header_at oh "length"))
        let size := if ofp_len ≠ size then min ofp_len size else size
        (0, some ⟨m, oh, size⟩)

/-- Outcome of `dpif_recv_openflow`: the return value, `*bufferp`, the number
of calls of `nl_sock_recv` and the read results left on the socket. -/
structure recv_outcome where
  retval : Int
  bufferp : Option buffer_ref
  n_reads : Nat
  sock : List recv_result
deriving DecidableEq, Repr

/-- The function `dpif_recv_openflow` of `dpif.c`; `none` when it never
returns. -/
def dpif_recv_openflow (abi : ABI) (nl : openflow_netlink_h) (openflow_family : Nat)
    (dp : dpif) (sock : List recv_result) (wait : Bool) : Option recv_outcome :=
  match dpif_recv_openflow_loop wait sock 0 with
  | none => none
  | some (.err retval, sock', n) => some ⟨retval, none, n, sock'⟩
  | some (.msg buffer, sock', n) =>
    let r := dpif_recv_openflow_check abi nl openflow_family dp buffer
    some ⟨r.1, r.2, n, sock'⟩

/-! ## `dpif.c`: flow dump -/

def _dump_ofp_flow_mod_fields : List CField :=
  [⟨"ofm", ofp_flow_mod⟩, ⟨"oa", ofp_action⟩]

def _dump_ofp_flow_mod : CLayout := c_struct _dump_ofp_flow_mod_fields

def _dump_ofp_flow_mod_at (p : Nat) (name : String) : Nat :=
  p + c_offsetof _dump_ofp_flow_mod_fields name

/-- The loop `for (ofm = flows; ofm < &flows[n_flows]; ofm++)` of
`dpif_dump_flows` from record `i` on, `k` records being left: false when a
record has a bad version or type, and the records printed by
`ofp_print_flow_mod` so far. -/
def dpif_dump_flows_records (mem : Bytes) (flows : Nat) :
    Nat → Nat → List Bytes → Bool × List Bytes
  | 0, _, out => (true, out)
  | k + 1, i, out =>
    let ofm := elem_at _dump_ofp_flow_mod flows i
    let header := ofp_flow_mod_at (_dump_ofp_flow_mod_at ofm "ofm") "header"
    if load_u8 mem (ofp_header_at header "version") ≠ 1 then (false, out)
    else if load_u8 mem (ofp_header_at header "type") ≠ OFPT_FLOW_MOD then (false, out)
    else
      dpif_dump_flows_records mem flows k (i + 1)
        (out ++ [bytes_at mem (_dump_ofp_flow_mod_at ofm "ofm") ofp_flow_mod.size])

/-- The number `n_flows` that `dpif_dump_flows` computes for a parsed reply.
Attribute lengths are below 2^16, so the conversions between `int`, `size_t`
and `uint32_t` in the C expression change no value. -/
def dpif_dump_flows_n_flows (abi : ABI) (nl : openflow_netlink_h) (reply : nl_msg)
    (attrs : List nlattr_ref) : Nat :=
  let n_flows := nl_attr_get_size (nl_attrs_get attrs nl.DP_GENL_A_FLOW) / ofp_flow_mod.size
  min n_flows (nl_attr_get_u32 abi reply (nl_attrs_get attrs nl.DP_GENL_A_NUMFLOWS))

/-- What one pass of the `for (;;)` loop of `dpif_dump_flows` does with a
reply before it reads the next one: it returns, or goes on. -/
inductive dump_step
  | done (retval : Int) (out : List Bytes)
  | more (out : List Bytes)
deriving DecidableEq, Repr

/-- One pass of the `for (;;)` loop of `dpif_dump_flows` up to the call of
`nl_sock_recv`. -/
def dpif_dump_flows_reply (abi : ABI) (nl : openflow_netlink_h) (reply : nl_msg)
    (out : List Bytes) : dump_step :=
  match nl_policy_parse reply (flow_policy nl) with
  | none => .done EPROTO out
  | some attrs =>
    let n_flows := dpif_dump_flows_n_flows abi nl reply attrs
    if n_flows ≤ 0 then .done 0 out
    else
      let flows := nl_attr_get (nl_attrs_get attrs nl.DP_GENL_A_FLOW)
      match dpif_dump_flows_records reply.mem flows n_flows 0 out with
      | (false, out') => .done EPROTO out'
      | (true, out') => .more out'

/-- Outcome of `dpif_dump_flows`: the return value, the records printed, the
number of calls of `nl_sock_recv` and the read results left on the socket. -/
structure dump_outcome where
  retval : Int
  emitted : List Bytes
  n_reads : Nat
  sock : List recv_result
deriving DecidableEq, Repr

/-- The `for (;;)` loop of `dpif_dump_flows`, entered with `reply`, `out`
being printed and `n` reads done before; `none` when `nl_sock_recv` waits for
ever. -/
def dpif_dump_flows_loop (abi : ABI) (nl : openflow_netlink_h) :
    List recv_result → nl_msg → List Bytes → Nat → Option dump_outcome
  | [], reply, out, n =>
    match dpif_dump_flows_reply abi nl reply out with
    | .done retval out' => some ⟨retval, out', n, []⟩
    | .more _ => none
  | r :: rest, reply, out, n =>
    match dpif_dump_flows_reply abi nl reply out with
    | .done retval out' => some ⟨retval, out', n, r :: rest⟩
    | .more out' =>
      match r with
      | .err retval => some ⟨retval, out', n + 1, rest⟩
      | .msg reply' => dpif_dump_flows_loop abi nl rest reply' out' (n + 1)

/-- The function `dpif_dump_flows` of `dpif.c`: `nl_sock_transact` gives the
result of the transaction for the request, `sock` what `nl_sock_recv` reads
afterwards. -/
def dpif_dump_flows (abi : ABI) (nl : openflow_netlink_h) (junk : Nat → Nat)
    (openflow_family : Nat) (nl_sock_transact : buffer → recv_result)
    (sock : List recv_result) (dp : dpif) (table : Int) (mtch : Option Bytes) :
    Option dump_outcome :=
  let request := (dpif_dump_flows_request abi nl junk openflow_family dp table mtch).1
  match nl_sock_transact request with
  | .err retval => some ⟨retval, [], 0, sock⟩
  | .msg reply => dpif_dump_flows_loop abi nl sock reply [] 0

/-! ### Reading a flow dump, for the statements -/

/-- Record `i` of the array at `flows` has version 1 and type
`OFPT_FLOW_MOD`. -/
def dump_record_header_ok (mem : Bytes) (flows i : Nat) : Bool :=
  load_u8 mem (ofp_header_at (ofp_flow_mod_at (_dump_ofp_flow_mod_at
    (elem_at _dump_ofp_flow_mod flows i) "ofm") "header") "version") == 1 &&
  load_u8 mem (ofp_header_at (ofp_flow_mod_at (_dump_ofp_flow_mod_at
    (elem_at _dump_ofp_flow_mod flows i) "ofm") "header") "type") == OFPT_FLOW_MOD

/-- The bytes of the `ofp_flow_mod` of record `i` of the array at `flows`. -/
def dump_record (mem : Bytes) (flows i : Nat) : Bytes :=
  bytes_at mem (_dump_ofp_flow_mod_at (elem_at _dump_ofp_flow_mod flows i) "ofm")
    ofp_flow_mod.size

/-- The value of the `NUMFLOWS` attribute of a reply (0 for a reply that does
not parse). -/
def flow_reply_numflows (abi : ABI) (nl : openflow_netlink_h) (reply : nl_msg) : Nat :=
  match nl_policy_parse reply (flow_policy nl) with
  | none => 0
  | some attrs => nl_attr_get_u32 abi reply (nl_attrs_get attrs nl.DP_GENL_A_NUMFLOWS)

/-- The first `NUMFLOWS` records of the `FLOW` attribute of a reply. -/
def flow_reply_records (abi : ABI) (nl : openflow_netlink_h) (reply : nl_msg) : List Bytes :=
  match nl_policy_parse reply (flow_policy nl) with
  | none => []
  | some attrs =>
    (List.range (flow_reply_numflows abi nl reply)).map
      (dump_record reply.mem (nl_attr_get (nl_attrs_get attrs nl.DP_GENL_A_FLOW)))

/-- A well-formed reply that carries records: it parses, `NUMFLOWS` is at
least 1, the `FLOW` attribute is an array of `NUMFLOWS` records of
`sizeof (struct _dump_ofp_flow_mod)` bytes, and every record has a valid
header. -/
def flow_reply_wf (abi : ABI) (nl : openflow_netlink_h) (reply : nl_msg) : Bool :=
  match nl_policy_parse reply (flow_policy nl) with
  | none => false
  | some attrs =>
    decide (1 ≤ flow_reply_numflows abi nl reply) &&
    nl_attr_get_size (nl_attrs_get attrs nl.DP_GENL_A_FLOW) ==
      flow_reply_numflows abi nl reply * _dump_ofp_flow_mod.size &&
    (List.range (flow_reply_numflows abi nl reply)).all
      (dump_record_header_ok reply.mem (nl_attr_get (nl_attrs_get attrs nl.DP_GENL_A_FLOW)))

/-- A reply that ends the dump: it parses and `NUMFLOWS` is 0. -/
def flow_reply_end (abi : ABI) (nl : openflow_netlink_h) (reply : nl_msg) : Bool :=
  (nl_policy_parse reply (flow_policy nl)).isSome && flow_reply_numflows abi nl reply == 0

/-! ## Example inputs -/

/-- The flow of scenario S1 of the specification: in_port 1, dl_src
02:00:00:00:00:01, dl_dst 02:00:00:00:00:02, dl_vlan 0xffff, dl_type 0x0800,
nw_src 10.0.0.1, nw_dst 10.0.0.2, nw_proto 6, tp_src 1000, tp_dst 80. -/
def flow_S1 : flow :=
  { nw_src := 0x0a000001, nw_dst := 0x0a000002, in_port := 1, dl_vlan := 0xffff,
    dl_type := 0x0800, tp_src := 1000, tp_dst := 80, dl_src := [2, 0, 0, 0, 0, 1],
    dl_dst := [2, 0, 0, 0, 0, 2], nw_proto := 6 }

/-- Enumerator values for the examples (the header that fixes them is not
among the sources; no result depends on the choice). -/
def nl_example : openflow_netlink_h :=
  { DP_GENL_A_DP_IDX := 2, DP_GENL_A_OPENFLOW := 5, DP_GENL_A_TABLEIDX := 9,
    DP_GENL_A_NUMFLOWS := 8, DP_GENL_A_FLOW := 7, DP_GENL_C_OPENFLOW := 7,
    DP_GENL_C_QUERY_FLOW := 8 }

/-- Datapath 0 on a socket with port id 1234, next sequence number 1. -/
def dp_example : dpif := { dp_idx := 0, sock := { pid := 1234, next_seq := 1 } }

/-- An OpenFlow message that is only a header: version 1, type 0, length 8,
xid 0. -/
def hello_example : buffer := ⟨[1, 0, 0, 8, 0, 0, 0, 0]⟩

/-- A match structure of 36 bytes, all zero but `wildcards`. -/
def match_example : Bytes := [0x03, 0xff] ++ List.replicate 34 0

/-- A netlink message of the OpenFlow family (23) for datapath 0 on a
little-endian host: netlink and generic-netlink header, a `DP_IDX` attribute
with value 0 and an `OPENFLOW` attribute of 8 bytes, an OpenFlow header whose
length field says `ofp_length`. -/
def openflow_msg_example (ofp_length : Nat) : nl_msg :=
  { mem := [40, 0, 0, 0, 23, 0, 0, 0, 1, 0, 0, 0, 210, 4, 0, 0, 7, 1, 0, 0,
            8, 0, 2, 0, 0, 0, 0, 0,
            12, 0, 5, 0, 1, 0, ofp_length / 256 % 256, ofp_length % 256, 0, 0, 0, 0],
    nlmsgerr := false, genlmsghdr := true, nlmsg_type := 23,
    attrs := [⟨2, 24, 4⟩, ⟨5, 32, 8⟩] }

/-- A netlink error message (`nlmsg_type` 2) acknowledging a request. -/
def nlmsgerr_example : nl_msg :=
  { mem := [36, 0, 0, 0, 2, 0, 0, 0, 1, 0, 0, 0, 210, 4, 0, 0, 0, 0, 0, 0,
            16, 0, 0, 0, 23, 0, 1, 0, 1, 0, 0, 0, 210, 4, 0, 0],
    nlmsgerr := true, genlmsghdr := true, nlmsg_type := 2, attrs := [] }

/-- A record of a flow dump: a FLOW_MOD header with the given xid, zeros up to
the 68 bytes of `struct _dump_ofp_flow_mod`. -/
def flow_record_example (xid : Nat) : Bytes :=
  [1, 4, 0, 68, 0, 0, 0, xid % 256] ++ List.replicate 60 0

/-- A flow-dump reply on a little-endian host: `TABLEIDX` 0, `NUMFLOWS`
`numflows`, a `FLOW` attribute with `payload`, and `trailer` after it in the
buffer. -/
def flow_reply_example (numflows : Nat) (payload trailer : Bytes) : nl_msg :=
  { mem := List.replicate 20 0 ++ [6, 0, 9, 0, 0, 0, 0, 0] ++
      [8, 0, 8, 0, numflows % 256, numflows / 256 % 256, 0, 0] ++
      [(4 + payload.length) % 256, (4 + payload.length) / 256 % 256, 7, 0] ++
      payload ++ trailer,
    nlmsgerr := false, genlmsghdr := true, nlmsg_type := 23,
    attrs := [⟨9, 24, 2⟩, ⟨8, 32, 4⟩, ⟨7, 40, payload.length⟩] }

/-- The records with xid 0 .. `n - 1`, one after the other. -/
def flow_records_example : Nat → Bytes
  | 0 => []
  | n + 1 => flow_records_example n ++ flow_record_example n

/-- An attribute of an unknown type (99) with `nla_len` 1025: header and 1021
bytes of value. -/
def unknown_attr_example : Bytes := [1, 4, 99, 0] ++ List.replicate 1021 7

/-! ## `vconn.c`: classes and dispatch

A C string is the list of its characters before the terminating NUL.  A
pointer that may be null is an `Option`. -/

/-- The value of `EOF`. -/
def EOF : Int := -1

/-- The function `strlen`. -/
def strlen (s : List Char) : Nat := s.length

/-- The function `strcspn`: the length of the longest initial part of `s` that
has no character of `reject`. -/
def strcspn (s reject : List Char) : Nat :=
  (s.takeWhile (fun c => !reject.contains c)).length

/-- The function `memcmp` on the first `n` characters of two strings;
a string that ends earlier is read at its terminating NUL. -/
def memcmp : List Char → List Char → Nat → Int
  | _, _, 0 => 0
  | a, b, n + 1 =>
    if a.headD (Char.ofNat 0) = b.headD (Char.ofNat 0) then memcmp a.tail b.tail n
    else ((a.headD (Char.ofNat 0)).toNat : Int) - ((b.headD (Char.ofNat 0)).toNat : Int)

/-- Modelled from the spec: `struct vconn_class` of `vconn.h`, a name and a
table of function pointers (`open_` is the member `open`); a null member is
`none`.  `P` stands for `struct vconn *` and `M` for `struct buffer *`.  A
class function with an output pointer takes the content of the variable
pointed to and returns, with its return value, the content it leaves there. -/
structure vconn_class (P M : Type) where
  name : Option (List Char)
  open_ : Option (List Char → List Char → Option P → Int × Option P)
  close : Option (P → Unit)
  prepoll : Option (P → Int → Int → Bool × Int)
  postpoll : Option (P → Int → Int)
  accept : Option (P → Option P → Int × Option P)
  recv : Option (P → Option M → Int × Option M)
  send : Option (P → M → Int)

/-- Modelled from the spec: `struct vconn` of `vconn.h`, as far as `vconn.c`
uses it: the class of the connection (`cls` is the member `class`) and the
connection as its class sees it. -/
structure vconn (P M : Type) where
  cls : vconn_class P M
  self : P

/-- The five assertions that `check_vconn_classes` makes on one class. -/
def check_vconn_class {P M : Type} (cls : vconn_class P M) : Bool :=
  cls.name.isSome &&
  cls.open_.isSome &&
  cls.close.isSome &&
  cls.prepoll.isSome &&
  (if cls.accept.isSome then !cls.recv.isSome && !cls.send.isSome
   else cls.recv.isSome && cls.send.isSome)

/-- The function `check_vconn_classes`: true when it returns, false when an
assertion fails; compiled with `NDEBUG` it checks nothing. -/
def check_vconn_classes {P M : Type} (NDEBUG : Bool)
    (vconn_classes : List (vconn_class P M)) : Bool :=
  NDEBUG || vconn_classes.all check_vconn_class

/-- How a call of `vconn_open` ends. -/
inductive vconn_open_exit (P : Type) where
  /-- An assertion of `check_vconn_classes` failed. -/
  | assert_failed
  /-- A null member of a class was used. -/
  | undefined
  /-- The call `fatal (0, "... not correct format for peer name", name)`. -/
  | fatal_format (name : List Char)
  /-- The call `fatal (0, "unknown peer type ...", prefix_len, name)`. -/
  | fatal_unknown (type : List Char)
  /-- The function returned `retval`, with `*vconnp` as given. -/
  | returned (retval : Int) (vconnp : Option P)
deriving DecidableEq, Repr

/-- One call of a class's `open`: the position of the class in
`vconn_classes` and the two string arguments. -/
structure vconn_open_call where
  cls : Nat
  name : List Char
  suffix_copy : List Char
deriving DecidableEq, Repr

/-- A run of `vconn_open`: how it ended and the calls of `open` it made. -/
structure vconn_open_run (P : Type) where
  exit : vconn_open_exit P
  opened : List vconn_open_call
deriving DecidableEq, Repr

/-- The loop of `vconn_open` over the classes from position `i` on.
Modelled from the spec: `fatal` terminates the process. -/
def vconn_open_loop {P M : Type} (name : List Char) (prefix_len : Nat) (vconnp : Option P) :
    List (vconn_class P M) → Nat → vconn_open_run P
  | [], _ => ⟨.fatal_unknown (name.take prefix_len), []⟩
  | cls :: rest, i =>
    match cls.name with
    | none => ⟨.undefined, []⟩
    | some cls_name =>
      if strlen cls_name = prefix_len ∧ memcmp cls_name name prefix_len = 0 then
        match cls.open_ with
        | none => ⟨.undefined, []⟩
        | some cls_open =>
          let suffix_copy := name.drop (prefix_len + 1)
          let r := cls_open name suffix_copy vconnp
          ⟨.returned r.1 (if r.1 ≠ 0 then none else r.2), [⟨i, name, suffix_copy⟩]⟩
      else vconn_open_loop name prefix_len vconnp rest (i + 1)

/-- The function `vconn_open`, over the registry `vconn_classes`; `vconnp` is
the content of `*vconnp` at the call. -/
def vconn_open {P M : Type} (NDEBUG : Bool) (vconn_classes : List (vconn_class P M))
    (name : List Char) (vconnp : Option P) : vconn_open_run P :=
  if check_vconn_classes NDEBUG vconn_classes = false then ⟨.assert_failed, []⟩
  else
    let prefix_len := strcspn name ":".toList
    if prefix_len = strlen name then ⟨.fatal_format name, []⟩
    else vconn_open_loop name prefix_len vconnp vconn_classes 0

/-- The function `vconn_is_passive`. -/
def vconn_is_passive {P M : Type} (v : vconn P M) : Bool :=
  v.cls.accept.isSome

/-- The function `vconn_accept`: the return value and `*new_vconn`; `none`
when the class has no `accept`. -/
def vconn_accept {P M : Type} (v : vconn P M) (new_vconn : Option P) :
    Option (Int × Option P) :=
  match v.cls.accept with
  | none => none
  | some cls_accept =>
    let r := cls_accept v.self new_vconn
    some (r.1, if r.1 ≠ 0 then none else r.2)

/-- The function `vconn_recv`: the return value and `*msgp`; `none` when the
class has no `recv`. -/
def vconn_recv {P M : Type} (v : vconn P M) (msgp : Option M) : Option (Int × Option M) :=
  match v.cls.recv with
  | none => none
  | some cls_recv =>
    let r := cls_recv v.self msgp
    some (r.1, if r.1 ≠ 0 then none else r.2)

/-! ### Example classes -/

/-- A `recv` that stores message 5 and returns `EOF`. -/
def tcp_recv_example : Nat → Option Nat → Int × Option Nat :=
  fun _ _ => (EOF, some 5)

/-- An active class named `tcp`: `open` stores connection 7 and returns 0 when
the arguments are not empty, and otherwise stores connection 9 and returns
`EAGAIN`; its `recv` is `tcp_recv_example`. -/
def tcp_class_example : vconn_class Nat Nat :=
  { name := some "tcp".toList
    open_ := some (fun _ args _ => if args = [] then (EAGAIN, some 9) else (0, some 7))
    close := some (fun _ => ())
    prepoll := some (fun _ _ events => (false, events))
    postpoll := none
    accept := none
    recv := some tcp_recv_example
    send := some (fun _ _ => 0) }

/-- A passive class named `ptcp`: `open` stores connection 8 and returns 0;
`accept` stores connection 3 and returns `EAGAIN`. -/
def ptcp_class_example : vconn_class Nat Nat :=
  { name := some "ptcp".toList
    open_ := some (fun _ _ _ => (0, some 8))
    close := some (fun _ => ())
    prepoll := some (fun _ _ events => (false, events))
    postpoll := none
    accept := some (fun _ _ => (EAGAIN, some 3))
    recv := none
    send := none }

/-- A registry of two classes. -/
def vconn_classes_example : List (vconn_class Nat Nat) :=
  [tcp_class_example, ptcp_class_example]

/-! ## `vlog-socket.c`

The build with `SCM_CREDENTIALS` defined, as on Linux.  A system call is given
by its return value and by the value of `errno` after it; the functions of
`fatal-signal.h`, `free` and `fprintf` leave `errno` as it is. -/

def ENOENT : Int := 2
def EWOULDBLOCK : Int := 11
def EMFILE : Int := 24
def ETIMEDOUT : Int := 110
def AF_UNIX : Nat := 1
def SOL_SOCKET : Int := 1
def SCM_RIGHTS : Int := 1
def SCM_CREDENTIALS : Int := 2

/-- The character NUL that ends a C string. -/
def NUL : Char := Char.ofNat 0

/-- The C string held by a character array that has a NUL after `buf`: the
characters before the first NUL. -/
def c_str (buf : List Char) : List Char :=
  buf.takeWhile (fun c => c != NUL)

/-- The function `strcmp`, on NUL-terminated strings. -/
def strcmp : List Char → List Char → Int
  | [], b => 0 - ((b.headD NUL).toNat : Int)
  | x :: a, b =>
    if x ≠ b.headD NUL then (x.toNat : Int) - ((b.headD NUL).toNat : Int)
    else if x = NUL then 0
    else strcmp a b.tail

/-- The function `strncmp`, on NUL-terminated strings. -/
def strncmp : List Char → List Char → Nat → Int
  | _, _, 0 => 0
  | a, b, n + 1 =>
    if a.headD NUL ≠ b.headD NUL then
      ((a.headD NUL).toNat : Int) - ((b.headD NUL).toNat : Int)
    else if a.headD NUL = NUL then 0
    else strncmp a.tail b.tail n

/-- The conversion `%ld` of `printf`: decimal digits, after a minus sign for a
negative number. -/
def printf_ld (n : Int) : List Char :=
  if n < 0 then '-' :: Nat.toDigits 10 n.natAbs else Nat.toDigits 10 n.natAbs

/-- A system call: the value it returns and the value of `errno` after it. -/
structure syscall where
  ret : Int
  errno : Int
deriving DecidableEq, Repr

/-- The type `struct sockaddr_un`; `sun_path` is the C string in the member. -/
structure sockaddr_un where
  sun_family : Nat
  sun_path : List Char
deriving DecidableEq, Repr

/-- Value of `sizeof un->sun_path`. -/
def sizeof_sun_path : Nat := 108

/-- Value of `offsetof (struct sockaddr_un, sun_path)`. -/
def offsetof_sun_path : Nat := 2

/-- The function `make_sockaddr_un`: `*un` and `*un_len`. -/
def make_sockaddr_un (name : List Char) : sockaddr_un × Nat :=
  let sun_path := name.take (sizeof_sun_path - 1)
  (⟨AF_UNIX, sun_path⟩, offsetof_sun_path + strlen sun_path + 1)

/-- The system calls that `make_unix_socket` may make, in the order of the
source. -/
structure unix_socket_calls where
  socket : syscall
  fcntl_getfl : syscall
  fcntl_setfl : syscall
  unlink : syscall
  bind : syscall
  fchmod : syscall
  connect : syscall
  setsockopt : syscall
  close : syscall
deriving DecidableEq, Repr

/-- What `make_unix_socket` leaves: its return value, `errno`, and the
addresses it gave to `bind` and to `connect`, if it called them. -/
structure unix_socket where
  ret : Int
  errno : Int
  bound : Option (sockaddr_un × Nat)
  connected : Option (sockaddr_un × Nat)
deriving DecidableEq, Repr

/-- The part `if (nonblock)` of `make_unix_socket`: `errno` afterwards, as an
error when the part ends in `goto error`. -/
def make_unix_socket_nonblock (sys : unix_socket_calls) (nonblock : Bool) :
    Except Int Int :=
  if nonblock then
    if sys.fcntl_getfl.ret = -1 then .error sys.fcntl_getfl.errno
    else if sys.fcntl_setfl.ret = -1 then .error sys.fcntl_setfl.errno
    else .ok sys.fcntl_setfl.errno
  else .ok sys.socket.errno

/-- The part `if (bind_path)` of `make_unix_socket`. -/
def make_unix_socket_bind (sys : unix_socket_calls) (bind_path : Option (List Char))
    (errno : Int) : Except Int Int :=
  if bind_path.isSome then
    if sys.bind.ret ≠ 0 then .error sys.bind.errno
    else if sys.fchmod.ret ≠ 0 then .error sys.fchmod.errno
    else .ok sys.fchmod.errno
  else .ok errno

/-- The part `if (connect_path)` of `make_unix_socket`. -/
def make_unix_socket_connect (sys : unix_socket_calls) (connect_path : Option (List Char))
    (errno : Int) : Except Int Int :=
  if connect_path.isSome then
    if sys.connect.ret ≠ 0 then .error sys.connect.errno
    else .ok sys.connect.errno
  else .ok errno

/-- The part `if (passcred)` of `make_unix_socket`. -/
def make_unix_socket_passcred (sys : unix_socket_calls) (passcred : Bool) (errno : Int) :
    Except Int Int :=
  if passcred then
    if sys.setsockopt.ret ≠ 0 then .error sys.setsockopt.errno
    else .ok sys.setsockopt.errno
  else .ok errno

/-- The function `make_unix_socket`.  At the label `error` the value of
`errno` is saved, the socket is closed and the saved value is returned
negated. -/
def make_unix_socket (sys : unix_socket_calls) (nonblock passcred : Bool)
    (bind_path connect_path : Option (List Char)) : unix_socket :=
  let fd := sys.socket.ret
  if fd < 0 then ⟨-sys.socket.errno, sys.socket.errno, none, none⟩
  else
    match make_unix_socket_nonblock sys nonblock with
    | .error error => ⟨-error, sys.close.errno, none, none⟩
    | .ok errno1 =>
      let bound := bind_path.map make_sockaddr_un
      match make_unix_socket_bind sys bind_path errno1 with
      | .error error => ⟨-error, sys.close.errno, bound, none⟩
      | .ok errno2 =>
        let connected := connect_path.map make_sockaddr_un
        match make_unix_socket_connect sys connect_path errno2 with
        | .error error => ⟨-error, sys.close.errno, bound, connected⟩
        | .ok errno3 =>
          match make_unix_socket_passcred sys passcred errno3 with
          | .error error => ⟨-error, sys.close.errno, bound, connected⟩
          | .ok errno4 => ⟨fd, errno4, bound, connected⟩

/-! ### The server -/

/-- The type `struct vlog_server`. -/
structure vlog_server where
  path : List Char
  fd : Int
deriving DecidableEq, Repr

/-- The member `path` that `vlog_server_listen` gives the server; `getpid` is
the value that `getpid ()` returns. -/
def vlog_server_listen_path (getpid : Int) (path : Option (List Char)) : List Char :=
  if path.isSome ∧ (path.getD []).headD NUL = '/' then path.getD []
  else "/tmp/vlogs.".toList ++ printf_ld getpid ++ (if path.isSome then path.getD [] else "".toList)

/-- What `vlog_server_listen` leaves: its return value, `*serverp` and the
socket it made. -/
structure vlog_server_listen_result where
  retval : Int
  serverp : Option vlog_server
  sock : unix_socket
deriving DecidableEq, Repr

/-- The function `vlog_server_listen`. -/
def vlog_server_listen (sys : unix_socket_calls) (getpid : Int) (path : Option (List Char)) :
    vlog_server_listen_result :=
  let server_path := vlog_server_listen_path getpid path
  let sock := make_unix_socket sys true true (some server_path) none
  let server_fd := sock.ret
  if server_fd < 0 then
    let fd := server_fd
    ⟨fd, none, sock⟩
  else ⟨0, some ⟨server_path, server_fd⟩, sock⟩

/-- A control message: `cmsg_level`, `cmsg_type` and the bytes at
`CMSG_DATA`. -/
structure cmsghdr where
  cmsg_level : Int
  cmsg_type : Int
  data : Bytes
deriving DecidableEq, Repr

/-- The member `uid` of the `struct ucred` at `data`: `pid`, `uid` and `gid`
are 32 bits each. -/
def ucred_uid (abi : ABI) (data : Bytes) : Nat := load_u32 abi data 4

/-- A datagram as `recvmsg` delivers it: the bytes, the control messages left
in the control buffer, the address of the sender and its length. -/
structure vlog_datagram where
  data : List Char
  cmsgs : List cmsghdr
  src : sockaddr_un
  src_len : Nat
deriving DecidableEq, Repr

/-- What a call of `recvmsg` on the server socket gives. -/
inductive recvmsg_result where
  | datagram (d : vlog_datagram)
  | fail (errno : Int)
deriving DecidableEq, Repr

/-- The loop of `recv_with_creds` over the control messages: the credentials
found last and the descriptors closed. -/
def recv_with_creds_cmsgs (abi : ABI) :
    List cmsghdr → Option Bytes → Option Bytes × List Nat
  | [], cred => (cred, [])
  | cmsg :: rest, cred =>
    if cmsg.cmsg_level = SOL_SOCKET ∧ cmsg.cmsg_type = SCM_CREDENTIALS then
      recv_with_creds_cmsgs abi rest (some cmsg.data)
    else if cmsg.cmsg_level = SOL_SOCKET ∧ cmsg.cmsg_type = SCM_RIGHTS then
      let fds := (List.range (cmsg.data.length / 4)).map
        (fun i => load_u32 abi cmsg.data (4 * i))
      ((recv_with_creds_cmsgs abi rest cred).1, fds ++ (recv_with_creds_cmsgs abi rest cred).2)
    else recv_with_creds_cmsgs abi rest cred

/-- What `recv_with_creds` leaves: its return value, the C string in
`cmd_buf`, `*un`, `*un_len` and the descriptors it closed. -/
structure recv_with_creds_result where
  error : Int
  cmd_buf : List Char
  un : sockaddr_un
  un_len : Nat
  closed : List Nat
deriving DecidableEq, Repr

/-- Value of `sizeof (struct sockaddr_un)`. -/
def sizeof_sockaddr_un : Nat := 110

/-- The function `recv_with_creds`; `cmd_buf` and `un` are what the variables
of the caller hold at the call, `getuid` is the value of `getuid ()`. -/
def recv_with_creds (abi : ABI) (getuid : Nat) (cmd_buf : List Char) (cmd_buf_size : Nat)
    (un : sockaddr_un) (r : recvmsg_result) : recv_with_creds_result :=
  match r with
  | .fail errno => ⟨errno, cmd_buf, un, sizeof_sockaddr_un, []⟩
  | .datagram d =>
    let n := min d.data.length (cmd_buf_size - 1)
    let cmd := c_str (d.data.take n)
    let c := recv_with_creds_cmsgs abi d.cmsgs none
    match c.1 with
    | none => ⟨-1, cmd, d.src, d.src_len, c.2⟩
    | some cred =>
      if ucred_uid abi cred ≠ 0 ∧ ucred_uid abi cred ≠ getuid then
        ⟨-1, cmd, d.src, d.src_len, c.2⟩
      else ⟨0, cmd, d.src, d.src_len, c.2⟩

/-- Modelled from the spec: the two functions of `vlog.c` that the server
calls, over the state `σ` of the logging module: the setter of the levels,
which returns an error text or a null pointer, and the listing of the
levels. -/
structure vlog_h (σ : Type) where
  vlog_set_levels_from_string : σ → List Char → σ × Option (List Char)
  vlog_get_levels : σ → List Char

/-- One call of `sendto` by the server: the bytes, the address and its
length. -/
structure sendto_call where
  data : List Char
  un : sockaddr_un
  un_len : Nat
deriving DecidableEq, Repr

/-- The part "Process message" of `vlog_server_poll`: the state of the logging
module afterwards and `reply`. -/
def vlog_server_poll_reply {σ : Type} (vlog : vlog_h σ) (st : σ) (cmd_buf : List Char) :
    σ × List Char :=
  if strncmp cmd_buf "set ".toList 4 = 0 then
    let r := vlog.vlog_set_levels_from_string st (cmd_buf.drop 4)
    match r.2 with
    | some msg => (r.1, msg)
    | none => (r.1, "ack".toList)
  else if strcmp cmd_buf "list".toList = 0 then (st, vlog.vlog_get_levels st)
  else (st, "nak".toList)

/-- One pass of the loop of `vlog_server_poll`. -/
inductive vlog_server_poll_step (σ : Type) where
  /-- The function returns. -/
  | ret (closed : List Nat)
  /-- The loop goes on, after the call of `sendto` if there is one. -/
  | next (st : σ) (sent : Option sendto_call) (closed : List Nat)

/-- The body of the loop of `vlog_server_poll`, on one result of `recvmsg`. -/
def vlog_server_poll_body {σ : Type} (abi : ABI) (vlog : vlog_h σ) (getuid : Nat)
    (cmd_buf : List Char) (un : sockaddr_un) (r : recvmsg_result) (st : σ) :
    vlog_server_poll_step σ :=
  let c := recv_with_creds abi getuid cmd_buf 512 un r
  if c.error > 0 then .ret c.closed
  else if c.error < 0 then .next st none c.closed
  else
    let reply := vlog_server_poll_reply vlog st c.cmd_buf
    .next reply.1 (some ⟨reply.2, c.un, c.un_len⟩) c.closed

/-- What `vlog_server_poll` leaves: the state of the logging module, the calls
of `sendto`, the descriptors closed and what is still to be read. -/
structure vlog_server_poll_result (σ : Type) where
  vlog : σ
  sent : List sendto_call
  closed : List Nat
  sock : List recvmsg_result

/-- The function `vlog_server_poll` on a socket with the pending read results
`sock`; the socket does not block, and with nothing pending `recvmsg` fails
with `EAGAIN`, on which the function returns. -/
def vlog_server_poll {σ : Type} (abi : ABI) (vlog : vlog_h σ) (getuid : Nat)
    (cmd_buf : List Char) (un : sockaddr_un) :
    List recvmsg_result → σ → vlog_server_poll_result σ
  | [], st => ⟨st, [], [], []⟩
  | r :: rest, st =>
    match vlog_server_poll_body abi vlog getuid cmd_buf un r st with
    | .ret closed => ⟨st, [], closed, rest⟩
    | .next st1 sent closed =>
      let o := vlog_server_poll abi vlog getuid cmd_buf un rest st1
      ⟨o.vlog, sent.toList ++ o.sent, closed ++ o.closed, o.sock⟩

/-! ### Reading a datagram, for the statements -/

/-- Whether a control message is an `SCM_CREDENTIALS` message of the socket
level. -/
def cmsg_is_credentials (c : cmsghdr) : Bool :=
  c.cmsg_level == SOL_SOCKET && c.cmsg_type == SCM_CREDENTIALS

/-- Whether a datagram carries an `SCM_CREDENTIALS` message whose `uid` is 0 or
`getuid`. -/
def datagram_authorized (abi : ABI) (getuid : Nat) (d : vlog_datagram) : Bool :=
  d.cmsgs.any (fun c => cmsg_is_credentials c &&
    (ucred_uid abi c.data == 0 || ucred_uid abi c.data == getuid))

/-! ### The client -/

/-- The type `struct vlog_client`. -/
structure vlog_client where
  connect_path : List Char
  bind_path : List Char
  fd : Int
deriving DecidableEq, Repr

/-- The member `connect_path` that `vlog_client_connect` gives the client. -/
def vlog_client_connect_path (path : List Char) : List Char :=
  if path.headD NUL = '/' then path else "/tmp/vlogs.".toList ++ path

/-- What `vlog_client_connect` leaves: its return value, `*clientp` and the
socket it made. -/
structure vlog_client_connect_result where
  retval : Int
  clientp : Option vlog_client
  sock : unix_socket
deriving DecidableEq, Repr

/-- The function `vlog_client_connect`. -/
def vlog_client_connect (sys : unix_socket_calls) (getpid : Int) (path : List Char) :
    vlog_client_connect_result :=
  let connect_path := vlog_client_connect_path path
  let bind_path := "/tmp/vlog.".toList ++ printf_ld getpid
  let sock := make_unix_socket sys false false (some bind_path) (some connect_path)
  let fd := sock.ret
  if fd ≥ 0 then ⟨0, some ⟨connect_path, bind_path, fd⟩, sock⟩
  else ⟨sock.errno, none, sock⟩

/-- The function `vlog_client_send`, given what `sendmsg` does. -/
def vlog_client_send (request : List Char) (sendmsg : syscall) : Int :=
  let nbytes := sendmsg.ret
  if nbytes > 0 then
    if nbytes = (strlen request : Int) then 0 else ENOBUFS
  else sendmsg.errno

/-- The system calls of one call of `vlog_client_recv`: `poll`, `read` and the
bytes that `read` puts in `buffer`. -/
structure vlog_client_recv_calls where
  poll : syscall
  read : syscall
  buffer : List Char
deriving DecidableEq, Repr

/-- The function `vlog_client_recv`: its return value and `*reply`. -/
def vlog_client_recv (sys : vlog_client_recv_calls) : Int × Option (List Char) :=
  let nfds := sys.poll.ret
  if nfds = 0 then (ETIMEDOUT, none)
  else if nfds < 0 then (sys.poll.errno, none)
  else
    let nbytes := sys.read.ret
    if nbytes < 0 then (sys.read.errno, none)
    else (0, some (c_str (sys.buffer.take nbytes.toNat)))

/-- The system calls of one pass of the loop of `vlog_client_transact`. -/
structure vlog_client_transact_calls where
  sendmsg : syscall
  recv : vlog_client_recv_calls
deriving DecidableEq, Repr

/-- What `vlog_client_transact` leaves: its return value, `*reply` and the
number of calls of `vlog_client_send` and of `vlog_client_recv`. -/
structure vlog_client_transact_result where
  retval : Int
  reply : Option (List Char)
  n_sends : Nat
  n_recvs : Nat
deriving DecidableEq, Repr

/-- The loop of `vlog_client_transact` from `i` on, with `n` passes left;
`sys i` gives the system calls of pass `i`. -/
def vlog_client_transact_loop (request : List Char) (sys : Nat → vlog_client_transact_calls) :
    Nat → Nat → vlog_client_transact_result
  | 0, i => ⟨ETIMEDOUT, none, i, i⟩
  | n + 1, i =>
    let error := vlog_client_send request (sys i).sendmsg
    if error ≠ 0 then ⟨error, none, i + 1, i⟩
    else
      let r := vlog_client_recv (sys i).recv
      if r.1 ≠ ETIMEDOUT then ⟨r.1, r.2, i + 1, i + 1⟩
      else vlog_client_transact_loop request sys n (i + 1)

/-- The function `vlog_client_transact`. -/
def vlog_client_transact (request : List Char) (sys : Nat → vlog_client_transact_calls) :
    vlog_client_transact_result :=
  vlog_client_transact_loop request sys 3 0

/-! ### Example inputs of `vlog-socket.c` -/

/-- System calls that all succeed, on descriptor 3. -/
def unix_socket_calls_example : unix_socket_calls :=
  ⟨⟨3, 0⟩, ⟨0, 0⟩, ⟨0, 0⟩, ⟨0, 0⟩, ⟨0, 0⟩, ⟨0, 0⟩, ⟨0, 0⟩, ⟨0, 0⟩, ⟨0, 0⟩⟩

/-- System calls of which the first, `socket`, fails with `EMFILE`. -/
def socket_fails_example : unix_socket_calls :=
  ⟨⟨-1, EMFILE⟩, ⟨0, 0⟩, ⟨0, 0⟩, ⟨0, 0⟩, ⟨0, 0⟩, ⟨0, 0⟩, ⟨0, 0⟩, ⟨0, 0⟩, ⟨0, 0⟩⟩

/-- A logging module whose state is the list of the settings made; the setter
refuses the empty setting. -/
def vlog_example : vlog_h (List (List Char)) :=
  { vlog_set_levels_from_string := fun st s =>
      if s = [] then (st, some "no module".toList) else (s :: st, none)
    vlog_get_levels := fun st => "levels ".toList ++ st.flatten }

/-- The credentials of process 77, user `uid`, group 5, little-endian. -/
def ucred_example (uid : Nat) : Bytes := [77, 0, 0, 0, uid, 0, 0, 0, 5, 0, 0, 0]

/-- The address of a client socket. -/
def client_addr_example : sockaddr_un := ⟨AF_UNIX, "/tmp/vlog.77".toList⟩

/-- A datagram with the text `text` and credentials of user `uid`. -/
def datagram_example (text : String) (uid : Nat) : vlog_datagram :=
  ⟨text.toList, [⟨SOL_SOCKET, SCM_CREDENTIALS, ucred_example uid⟩], client_addr_example, 15⟩

/-- A datagram with the text `list` and no control message. -/
def datagram_no_creds_example : vlog_datagram :=
  ⟨"list".toList, [], client_addr_example, 15⟩

/-- System calls of one pass of `vlog_client_transact` in which the request
`list` is sent and no reply comes within the second. -/
def transact_timeout_example : vlog_client_transact_calls :=
  ⟨⟨4, 0⟩, ⟨⟨0, 0⟩, ⟨0, 0⟩, []⟩⟩

/-- System calls of one pass in which the request `list` is sent and the reply
`ack` is read. -/
def transact_reply_example : vlog_client_transact_calls :=
  ⟨⟨4, 0⟩, ⟨⟨1, 0⟩, ⟨3, 0⟩, "ack".toList⟩⟩

/-- System calls of one pass in which `sendmsg` fails with `errno`. -/
def transact_send_fails_example (errno : Int) : vlog_client_transact_calls :=
  ⟨⟨-1, errno⟩, ⟨⟨0, 0⟩, ⟨0, 0⟩, []⟩⟩

/-! ## Lemmas on the byte memory -/

@[simp] theorem length_memset (m : Bytes) (dst c n : Nat) :
    (memset m dst c n).length = m.length := by
  induction n with
  | zero => rfl
  | succ n ih => simp [memset, ih]

@[simp] theorem length_memcpy (m : Bytes) (dst : Nat) (src : Bytes) (n : Nat) :
    (memcpy m dst src n).length = m.length := by
  induction n with
  | zero => rfl
  | succ n ih => simp [memcpy, ih]

@[simp] theorem length_store_u8 (m : Bytes) (p v : Nat) :
    (store_u8 m p v).length = m.length := by
  simp [store_u8]

@[simp] theorem length_store_u16 (abi : ABI) (m : Bytes) (p v : Nat) :
    (store_u16 abi m p v).length = m.length := by
  unfold store_u16; split <;> simp

@[simp] theorem length_store_u32 (abi : ABI) (m : Bytes) (p v : Nat) :
    (store_u32 abi m p v).length = m.length := by
  unfold store_u32; split <;> simp

theorem peek_eq_getElem? (m : Bytes) (i : Nat) : peek m i = (m[i]?).getD 0 := by
  simp [peek]

theorem peek_of_getElem? {m : Bytes} {i v : Nat} (h : m[i]? = some v) : peek m i = v := by
  simp [peek_eq_getElem?, h]

theorem peek_set (m : Bytes) (i j v : Nat) :
    peek (m.set i v) j = if i = j ∧ i < m.length then v else peek m j := by
  simp only [peek_eq_getElem?, List.getElem?_set]
  by_cases h : i = j
  · subst h
    by_cases h2 : i < m.length
    · simp [h2]
    · simp [h2, List.getElem?_eq_none (Nat.le_of_not_lt h2)]
  · simp [h]

theorem peek_store_u8 (m : Bytes) (p v j : Nat) :
    peek (store_u8 m p v) j = if p = j ∧ p < m.length then v % 256 else peek m j := by
  simp [store_u8, peek_set]

theorem getElem?_memset (m : Bytes) (dst c n i : Nat) :
    (memset m dst c n)[i]? =
      if dst ≤ i ∧ i < dst + n ∧ i < m.length then some (c % 256) else m[i]? := by
  induction n with
  | zero =>
    have h0 : ¬(dst ≤ i ∧ i < dst + 0 ∧ i < m.length) := by omega
    simp only [memset, if_neg h0]
  | succ n ih =>
    simp only [memset, List.getElem?_set, length_memset, ih]
    by_cases h1 : dst + n = i
    · subst h1
      by_cases h2 : dst + n < m.length
      · simp [h2]
      · simp [h2, List.getElem?_eq_none (Nat.le_of_not_lt h2)]
    · have h3 : (dst ≤ i ∧ i < dst + (n + 1) ∧ i < m.length) ↔
          (dst ≤ i ∧ i < dst + n ∧ i < m.length) := by
        constructor <;> intro ⟨a, b, c⟩ <;> refine ⟨a, ?_, c⟩ <;> omega
      simp [h1, h3]

theorem getElem?_memcpy (m : Bytes) (dst : Nat) (src : Bytes) (n i : Nat) :
    (memcpy m dst src n)[i]? =
      if dst ≤ i ∧ i < dst + n ∧ i < m.length then some (peek src (i - dst)) else m[i]? := by
  induction n with
  | zero =>
    have h0 : ¬(dst ≤ i ∧ i < dst + 0 ∧ i < m.length) := by omega
    simp only [memcpy, if_neg h0]
  | succ n ih =>
    simp only [memcpy, List.getElem?_set, length_memcpy, ih]
    by_cases h1 : dst + n = i
    · subst h1
      by_cases h2 : dst + n < m.length
      · simp [h2]
      · simp [h2, List.getElem?_eq_none (Nat.le_of_not_lt h2)]
    · have h3 : (dst ≤ i ∧ i < dst + (n + 1) ∧ i < m.length) ↔
          (dst ≤ i ∧ i < dst + n ∧ i < m.length) := by
        constructor <;> intro ⟨a, b, c⟩ <;> refine ⟨a, ?_, c⟩ <;> omega
      simp [h1, h3]

theorem peek_memset (m : Bytes) (dst c n i : Nat) :
    peek (memset m dst c n) i =
      if dst ≤ i ∧ i < dst + n ∧ i < m.length then c % 256 else peek m i := by
  simp only [peek_eq_getElem?, getElem?_memset]
  split <;> simp

theorem peek_memcpy (m : Bytes) (dst : Nat) (src : Bytes) (n i : Nat) :
    peek (memcpy m dst src n) i =
      if dst ≤ i ∧ i < dst + n ∧ i < m.length then peek src (i - dst) else peek m i := by
  simp only [peek_eq_getElem?, getElem?_memcpy]
  split <;> simp

theorem peek_append (a b : Bytes) (i : Nat) :
    peek (a ++ b) i = if i < a.length then peek a i else peek b (i - a.length) := by
  simp only [peek_eq_getElem?]
  by_cases h : i < a.length
  · simp [h, List.getElem?_append_left h]
  · simp [h, List.getElem?_append_right (Nat.le_of_not_lt h)]

theorem peek_nil (i : Nat) : peek [] i = 0 := by simp [peek]

theorem peek_uninit (junk : Nat → Nat) (n i : Nat) :
    peek ((List.range n).map (fun i => junk i % 256)) i =
      if i < n then junk i % 256 else 0 := by
  simp only [peek_eq_getElem?, List.getElem?_map]
  by_cases h : i < n
  · simp [h, List.getElem?_range h]
  · have h2 : (List.range n)[i]? = none :=
      List.getElem?_eq_none (by simpa using Nat.le_of_not_lt h)
    simp [h, h2]

theorem bytes_at_zero (m : Bytes) (p : Nat) : bytes_at m p 0 = [] := by
  simp [bytes_at]

theorem bytes_at_succ (m : Bytes) (p n : Nat) (h : p < m.length) :
    bytes_at m p (n + 1) = peek m p :: bytes_at m (p + 1) n := by
  unfold bytes_at
  rw [List.drop_eq_getElem_cons h, List.take_succ_cons, peek_eq_getElem?,
    List.getElem?_eq_getElem h]
  rfl

/-! ## Sizes and offsets -/

theorem sizeof_ofp_header : ofp_header.size = 8 := by decide
theorem sizeof_ofp_match : ofp_match.size = 36 := by decide
theorem sizeof_ofp_action : ofp_action.size = 12 := by decide
theorem sizeof_ofp_action_arg : ofp_action_arg.size = 8 := by decide
theorem sizeof_ofp_action_output : ofp_action_output.size = 4 := by decide
theorem sizeof_ofp_flow_mod : ofp_flow_mod.size = 56 := by decide
theorem sizeof_ofp_packet_out : ofp_packet_out.size = 16 := by decide
theorem sizeof_ofp_packet_in : ofp_packet_in.size = 20 := by decide

theorem off_header_version (p : Nat) : ofp_header_at p "version" = p := by
  simp [ofp_header_at, (by decide : c_offsetof ofp_header_fields "version" = 0)]
theorem off_header_type (p : Nat) : ofp_header_at p "type" = p + 1 := by
  simp [ofp_header_at, (by decide : c_offsetof ofp_header_fields "type" = 1)]
theorem off_header_length (p : Nat) : ofp_header_at p "length" = p + 2 := by
  simp [ofp_header_at, (by decide : c_offsetof ofp_header_fields "length" = 2)]
theorem off_header_xid (p : Nat) : ofp_header_at p "xid" = p + 4 := by
  simp [ofp_header_at, (by decide : c_offsetof ofp_header_fields "xid" = 4)]

theorem off_match_wildcards (p : Nat) : ofp_match_at p "wildcards" = p := by
  simp [ofp_match_at, (by decide : c_offsetof ofp_match_fields "wildcards" = 0)]
theorem off_match_in_port (p : Nat) : ofp_match_at p "in_port" = p + 2 := by
  simp [ofp_match_at, (by decide : c_offsetof ofp_match_fields "in_port" = 2)]
theorem off_match_dl_src (p : Nat) : ofp_match_at p "dl_src" = p + 4 := by
  simp [ofp_match_at, (by decide : c_offsetof ofp_match_fields "dl_src" = 4)]
theorem off_match_dl_dst (p : Nat) : ofp_match_at p "dl_dst" = p + 10 := by
  simp [ofp_match_at, (by decide : c_offsetof ofp_match_fields "dl_dst" = 10)]
theorem off_match_dl_vlan (p : Nat) : ofp_match_at p "dl_vlan" = p + 16 := by
  simp [ofp_match_at, (by decide : c_offsetof ofp_match_fields "dl_vlan" = 16)]
theorem off_match_dl_type (p : Nat) : ofp_match_at p "dl_type" = p + 18 := by
  simp [ofp_match_at, (by decide : c_offsetof ofp_match_fields "dl_type" = 18)]
theorem off_match_nw_src (p : Nat) : ofp_match_at p "nw_src" = p + 20 := by
  simp [ofp_match_at, (by decide : c_offsetof ofp_match_fields "nw_src" = 20)]
theorem off_match_nw_dst (p : Nat) : ofp_match_at p "nw_dst" = p + 24 := by
  simp [ofp_match_at, (by decide : c_offsetof ofp_match_fields "nw_dst" = 24)]
theorem off_match_nw_proto (p : Nat) : ofp_match_at p "nw_proto" = p + 28 := by
  simp [ofp_match_at, (by decide : c_offsetof ofp_match_fields "nw_proto" = 28)]
theorem off_match_pad (p : Nat) : ofp_match_at p "pad" = p + 29 := by
  simp [ofp_match_at, (by decide : c_offsetof ofp_match_fields "pad" = 29)]
theorem off_match_tp_src (p : Nat) : ofp_match_at p "tp_src" = p + 32 := by
  simp [ofp_match_at, (by decide : c_offsetof ofp_match_fields "tp_src" = 32)]
theorem off_match_tp_dst (p : Nat) : ofp_match_at p "tp_dst" = p + 34 := by
  simp [ofp_match_at, (by decide : c_offsetof ofp_match_fields "tp_dst" = 34)]

theorem off_flow_mod_header (p : Nat) : ofp_flow_mod_at p "header" = p := by
  simp [ofp_flow_mod_at, (by decide : c_offsetof ofp_flow_mod_fields "header" = 0)]
theorem off_flow_mod_match (p : Nat) : ofp_flow_mod_at p "match" = p + 8 := by
  simp [ofp_flow_mod_at, (by decide : c_offsetof ofp_flow_mod_fields "match" = 8)]
theorem off_flow_mod_command (p : Nat) : ofp_flow_mod_at p "command" = p + 44 := by
  simp [ofp_flow_mod_at, (by decide : c_offsetof ofp_flow_mod_fields "command" = 44)]
theorem off_flow_mod_max_idle (p : Nat) : ofp_flow_mod_at p "max_idle" = p + 46 := by
  simp [ofp_flow_mod_at, (by decide : c_offsetof ofp_flow_mod_fields "max_idle" = 46)]
theorem off_flow_mod_buffer_id (p : Nat) : ofp_flow_mod_at p "buffer_id" = p + 48 := by
  simp [ofp_flow_mod_at, (by decide : c_offsetof ofp_flow_mod_fields "buffer_id" = 48)]
theorem off_flow_mod_group_id (p : Nat) : ofp_flow_mod_at p "group_id" = p + 52 := by
  simp [ofp_flow_mod_at, (by decide : c_offsetof ofp_flow_mod_fields "group_id" = 52)]
theorem off_flow_mod_actions (p : Nat) : ofp_flow_mod_at p "actions" = p + 56 := by
  simp [ofp_flow_mod_at, (by decide : c_offsetof ofp_flow_mod_fields "actions" = 56)]

theorem off_action_type (p : Nat) : ofp_action_at p "type" = p := by
  simp [ofp_action_at, (by decide : c_offsetof ofp_action_fields "type" = 0)]
theorem off_action_arg (p : Nat) : ofp_action_at p "arg" = p + 4 := by
  simp [ofp_action_at, (by decide : c_offsetof ofp_action_fields "arg" = 4)]
theorem off_output_max_len (p : Nat) : ofp_action_output_at p "max_len" = p := by
  simp [ofp_action_output_at, (by decide : c_offsetof ofp_action_output_fields "max_len" = 0)]
theorem off_output_port (p : Nat) : ofp_action_output_at p "port" = p + 2 := by
  simp [ofp_action_output_at, (by decide : c_offsetof ofp_action_output_fields "port" = 2)]

theorem off_packet_out_header (p : Nat) : ofp_packet_out_at p "header" = p := by
  simp [ofp_packet_out_at, (by decide : c_offsetof ofp_packet_out_fields "header" = 0)]
theorem off_packet_out_buffer_id (p : Nat) : ofp_packet_out_at p "buffer_id" = p + 8 := by
  simp [ofp_packet_out_at, (by decide : c_offsetof ofp_packet_out_fields "buffer_id" = 8)]
theorem off_packet_out_in_port (p : Nat) : ofp_packet_out_at p "in_port" = p + 12 := by
  simp [ofp_packet_out_at, (by decide : c_offsetof ofp_packet_out_fields "in_port" = 12)]
theorem off_packet_out_out_port (p : Nat) : ofp_packet_out_at p "out_port" = p + 14 := by
  simp [ofp_packet_out_at, (by decide : c_offsetof ofp_packet_out_fields "out_port" = 14)]
theorem off_packet_out_u (p : Nat) : ofp_packet_out_at p "u" = p + 16 := by
  simp [ofp_packet_out_at, (by decide : c_offsetof ofp_packet_out_fields "u" = 16)]

theorem peek_store_u16 (abi : ABI) (m : Bytes) (p v j : Nat) :
    peek (store_u16 abi m p v) j =
      if p + 1 = j ∧ p + 1 < m.length then
        (if abi.little_endian then v / 256 % 256 else v % 256)
      else if p = j ∧ p < m.length then
        (if abi.little_endian then v % 256 else v / 256 % 256)
      else peek m j := by
  unfold store_u16
  cases abi.little_endian <;> simp [peek_set]

theorem peek_store_u32 (abi : ABI) (m : Bytes) (p v j : Nat) :
    peek (store_u32 abi m p v) j =
      if p + 3 = j ∧ p + 3 < m.length then
        (if abi.little_endian then v / 16777216 % 256 else v % 256)
      else if p + 2 = j ∧ p + 2 < m.length then
        (if abi.little_endian then v / 65536 % 256 else v / 256 % 256)
      else if p + 1 = j ∧ p + 1 < m.length then
        (if abi.little_endian then v / 256 % 256 else v / 65536 % 256)
      else if p = j ∧ p < m.length then
        (if abi.little_endian then v % 256 else v / 16777216 % 256)
      else peek m j := by
  unfold store_u32
  cases abi.little_endian <;> simp [peek_set]

/-! ## Byte order -/

theorem bswap16_mod (x : Nat) : bswap16 x % 256 = x / 256 % 256 := by
  unfold bswap16; omega

theorem bswap16_div_mod (x : Nat) : bswap16 x / 256 % 256 = x % 256 := by
  unfold bswap16
  have hl : x % 256 < 256 := Nat.mod_lt _ (by decide)
  have hh : x / 256 % 256 < 256 := Nat.mod_lt _ (by decide)
  generalize x % 256 = l at hl ⊢
  generalize x / 256 % 256 = h at hh ⊢
  omega

theorem bswap32_bytes (x : Nat) :
    bswap32 x % 256 = x / 16777216 % 256 ∧
    bswap32 x / 256 % 256 = x / 65536 % 256 ∧
    bswap32 x / 65536 % 256 = x / 256 % 256 ∧
    bswap32 x / 16777216 % 256 = x % 256 := by
  unfold bswap32
  have h0 : x % 256 < 256 := Nat.mod_lt _ (by decide)
  have h1 : x / 256 % 256 < 256 := Nat.mod_lt _ (by decide)
  have h2 : x / 65536 % 256 < 256 := Nat.mod_lt _ (by decide)
  have h3 : x / 16777216 % 256 < 256 := Nat.mod_lt _ (by decide)
  generalize x % 256 = a at h0 ⊢
  generalize x / 256 % 256 = b at h1 ⊢
  generalize x / 65536 % 256 = c at h2 ⊢
  generalize x / 16777216 % 256 = d at h3 ⊢
  refine ⟨?_, ?_, ?_, ?_⟩ <;> omega

theorem bswap32_mod (x : Nat) : bswap32 x % 256 = x / 16777216 % 256 :=
  (bswap32_bytes x).1

theorem bswap32_div_mod_1 (x : Nat) : bswap32 x / 256 % 256 = x / 65536 % 256 :=
  (bswap32_bytes x).2.1

theorem bswap32_div_mod_2 (x : Nat) : bswap32 x / 65536 % 256 = x / 256 % 256 :=
  (bswap32_bytes x).2.2.1

theorem bswap32_div_mod_3 (x : Nat) : bswap32 x / 16777216 % 256 = x % 256 :=
  (bswap32_bytes x).2.2.2

/-- On bytes, converting what the host loads to host order is reading the two
bytes big-endian. -/
theorem ntohs_load_u16 (abi : ABI) (m : Bytes) (p : Nat) (h0 : peek m p < 256)
    (h1 : peek m (p + 1) < 256) : ntohs abi (load_u16 abi m p) = be16 m p := by
  unfold ntohs htons load_u16 be16
  generalize peek m p = a at h0 ⊢
  generalize peek m (p + 1) = b at h1 ⊢
  cases abi.little_endian
  · simp only [Bool.false_eq_true, if_false]
    exact Nat.mod_eq_of_lt (by omega)
  · simp only [if_true]
    rw [Nat.mod_eq_of_lt (by omega : a + 256 * b < 65536)]
    unfold bswap16
    omega

/-- On bytes, converting what the host loads to host order is reading the four
bytes big-endian. -/
theorem ntohl_load_u32 (abi : ABI) (m : Bytes) (p : Nat) (h0 : peek m p < 256)
    (h1 : peek m (p + 1) < 256) (h2 : peek m (p + 2) < 256) (h3 : peek m (p + 3) < 256) :
    ntohl abi (load_u32 abi m p) = be32 m p := by
  unfold ntohl htonl load_u32 be32
  generalize peek m p = a at h0 ⊢
  generalize peek m (p + 1) = b at h1 ⊢
  generalize peek m (p + 2) = c at h2 ⊢
  generalize peek m (p + 3) = d at h3 ⊢
  cases abi.little_endian
  · simp only [Bool.false_eq_true, if_false]
    exact Nat.mod_eq_of_lt (by omega)
  · simp only [if_true]
    rw [Nat.mod_eq_of_lt
      (by omega : a + 256 * b + 65536 * c + 16777216 * d < 4294967296)]
    unfold bswap32
    omega

/-! ## The builders as chains of stores -/

theorem make_add_simple_flow_data (abi : ABI) (junk : Nat → Nat) (f : flow) (b p : Nat) :
    (make_add_simple_flow abi junk f b p).data =
      store_u16 abi (store_u16 abi (store_u16 abi (store_u32 abi (store_u32 abi
      (store_u16 abi (store_u16 abi (store_u16 abi (store_u16 abi (store_u8
      (store_u32 abi (store_u32 abi (store_u16 abi (store_u16 abi (memcpy (memcpy
      (store_u16 abi (store_u16 abi (store_u16 abi (store_u8 (store_u8
        (memset ((List.range 68).map (fun i => junk i % 256)) 0 0 68)
        0 1) 1 4) 2 (htons abi 68)) 8 (htons abi 0)) 10 f.in_port)
        12 f.dl_src 6) 18 f.dl_dst 6) 24 f.dl_vlan) 26 f.dl_type) 28 f.nw_src)
        32 f.nw_dst) 36 f.nw_proto) 40 f.tp_src) 42 f.tp_dst) 44 (htons abi 0))
        46 (htons abi 60)) 48 (htonl abi b)) 52 (htonl abi 0)) 56 (htons abi 0))
        60 (htons abi 0)) 62 (htons abi p) := by
  simp only [make_add_simple_flow, buffer_put_uninit, buffer_new, sizeof_ofp_flow_mod,
    sizeof_ofp_action, off_header_version, off_header_type, off_header_length,
    off_match_wildcards, off_match_in_port, off_match_dl_src, off_match_dl_dst,
    off_match_dl_vlan, off_match_dl_type, off_match_nw_src, off_match_nw_dst,
    off_match_nw_proto, off_match_tp_src, off_match_tp_dst, off_flow_mod_header,
    off_flow_mod_match, off_flow_mod_command, off_flow_mod_max_idle, off_flow_mod_buffer_id,
    off_flow_mod_group_id, off_flow_mod_actions, off_action_type, off_action_arg,
    off_output_max_len, off_output_port, union_at, elem_at, List.nil_append, List.length_nil,
    Nat.zero_add, Nat.reduceAdd, Nat.reduceMul, Nat.zero_mul, Nat.add_zero, c_array, uint8_t,
    OFP_ETH_ALEN, OFP_VERSION, OFPT_FLOW_MOD, OFPFC_ADD, OFPAT_OUTPUT]

theorem make_buffered_packet_out_data (abi : ABI) (junk : Nat → Nat) (b i o : Nat) :
    (make_buffered_packet_out abi junk b i o).data =
      store_u16 abi (store_u16 abi (store_u16 abi (store_u16 abi (store_u16 abi
      (store_u32 abi (store_u16 abi (store_u8 (store_u8
        (memset ((List.range 28).map (fun i => junk i % 256)) 0 0 28)
        0 1) 1 3) 2 (htons abi 28)) 8 (htonl abi b)) 12 (htons abi i)) 14 (htons abi o))
        16 (htons abi 0)) 20 (htons abi 0)) 22 (htons abi o) := by
  simp only [make_buffered_packet_out, buffer_put_uninit, buffer_new, sizeof_ofp_packet_out,
    sizeof_ofp_action, off_header_version, off_header_type, off_header_length,
    off_packet_out_header, off_packet_out_buffer_id, off_packet_out_in_port,
    off_packet_out_out_port, off_packet_out_u, off_action_type, off_action_arg,
    off_output_max_len, off_output_port, union_at, elem_at, List.nil_append, List.length_nil,
    Nat.zero_add, Nat.reduceAdd, Nat.reduceMul, Nat.zero_mul, Nat.add_zero,
    OFP_VERSION, OFPT_PACKET_OUT, OFPAT_OUTPUT]

theorem make_unbuffered_packet_out_data (abi : ABI) (junk : Nat → Nat) (packet : buffer)
    (i o : Nat) :
    (make_unbuffered_packet_out abi junk packet i o).data =
      memcpy (store_u16 abi (store_u16 abi (store_u32 abi (store_u16 abi (store_u8 (store_u8
        (memset ((List.range (16 + packet.data.length)).map (fun i => junk i % 256)) 0 0 16)
        0 1) 1 3) 2 (htons abi (16 + packet.data.length))) 8 (htonl abi 4294967295))
        12 (htons abi i)) 14 (htons abi o)) 16 packet.data packet.data.length := by
  simp only [make_unbuffered_packet_out, buffer_put_uninit, buffer_new, sizeof_ofp_packet_out,
    off_header_version, off_header_type, off_header_length,
    off_packet_out_header, off_packet_out_buffer_id, off_packet_out_in_port,
    off_packet_out_out_port, off_packet_out_u, union_at, List.nil_append, List.length_nil,
    Nat.zero_add, Nat.reduceAdd, Nat.add_zero, buffer.size,
    OFP_VERSION, OFPT_PACKET_OUT, UINT32_MAX]

theorem size_make_add_simple_flow (abi : ABI) (junk : Nat → Nat) (f : flow) (b p : Nat) :
    (make_add_simple_flow abi junk f b p).size = 68 := by
  simp [buffer.size, make_add_simple_flow_data]

theorem size_make_buffered_packet_out (abi : ABI) (junk : Nat → Nat) (b i o : Nat) :
    (make_buffered_packet_out abi junk b i o).size = 28 := by
  simp [buffer.size, make_buffered_packet_out_data]

theorem size_make_unbuffered_packet_out (abi : ABI) (junk : Nat → Nat) (packet : buffer)
    (i o : Nat) :
    (make_unbuffered_packet_out abi junk packet i o).size = 16 + packet.size := by
  simp [buffer.size, make_unbuffered_packet_out_data]

/-! ## Lists of bytes -/

theorem list_length_six (l : List Nat) (h : l.length = 6) :
    l = [peek l 0, peek l 1, peek l 2, peek l 3, peek l 4, peek l 5] := by
  match l, h with
  | [_, _, _, _, _, _], _ => rfl

theorem drop_memcpy (m src : Bytes) (dst : Nat) (h : m.length = dst + src.length) :
    (memcpy m dst src src.length).drop dst = src := by
  apply List.ext_getElem?
  intro i
  rw [List.getElem?_drop, getElem?_memcpy]
  by_cases hi : i < src.length
  · have hc : dst ≤ dst + i ∧ dst + i < dst + src.length ∧ dst + i < m.length := by omega
    rw [if_pos hc, peek_eq_getElem?, Nat.add_sub_cancel_left, List.getElem?_eq_getElem hi]
    rfl
  · have hc : ¬(dst ≤ dst + i ∧ dst + i < dst + src.length ∧ dst + i < m.length) := by omega
    rw [if_neg hc, List.getElem?_eq_none (by omega), List.getElem?_eq_none (by omega)]

theorem bytes_at_two (m : Bytes) (p : Nat) (h : p + 2 ≤ m.length) :
    bytes_at m p 2 = [peek m p, peek m (p + 1)] := by
  rw [bytes_at_succ m p 1 (by omega), bytes_at_succ m (p + 1) 0 (by omega), bytes_at_zero]

theorem bytes_at_three (m : Bytes) (p : Nat) (h : p + 3 ≤ m.length) :
    bytes_at m p 3 = [peek m p, peek m (p + 1), peek m (p + 2)] := by
  rw [bytes_at_succ m p 2 (by omega), bytes_at_two m (p + 1) (by omega)]

theorem bytes_at_four (m : Bytes) (p : Nat) (h : p + 4 ≤ m.length) :
    bytes_at m p 4 = [peek m p, peek m (p + 1), peek m (p + 2), peek m (p + 3)] := by
  rw [bytes_at_succ m p 3 (by omega), bytes_at_three m (p + 1) (by omega)]

theorem bytes_at_six (m : Bytes) (p : Nat) (h : p + 6 ≤ m.length) :
    bytes_at m p 6 = [peek m p, peek m (p + 1), peek m (p + 2), peek m (p + 3),
      peek m (p + 4), peek m (p + 5)] := by
  rw [bytes_at_succ m p 5 (by omega), bytes_at_succ m (p + 1) 4 (by omega),
    bytes_at_four m (p + 1 + 1) (by omega)]

/-! ## The length field of `make_unbuffered_packet_out` -/

theorem unbuffered_length_bytes (abi : ABI) (junk : Nat → Nat) (packet : buffer)
    (i o : Nat) :
    peek (make_unbuffered_packet_out abi junk packet i o).data 2 =
      (16 + packet.size) % 65536 / 256 % 256 ∧
    peek (make_unbuffered_packet_out abi junk packet i o).data 3 =
      (16 + packet.size) % 65536 % 256 := by
  have h2 : 2 < 16 + packet.data.length := by omega
  have h3 : 3 < 16 + packet.data.length := by omega
  obtain ⟨le, ps, ua⟩ := abi
  cases le <;>
  simp [make_unbuffered_packet_out_data, buffer.size,
    peek_store_u16, peek_store_u32, peek_store_u8, peek_memset, peek_memcpy, peek_uninit,
    htons, bswap16_mod, bswap16_div_mod, h2, h3]

theorem unbuffered_length_field (abi : ABI) (junk : Nat → Nat) (packet : buffer)
    (i o : Nat) :
    ntohs abi (load_u16 abi (make_unbuffered_packet_out abi junk packet i o).data 2) =
      (16 + packet.size) % 65536 := by
  obtain ⟨h2, h3⟩ := unbuffered_length_bytes abi junk packet i o
  rw [ntohs_load_u16 abi _ 2 (by rw [h2]; omega) (by rw [h3]; omega), be16, h2, h3]
  omega

/-! ## Netlink framing of `dpif_send_openflow` -/

theorem nlmsg_hdrlen : NLMSG_HDRLEN = 16 := by decide
theorem genl_hdrlen : GENL_HDRLEN = 4 := by decide
theorem nla_hdrlen : NLA_HDRLEN = 4 := by decide

theorem length_nl_msg_put_uninit (junk : Nat → Nat) (msg : buffer) (size : Nat) :
    (nl_msg_put_uninit junk msg size).1.data.length =
      msg.data.length + (size + (NLMSG_ALIGN size - size)) ∧
    (nl_msg_put_uninit junk msg size).2 = msg.data.length := by
  simp [nl_msg_put_uninit, buffer_put_uninit]

theorem length_nl_msg_put_genlmsghdr (abi : ABI) (junk : Nat → Nat) (msg : buffer)
    (sock : nl_sock) (e family flags cmd version : Nat) :
    (nl_msg_put_genlmsghdr abi junk msg sock e family flags cmd version).data.length =
      msg.data.length + 20 := by
  simp [nl_msg_put_genlmsghdr, nl_msg_put_uninit, buffer_put_uninit, nlmsg_hdrlen, genl_hdrlen,
    NLMSG_ALIGN, NLMSG_ALIGNTO]

theorem length_nl_msg_put_u32 (abi : ABI) (junk : Nat → Nat) (msg : buffer)
    (type value : Nat) :
    (nl_msg_put_u32 abi junk msg type value).data.length = msg.data.length + 8 := by
  simp [nl_msg_put_u32, nl_msg_put_unspec_uninit, nl_msg_put_uninit, buffer_put_uninit,
    nla_hdrlen, uint32_t, NLMSG_ALIGN, NLMSG_ALIGNTO]

theorem off_nla_len (p : Nat) : nlattr_at p "nla_len" = p := by
  simp [nlattr_at, (by decide : c_offsetof nlattr_fields "nla_len" = 0)]
theorem off_nla_type (p : Nat) : nlattr_at p "nla_type" = p + 2 := by
  simp [nlattr_at, (by decide : c_offsetof nlattr_fields "nla_type" = 2)]
theorem off_nlmsg_len (p : Nat) : nlmsghdr_at p "nlmsg_len" = p := by
  simp [nlmsghdr_at, (by decide : c_offsetof nlmsghdr_fields "nlmsg_len" = 0)]

theorem load_u16_store_u16_same (abi : ABI) (m : Bytes) (p v : Nat) (h : p + 1 < m.length) :
    load_u16 abi (store_u16 abi m p v) p = v % 65536 := by
  have h0 : p < m.length := by omega
  unfold load_u16
  simp only [peek_store_u16, h, h0, and_self, true_and, if_true, Nat.succ_ne_self,
    (by omega : ¬(p + 1 = p)), if_false, false_and]
  cases abi.little_endian <;> simp <;> omega

theorem load_u16_store_u16_disj (abi : ABI) (m : Bytes) (p q v : Nat)
    (h : q + 2 ≤ p ∨ p + 2 ≤ q) :
    load_u16 abi (store_u16 abi m q v) p = load_u16 abi m p := by
  have n1 : ¬(q + 1 = p) := by omega
  have n2 : ¬(q = p) := by omega
  have n3 : ¬(q = p + 1) := by omega
  unfold load_u16
  simp [peek_store_u16, n1, n2, n3]

theorem load_u16_store_u32_disj (abi : ABI) (m : Bytes) (p q v : Nat)
    (h : q + 4 ≤ p ∨ p + 2 ≤ q) :
    load_u16 abi (store_u32 abi m q v) p = load_u16 abi m p := by
  have n1 : ¬(q + 1 = p) := by omega
  have n2 : ¬(q = p) := by omega
  have n3 : ¬(q + 2 = p) := by omega
  have n4 : ¬(q + 3 = p) := by omega
  have n5 : ¬(q = p + 1) := by omega
  have n6 : ¬(q + 2 = p + 1) := by omega
  have n7 : ¬(q + 3 = p + 1) := by omega
  unfold load_u16
  simp [peek_store_u32, n1, n2, n3, n4, n5, n6, n7]

theorem load_u16_append_left (abi : ABI) (a b : Bytes) (p : Nat) (h : p + 1 < a.length) :
    load_u16 abi (a ++ b) p = load_u16 abi a p := by
  unfold load_u16
  simp only [peek_append, h, (by omega : p < a.length), if_true]

theorem nla_align_sub_le (x : Nat) : NLA_ALIGN x - x ≤ 3 := by
  unfold NLA_ALIGN NLA_ALIGNTO; omega

theorem nla_align_pad (x : Nat) : NLA_ALIGN x - x = (4 - x % 4) % 4 := by
  unfold NLA_ALIGN NLA_ALIGNTO; omega

theorem take_zeros (n : Nat) (h : n ≤ 4) :
    (List.replicate NLA_ALIGNTO 0).take n = List.replicate n 0 := by
  rw [List.take_replicate, NLA_ALIGNTO, Nat.min_eq_left h]

/-- The frame that `dpif_send_openflow` hands to `nl_sock_sendv`, on a target
whose pointers have at least four bytes. -/
theorem send_openflow_frame_shape (abi : ABI) (nl : openflow_netlink_h) (junk : Nat → Nat)
    (fam : Nat) (dp : dpif) (buf : buffer) (wait : Bool) (hp : 4 ≤ abi.ptr_size) :
    (dpif_send_openflow_frame abi nl junk fam dp buf wait).nla = 28 ∧
    (dpif_send_openflow_frame abi nl junk fam dp buf wait).hdr_size = 28 + abi.ptr_size ∧
    load_u16 abi (dpif_send_openflow_frame abi nl junk fam dp buf wait).call.datagram 28 =
      (abi.ptr_size + buf.size) % 65536 ∧
    (dpif_send_openflow_frame abi nl junk fam dp buf wait).pad_bytes =
      NLA_ALIGN ((abi.ptr_size + buf.size) % 65536) - (abi.ptr_size + buf.size) % 65536 ∧
    (dpif_send_openflow_frame abi nl junk fam dp buf wait).call.datagram.drop
      (28 + abi.ptr_size) = buf.data ++ List.replicate
        (dpif_send_openflow_frame abi nl junk fam dp buf wait).pad_bytes 0 := by
  have hP : (nl_msg_put_u32 abi junk (nl_msg_put_genlmsghdr abi junk
      (buffer_use (c_array uint32_t (64 / 4)).size) dp.sock 32 fam NLM_F_REQUEST
      nl.DP_GENL_C_OPENFLOW 1) nl.DP_GENL_A_DP_IDX (to_u32 dp.dp_idx)).data.length = 28 := by
    rw [length_nl_msg_put_u32, length_nl_msg_put_genlmsghdr]; rfl
  simp only [dpif_send_openflow_frame, buffer_put_uninit, off_nla_len, off_nla_type,
    off_nlmsg_len, nl_msg_nlmsghdr, buffer.size, hP]
  generalize (nl_msg_put_u32 abi junk (nl_msg_put_genlmsghdr abi junk
      (buffer_use (c_array uint32_t (64 / 4)).size) dp.sock 32 fam NLM_F_REQUEST
      nl.DP_GENL_C_OPENFLOW 1) nl.DP_GENL_A_DP_IDX (to_u32 dp.dp_idx)).data = P at hP
  have hJ : (P ++ List.map (fun i => junk i % 256) (List.range abi.ptr_size)).length =
      28 + abi.ptr_size := by simp [hP]
  generalize P ++ List.map (fun i => junk i % 256) (List.range abi.ptr_size) = H at hJ
  have key : load_u16 abi (store_u16 abi (store_u16 abi H 28 (abi.ptr_size + buf.data.length))
      (28 + 2) nl.DP_GENL_A_OPENFLOW) 28 = (abi.ptr_size + buf.data.length) % 65536 := by
    rw [load_u16_store_u16_disj _ _ _ _ _ (by omega),
      load_u16_store_u16_same _ _ _ _ (by omega)]
  simp only [key]
  generalize hpd : NLA_ALIGN ((abi.ptr_size + buf.data.length) % 65536) -
    (abi.ptr_size + buf.data.length) % 65536 = pad
  have hle : pad ≤ 4 := by
    have h3 := nla_align_sub_le ((abi.ptr_size + buf.data.length) % 65536)
    omega
  simp only [List.take_length]
  simp only [length_store_u32, length_store_u16, hJ, sendv_call.datagram, true_and]
  refine ⟨?_, ?_⟩
  · by_cases hpad : pad = 0
    · simp only [hpad, ne_eq, not_true_eq_false, if_false, List.foldr]
      rw [load_u16_append_left _ _ _ _ (by simp [hJ]; omega),
        load_u16_store_u32_disj _ _ _ _ _ (by omega), key]
    · simp only [hpad, ne_eq, not_false_eq_true, if_true, List.cons_append, List.nil_append,
        List.foldr]
      rw [load_u16_append_left _ _ _ _ (by simp [hJ]; omega),
        load_u16_store_u32_disj _ _ _ _ _ (by omega), key]
  · by_cases hpad : pad = 0
    · simp only [hpad, ne_eq, not_true_eq_false, if_false, List.foldr]
      rw [List.drop_left' (by simp [hJ])]
      simp
    · simp only [hpad, ne_eq, not_false_eq_true, if_true, List.cons_append, List.nil_append,
        List.foldr]
      rw [List.drop_left' (by simp [hJ]), take_zeros pad hle]
      simp

theorem ofp_maxlen_le (abi : ABI) (ha : abi.u64_align = 4 ∨ abi.u64_align = 8) :
    OFP_MAXLEN abi ≤ 9472 := by
  simp only [OFP_MAXLEN, ofp_data_hello, ofp_data_hello_fields, uint64_t]
  rcases ha with h | h <;> rw [h] <;> decide

/-- On a target whose pointers have four bytes, the attribute emitted by
`dpif_send_openflow` for a buffer of at most `OFP_MAXLEN` bytes has `nla_len`
equal to the attribute header plus the payload, the payload directly after the
four-byte attribute header, and `(4 - nla_len mod 4) mod 4` zero bytes after
it. -/
theorem send_openflow_attribute_of_ptr4 (abi : ABI) (nl : openflow_netlink_h)
    (junk : Nat → Nat) (fam : Nat) (dp : dpif) (buf : buffer) (wait : Bool)
    (hp : abi.ptr_size = 4) (ha : abi.u64_align = 4 ∨ abi.u64_align = 8)
    (hn : buf.size ≤ OFP_MAXLEN abi) :
    load_u16 abi (dpif_send_openflow_frame abi nl junk fam dp buf wait).call.datagram
      (nlattr_at (dpif_send_openflow_frame abi nl junk fam dp buf wait).nla "nla_len") =
      NLA_HDRLEN + buf.size ∧
    (dpif_send_openflow_frame abi nl junk fam dp buf wait).call.datagram.drop
      ((dpif_send_openflow_frame abi nl junk fam dp buf wait).nla + NLA_HDRLEN) =
      buf.data ++ List.replicate ((4 - (NLA_HDRLEN + buf.size) % 4) % 4) 0 := by
  obtain ⟨h1, _, h3, h4, h5⟩ :=
    send_openflow_frame_shape abi nl junk fam dp buf wait (by omega)
  have hmax : OFP_MAXLEN abi ≤ 9472 := ofp_maxlen_le abi ha
  rw [h4, nla_align_pad] at h5
  rw [hp] at h3 h5
  rw [Nat.mod_eq_of_lt (by omega : 4 + buf.size < 65536)] at h3 h5
  rw [h1, off_nla_len, nla_hdrlen]
  exact ⟨h3, h5⟩

/-- On a target whose pointers have eight bytes, the attribute emitted by
`dpif_send_openflow` has `nla_len` equal to the payload size plus 8, and the
payload starts 8 bytes after the start of the attribute. -/
theorem send_openflow_attribute_of_ptr8 (abi : ABI) (nl : openflow_netlink_h)
    (junk : Nat → Nat) (fam : Nat) (dp : dpif) (buf : buffer) (wait : Bool)
    (hp : abi.ptr_size = 8) (ha : abi.u64_align = 4 ∨ abi.u64_align = 8)
    (hn : buf.size ≤ OFP_MAXLEN abi) :
    load_u16 abi (dpif_send_openflow_frame abi nl junk fam dp buf wait).call.datagram
      (nlattr_at (dpif_send_openflow_frame abi nl junk fam dp buf wait).nla "nla_len") =
      8 + buf.size ∧
    (dpif_send_openflow_frame abi nl junk fam dp buf wait).call.datagram.drop
      ((dpif_send_openflow_frame abi nl junk fam dp buf wait).nla + 8) =
      buf.data ++ List.replicate ((4 - (8 + buf.size) % 4) % 4) 0 := by
  obtain ⟨h1, _, h3, h4, h5⟩ :=
    send_openflow_frame_shape abi nl junk fam dp buf wait (by omega)
  have hmax : OFP_MAXLEN abi ≤ 9472 := ofp_maxlen_le abi ha
  rw [h4, nla_align_pad] at h5
  rw [hp] at h3 h5
  rw [Nat.mod_eq_of_lt (by omega : 8 + buf.size < 65536)] at h3 h5
  rw [h1, off_nla_len]
  exact ⟨h3, h5⟩

/-! ## The request of `dpif_dump_flows` -/

theorem length_nl_msg_put_u16 (abi : ABI) (junk : Nat → Nat) (msg : buffer)
    (type value : Nat) :
    (nl_msg_put_u16 abi junk msg type value).data.length = msg.data.length + 8 := by
  simp [nl_msg_put_u16, nl_msg_put_unspec_uninit, nl_msg_put_uninit, buffer_put_uninit,
    nla_hdrlen, uint16_t, NLMSG_ALIGN, NLMSG_ALIGNTO]

theorem nl_msg_put_flow_mod (abi : ABI) (junk : Nat → Nat) (msg : buffer) (type : Nat) :
    (nl_msg_put_unspec_uninit abi junk msg type ofp_flow_mod.size).1.data.length =
      msg.data.length + 60 ∧
    (nl_msg_put_unspec_uninit abi junk msg type ofp_flow_mod.size).2 = msg.data.length + 4 := by
  simp [nl_msg_put_unspec_uninit, nl_msg_put_uninit, buffer_put_uninit,
    nla_hdrlen, sizeof_ofp_flow_mod, NLMSG_ALIGN, NLMSG_ALIGNTO]

/-- The request of `dpif_dump_flows`: 56 bytes are reserved for the FLOW_MOD
message at offset 40 of a 96-byte request, and its header length field holds
the size of a pointer. -/
theorem dump_flows_request_shape (abi : ABI) (nl : openflow_netlink_h) (junk : Nat → Nat)
    (fam : Nat) (dp : dpif) (table : Int) (mtch : Option Bytes) :
    (dpif_dump_flows_request abi nl junk fam dp table mtch).2 = 40 ∧
    (dpif_dump_flows_request abi nl junk fam dp table mtch).1.size = 40 + ofp_flow_mod.size ∧
    be16 (dpif_dump_flows_request abi nl junk fam dp table mtch).1.data
      (ofp_header_at (ofp_flow_mod_at 40 "header") "length") = abi.ptr_size % 65536 := by
  obtain ⟨h1, h2⟩ := nl_msg_put_flow_mod abi junk (nl_msg_put_u16 abi junk
    (nl_msg_put_u32 abi junk (nl_msg_put_genlmsghdr abi junk (buffer_init 0) dp.sock 0 fam
      NLM_F_REQUEST nl.DP_GENL_C_QUERY_FLOW 1) nl.DP_GENL_A_DP_IDX (to_u32 dp.dp_idx))
    nl.DP_GENL_A_TABLEIDX (to_u16 table)) nl.DP_GENL_A_FLOW
  rw [length_nl_msg_put_u16, length_nl_msg_put_u32, length_nl_msg_put_genlmsghdr] at h1 h2
  simp only [buffer_init, List.length_nil, Nat.zero_add, Nat.reduceAdd,
    sizeof_ofp_flow_mod] at h1 h2
  simp only [dpif_dump_flows_request, buffer_init, h2, OpenFlow.buffer.size,
    off_flow_mod_header, off_flow_mod_match, off_header_version, off_header_type,
    off_header_length, off_match_wildcards, sizeof_ofp_flow_mod, sizeof_ofp_match,
    Nat.reduceAdd, true_and]
  generalize (nl_msg_put_unspec_uninit abi junk (nl_msg_put_u16 abi junk
    (nl_msg_put_u32 abi junk (nl_msg_put_genlmsghdr abi junk ⟨[]⟩ dp.sock 0 fam
      NLM_F_REQUEST nl.DP_GENL_C_QUERY_FLOW 1) nl.DP_GENL_A_DP_IDX (to_u32 dp.dp_idx))
    nl.DP_GENL_A_TABLEIDX (to_u16 table)) nl.DP_GENL_A_FLOW 56).1.data = R at h1
  obtain ⟨le, ps, ua⟩ := abi
  cases mtch <;> cases le <;>
  simp [be16, peek_store_u16, peek_store_u8, peek_memset, peek_memcpy, h1, htons,
    bswap16_mod, bswap16_div_mod] <;> omega

/-! ## The iovecs of `dpif_send_openflow` -/

theorem load_u32_store_u32_same (abi : ABI) (m : Bytes) (p v : Nat) (h : p + 3 < m.length) :
    load_u32 abi (store_u32 abi m p v) p = v % 4294967296 := by
  have h0 : p < m.length := by omega
  have h1 : p + 1 < m.length := by omega
  have h2 : p + 2 < m.length := by omega
  have n1 : ¬(p + 3 = p) := by omega
  have n2 : ¬(p + 2 = p) := by omega
  have n3 : ¬(p + 1 = p) := by omega
  have n4 : ¬(p + 3 = p + 1) := by omega
  have n5 : ¬(p + 2 = p + 1) := by omega
  have n6 : ¬(p + 3 = p + 2) := by omega
  have n7 : ¬(p = p + 1) := by omega
  unfold load_u32
  simp only [peek_store_u32, h, h0, h1, h2, n1, n2, n3, n4, n5, n6, and_self, and_true,
    if_true, if_false, false_and]
  cases abi.little_endian <;> simp <;> omega

/-- The frame that `dpif_send_openflow` hands to `nl_sock_sendv`, on every
target: the header part, the payload and, when there is padding, the zeros. -/
theorem send_openflow_frame_iov (abi : ABI) (nl : openflow_netlink_h) (junk : Nat → Nat)
    (fam : Nat) (dp : dpif) (buf : buffer) (wait : Bool) :
    ∃ H : Bytes,
      H.length = 28 + abi.ptr_size ∧
      load_u32 abi H 0 = (28 + abi.ptr_size + buf.size +
        (dpif_send_openflow_frame abi nl junk fam dp buf wait).pad_bytes) % 4294967296 ∧
      (dpif_send_openflow_frame abi nl junk fam dp buf wait).pad_bytes ≤ 3 ∧
      (dpif_send_openflow_frame abi nl junk fam dp buf wait).hdr_size = 28 + abi.ptr_size ∧
      (dpif_send_openflow_frame abi nl junk fam dp buf wait).call.wait = false ∧
      (dpif_send_openflow_frame abi nl junk fam dp buf wait).call.iov =
        [H, buf.data] ++
          (if (dpif_send_openflow_frame abi nl junk fam dp buf wait).pad_bytes ≠ 0 then
            [List.replicate (dpif_send_openflow_frame abi nl junk fam dp buf wait).pad_bytes 0]
          else []) := by
  have hP : (nl_msg_put_u32 abi junk (nl_msg_put_genlmsghdr abi junk
      (buffer_use (c_array uint32_t (64 / 4)).size) dp.sock 32 fam NLM_F_REQUEST
      nl.DP_GENL_C_OPENFLOW 1) nl.DP_GENL_A_DP_IDX (to_u32 dp.dp_idx)).data.length = 28 := by
    rw [length_nl_msg_put_u32, length_nl_msg_put_genlmsghdr]; rfl
  simp only [dpif_send_openflow_frame, buffer_put_uninit, off_nla_len, off_nla_type,
    off_nlmsg_len, nl_msg_nlmsghdr, OpenFlow.buffer.size, hP]
  generalize (nl_msg_put_u32 abi junk (nl_msg_put_genlmsghdr abi junk
      (buffer_use (c_array uint32_t (64 / 4)).size) dp.sock 32 fam NLM_F_REQUEST
      nl.DP_GENL_C_OPENFLOW 1) nl.DP_GENL_A_DP_IDX (to_u32 dp.dp_idx)).data = P at hP
  have hJ : (P ++ List.map (fun i => junk i % 256) (List.range abi.ptr_size)).length =
      28 + abi.ptr_size := by simp [hP]
  generalize P ++ List.map (fun i => junk i % 256) (List.range abi.ptr_size) = H at hJ
  generalize hx : load_u16 abi (store_u16 abi (store_u16 abi H 28
      (abi.ptr_size + buf.data.length)) (28 + 2) nl.DP_GENL_A_OPENFLOW) 28 = x
  have hle := nla_align_sub_le x
  generalize NLA_ALIGN x - x = pad at hle
  simp only [List.take_length]
  simp only [length_store_u32, length_store_u16, hJ]
  refine ⟨store_u32 abi (store_u16 abi (store_u16 abi H 28 (abi.ptr_size + buf.data.length))
    (28 + 2) nl.DP_GENL_A_OPENFLOW) 0 (28 + abi.ptr_size + buf.data.length + pad),
    by simp [hJ], ?_, hle, trivial, trivial, ?_⟩
  · rw [load_u32_store_u32_same _ _ _ _ (by simp [hJ]; omega)]
  · by_cases hpad : pad = 0
    · simp [hpad]
    · simp only [hpad, ne_eq, not_false_eq_true, if_true]
      rw [take_zeros pad (by omega)]

/-- Whatever its argument `wait`, `dpif_send_openflow` gives `false` to
`nl_sock_sendv`. -/
theorem send_openflow_wait_is_false (abi : ABI) (nl : openflow_netlink_h)
    (junk : Nat → Nat) (fam : Nat) (nl_sock_sendv : sendv_call → Nat) (dp : dpif)
    (buf : buffer) (wait : Bool) :
    (dpif_send_openflow abi nl junk fam nl_sock_sendv dp buf wait).1.wait = false := by
  obtain ⟨_, h⟩ := send_openflow_frame_iov abi nl junk fam dp buf wait
  exact h.2.2.2.2.1

/-! ## The read loop of `dpif_recv_openflow` -/

/-- One turn of the loop is one `nl_sock_recv`. -/
theorem recv_loop_step (wait : Bool) (sock : List recv_result) (n : Nat) :
    dpif_recv_openflow_loop wait sock n =
      match nl_sock_recv sock wait with
      | none => none
      | some (r, sock') =>
        if recv_again r then dpif_recv_openflow_loop wait sock' (n + 1)
        else some (r, sock', n + 1) := by
  cases sock with
  | nil =>
    cases wait <;>
    simp [dpif_recv_openflow_loop, nl_sock_recv, recv_again, EAGAIN, ENOBUFS]
  | cons r rest => simp [dpif_recv_openflow_loop, nl_sock_recv]

theorem recv_loop_skip (wait : Bool) (skipped : List recv_result) (sock : List recv_result)
    (n : Nat) (hs : ∀ x ∈ skipped, recv_again x = true) :
    dpif_recv_openflow_loop wait (skipped ++ sock) n =
      dpif_recv_openflow_loop wait sock (n + skipped.length) := by
  induction skipped generalizing n with
  | nil => simp
  | cons x xs ih =>
    have hx : recv_again x = true := hs x (List.mem_cons_self _ _)
    rw [List.cons_append, dpif_recv_openflow_loop, if_pos hx,
      ih (n + 1) (fun y hy => hs y (List.mem_cons_of_mem _ hy)), List.length_cons]
    congr 1
    omega

theorem recv_loop_result (wait : Bool) (sock : List recv_result) (n : Nat)
    (r : recv_result) (sock' : List recv_result) (n' : Nat)
    (h : dpif_recv_openflow_loop wait sock n = some (r, sock', n')) :
    recv_again r = false ∧ (r ∈ sock ∨ (r = .err EAGAIN ∧ wait = false)) ∧
      (sock = [] → r = .err EAGAIN) := by
  induction sock generalizing n with
  | nil =>
    cases wait
    · simp [dpif_recv_openflow_loop, recv_again, EAGAIN, ENOBUFS] at h
      obtain ⟨rfl, _, _⟩ := h
      exact ⟨by decide, Or.inr ⟨rfl, rfl⟩, fun _ => rfl⟩
    · simp [dpif_recv_openflow_loop] at h
  | cons x xs ih =>
    rw [dpif_recv_openflow_loop] at h
    by_cases hx : recv_again x = true
    · rw [if_pos hx] at h
      obtain ⟨h1, h2, _⟩ := ih (n + 1) h
      refine ⟨h1, ?_, fun hc => by simp at hc⟩
      rcases h2 with h2 | h2
      · exact Or.inl (List.mem_cons_of_mem _ h2)
      · exact Or.inr h2
    · rw [if_neg hx] at h
      simp only [Option.some.injEq, Prod.mk.injEq] at h
      obtain ⟨rfl, _, _⟩ := h
      exact ⟨by simpa using hx, Or.inl (List.mem_cons_self _ _), fun hc => by simp at hc⟩

/-! ## `nl_policy_parse` -/

theorem recv_openflow_of_loop_err (abi : ABI) (nl : openflow_netlink_h) (fam : Nat)
    (dp : dpif) (sock : List recv_result) (wait : Bool) (e : Int)
    (sock' : List recv_result) (n : Nat)
    (h : dpif_recv_openflow_loop wait sock 0 = some (.err e, sock', n)) :
    dpif_recv_openflow abi nl fam dp sock wait = some ⟨e, none, n, sock'⟩ := by
  simp [dpif_recv_openflow, h]

theorem recv_openflow_of_loop_msg (abi : ABI) (nl : openflow_netlink_h) (fam : Nat)
    (dp : dpif) (sock : List recv_result) (wait : Bool) (m : nl_msg)
    (sock' : List recv_result) (n : Nat)
    (h : dpif_recv_openflow_loop wait sock 0 = some (.msg m, sock', n)) :
    dpif_recv_openflow abi nl fam dp sock wait =
      some ⟨(dpif_recv_openflow_check abi nl fam dp m).1,
        (dpif_recv_openflow_check abi nl fam dp m).2, n, sock'⟩ := by
  simp [dpif_recv_openflow, h]

/-- The check after the loop gives `EPROTO` and no buffer, or 0 and the
message with `data` at the payload of the `OPENFLOW` attribute and `size` the
smaller of the header length field and the payload length. -/
theorem recv_openflow_check_cases (abi : ABI) (nl : openflow_netlink_h) (fam : Nat)
    (dp : dpif) (m : nl_msg) :
    dpif_recv_openflow_check abi nl fam dp m = (EPROTO, none) ∨
    ∃ attrs, m.genlmsghdr = true ∧ m.nlmsg_type = fam ∧
      nl_policy_parse m (openflow_policy abi nl) = some attrs ∧
      nl_attr_get_u32 abi m (nl_attrs_get attrs nl.DP_GENL_A_DP_IDX) = to_u32 dp.dp_idx ∧
      dpif_recv_openflow_check abi nl fam dp m =
        (0, some ⟨m, nl_attr_get (nl_attrs_get attrs nl.DP_GENL_A_OPENFLOW),
          min (ntohs abi (load_u16 abi m.mem (ofp_header_at
            (nl_attr_get (nl_attrs_get attrs nl.DP_GENL_A_OPENFLOW)) "length")))
            (nl_attr_get_size (nl_attrs_get attrs nl.DP_GENL_A_OPENFLOW))⟩) := by
  unfold dpif_recv_openflow_check
  by_cases h1 : m.genlmsghdr = false
  · simp [h1]
  · by_cases h2 : m.nlmsg_type ≠ fam
    · simp [h1, h2]
    · cases h3 : nl_policy_parse m (openflow_policy abi nl) with
      | none => simp [h1, h2]
      | some attrs =>
        by_cases h4 : nl_attr_get_u32 abi m (nl_attrs_get attrs nl.DP_GENL_A_DP_IDX) ≠
            to_u32 dp.dp_idx
        · simp [h1, h2, h4]
        · right
          refine ⟨attrs, by simpa using h1, by simpa using h2, rfl, by simpa using h4, ?_⟩
          simp only [h1, h2, h4, if_false]
          by_cases h5 : ntohs abi (load_u16 abi m.mem (ofp_header_at
              (nl_attr_get (nl_attrs_get attrs nl.DP_GENL_A_OPENFLOW)) "length")) =
              nl_attr_get_size (nl_attrs_get attrs nl.DP_GENL_A_OPENFLOW)
          · simp [h5]
          · simp [h5]

theorem eproto_ne_zero : EPROTO ≠ 0 := by decide

/-- Success of `dpif_recv_openflow`, when the socket reports errors by
non-zero values: the loop ended on a message that passed every check. -/
theorem recv_openflow_success (abi : ABI) (nl : openflow_netlink_h) (fam : Nat)
    (dp : dpif) (sock : List recv_result) (wait : Bool) (out : recv_outcome)
    (hs : ∀ e, recv_result.err e ∈ sock → e ≠ 0)
    (h : dpif_recv_openflow abi nl fam dp sock wait = some out) (h0 : out.retval = 0) :
    ∃ m attrs, recv_result.msg m ∈ sock ∧ m.nlmsgerr = false ∧
      dpif_recv_openflow_loop wait sock 0 = some (.msg m, out.sock, out.n_reads) ∧
      m.genlmsghdr = true ∧ m.nlmsg_type = fam ∧
      nl_policy_parse m (openflow_policy abi nl) = some attrs ∧
      nl_attr_get_u32 abi m (nl_attrs_get attrs nl.DP_GENL_A_DP_IDX) = to_u32 dp.dp_idx ∧
      out.bufferp = some ⟨m, nl_attr_get (nl_attrs_get attrs nl.DP_GENL_A_OPENFLOW),
          min (ntohs abi (load_u16 abi m.mem (ofp_header_at
            (nl_attr_get (nl_attrs_get attrs nl.DP_GENL_A_OPENFLOW)) "length")))
            (nl_attr_get_size (nl_attrs_get attrs nl.DP_GENL_A_OPENFLOW))⟩ := by
  cases hl : dpif_recv_openflow_loop wait sock 0 with
  | none => simp [dpif_recv_openflow, hl] at h
  | some res =>
    obtain ⟨r, sock', n⟩ := res
    obtain ⟨hr1, hr2, _⟩ := recv_loop_result wait sock 0 r sock' n hl
    cases r with
    | err e =>
      rw [recv_openflow_of_loop_err abi nl fam dp sock wait e sock' n hl] at h
      simp only [Option.some.injEq] at h
      subst h
      simp only at h0
      subst h0
      rcases hr2 with hr2 | hr2
      · exact absurd rfl (hs 0 hr2)
      · exact absurd hr2.1 (by decide)
    | msg m =>
      rw [recv_openflow_of_loop_msg abi nl fam dp sock wait m sock' n hl] at h
      simp only [Option.some.injEq] at h
      subst h
      simp only at h0 ⊢
      rcases recv_openflow_check_cases abi nl fam dp m with hc | ⟨attrs, c1, c2, c3, c4, c5⟩
      · rw [hc] at h0
        exact absurd h0 eproto_ne_zero
      · refine ⟨m, attrs, ?_, by simpa [recv_again] using hr1, rfl, c1, c2, c3, c4, ?_⟩
        · rcases hr2 with hr2 | hr2
          · exact hr2
          · exact absurd hr2.1 (by simp)
        · rw [c5]

/-! ## The record walk of `dpif_dump_flows` -/

theorem dump_record_header_ok_iff (mem : Bytes) (flows i : Nat) :
    dump_record_header_ok mem flows i = true ↔
      load_u8 mem (ofp_header_at (ofp_flow_mod_at (_dump_ofp_flow_mod_at
        (elem_at _dump_ofp_flow_mod flows i) "ofm") "header") "version") = 1 ∧
      load_u8 mem (ofp_header_at (ofp_flow_mod_at (_dump_ofp_flow_mod_at
        (elem_at _dump_ofp_flow_mod flows i) "ofm") "header") "type") = OFPT_FLOW_MOD := by
  simp [dump_record_header_ok]

theorem dump_records_step_ok (mem : Bytes) (flows k i : Nat) (out : List Bytes)
    (h : dump_record_header_ok mem flows i = true) :
    dpif_dump_flows_records mem flows (k + 1) i out =
      dpif_dump_flows_records mem flows k (i + 1) (out ++ [dump_record mem flows i]) := by
  obtain ⟨h1, h2⟩ := (dump_record_header_ok_iff mem flows i).1 h
  rw [dpif_dump_flows_records]
  simp only [h1, h2, ne_eq, not_true_eq_false, if_false]
  rfl

theorem dump_records_step_bad (mem : Bytes) (flows k i : Nat) (out : List Bytes)
    (h : dump_record_header_ok mem flows i = false) :
    dpif_dump_flows_records mem flows (k + 1) i out = (false, out) := by
  rw [dpif_dump_flows_records]
  by_cases h1 : load_u8 mem (ofp_header_at (ofp_flow_mod_at (_dump_ofp_flow_mod_at
      (elem_at _dump_ofp_flow_mod flows i) "ofm") "header") "version") = 1
  · by_cases h2 : load_u8 mem (ofp_header_at (ofp_flow_mod_at (_dump_ofp_flow_mod_at
        (elem_at _dump_ofp_flow_mod flows i) "ofm") "header") "type") = OFPT_FLOW_MOD
    · have := (dump_record_header_ok_iff mem flows i).2 ⟨h1, h2⟩
      rw [h] at this
      exact absurd this (by simp)
    · simp [h1, h2]
  · simp [h1]

theorem range_map_shift (f : Nat → Bytes) (i k : Nat) :
    f i :: (List.range k).map (fun t => f (i + 1 + t)) =
      (List.range (k + 1)).map (fun t => f (i + t)) := by
  rw [List.range_succ_eq_map, List.map_cons, List.map_map]
  simp only [Nat.add_zero, List.cons.injEq, true_and]
  apply List.map_congr_left
  intro t _
  simp only [Function.comp, Nat.succ_eq_add_one]
  congr 1
  omega

/-- When the next `k` records have valid headers the walk prints them all. -/
theorem dump_records_all_ok (mem : Bytes) (flows : Nat) (k i : Nat) (out : List Bytes)
    (h : ∀ t, t < k → dump_record_header_ok mem flows (i + t) = true) :
    dpif_dump_flows_records mem flows k i out =
      (true, out ++ (List.range k).map (fun t => dump_record mem flows (i + t))) := by
  induction k generalizing i out with
  | zero => simp [dpif_dump_flows_records]
  | succ k ih =>
    rw [dump_records_step_ok mem flows k i out (by simpa using h 0 (by omega)),
      ih (i + 1) _ (fun t ht => by
        have := h (t + 1) (by omega)
        rwa [show i + (t + 1) = i + 1 + t by omega] at this),
      List.append_assoc, List.singleton_append,
      range_map_shift (dump_record mem flows) i k]

/-- When record `j` is the first with a bad header the walk prints the `j`
records before it and stops. -/
theorem dump_records_first_bad (mem : Bytes) (flows : Nat) (k i j : Nat) (out : List Bytes)
    (hj : j < k)
    (h : ∀ t, t < j → dump_record_header_ok mem flows (i + t) = true)
    (hbad : dump_record_header_ok mem flows (i + j) = false) :
    dpif_dump_flows_records mem flows k i out =
      (false, out ++ (List.range j).map (fun t => dump_record mem flows (i + t))) := by
  induction j generalizing k i out with
  | zero =>
    obtain ⟨k', rfl⟩ : ∃ k', k = k' + 1 := ⟨k - 1, by omega⟩
    rw [dump_records_step_bad mem flows k' i out (by simpa using hbad)]
    simp
  | succ j ih =>
    obtain ⟨k', rfl⟩ : ∃ k', k = k' + 1 := ⟨k - 1, by omega⟩
    rw [dump_records_step_ok mem flows k' i out (by simpa using h 0 (by omega)),
      ih k' (i + 1) _ (by omega) (fun t ht => by
        have := h (t + 1) (by omega)
        rwa [show i + (t + 1) = i + 1 + t by omega] at this)
        (by rwa [show i + (j + 1) = i + 1 + j by omega] at hbad),
      List.append_assoc, List.singleton_append,
      range_map_shift (dump_record mem flows) i j]

/-! ## One reply of a flow dump -/

theorem sizeof_dump_ofp_flow_mod : _dump_ofp_flow_mod.size = 68 := by decide

theorem dump_flows_reply_wf (abi : ABI) (nl : openflow_netlink_h) (reply : nl_msg)
    (out : List Bytes) (h : flow_reply_wf abi nl reply = true) :
    dpif_dump_flows_reply abi nl reply out = .more (out ++ flow_reply_records abi nl reply) := by
  unfold flow_reply_wf at h
  unfold dpif_dump_flows_reply flow_reply_records
  cases hp : nl_policy_parse reply (flow_policy nl) with
  | none => simp [hp] at h
  | some attrs =>
    simp only [hp, Bool.and_eq_true, decide_eq_true_eq, beq_iff_eq, List.all_eq_true,
      List.mem_range] at h
    obtain ⟨⟨h1, h2⟩, h3⟩ := h
    have hn : flow_reply_numflows abi nl reply =
        nl_attr_get_u32 abi reply (nl_attrs_get attrs nl.DP_GENL_A_NUMFLOWS) := by
      simp [flow_reply_numflows, hp]
    have hnf : dpif_dump_flows_n_flows abi nl reply attrs =
        flow_reply_numflows abi nl reply := by
      unfold dpif_dump_flows_n_flows
      rw [← hn, h2, sizeof_dump_ofp_flow_mod, sizeof_ofp_flow_mod]
      simp only
      omega
    simp only [hnf]
    rw [if_neg (by omega)]
    rw [dump_records_all_ok reply.mem _ _ 0 out (fun t ht => by simpa using h3 t ht)]
    simp

theorem dump_flows_reply_end (abi : ABI) (nl : openflow_netlink_h) (reply : nl_msg)
    (out : List Bytes) (h : flow_reply_end abi nl reply = true) :
    dpif_dump_flows_reply abi nl reply out = .done 0 out := by
  unfold flow_reply_end at h
  unfold dpif_dump_flows_reply
  cases hp : nl_policy_parse reply (flow_policy nl) with
  | none => simp [hp] at h
  | some attrs =>
    simp only [hp, Option.isSome_some, Bool.true_and, beq_iff_eq] at h
    have hn : flow_reply_numflows abi nl reply =
        nl_attr_get_u32 abi reply (nl_attrs_get attrs nl.DP_GENL_A_NUMFLOWS) := by
      simp [flow_reply_numflows, hp]
    have hnf : dpif_dump_flows_n_flows abi nl reply attrs = 0 := by
      unfold dpif_dump_flows_n_flows
      rw [← hn, h]
      simp
    simp [hnf]

theorem dump_flows_reply_bad (abi : ABI) (nl : openflow_netlink_h) (reply : nl_msg)
    (out : List Bytes) (attrs : List nlattr_ref) (j : Nat)
    (hp : nl_policy_parse reply (flow_policy nl) = some attrs)
    (hj : j < dpif_dump_flows_n_flows abi nl reply attrs)
    (hok : ∀ i, i < j → dump_record_header_ok reply.mem
      (nl_attr_get (nl_attrs_get attrs nl.DP_GENL_A_FLOW)) i = true)
    (hbad : dump_record_header_ok reply.mem
      (nl_attr_get (nl_attrs_get attrs nl.DP_GENL_A_FLOW)) j = false) :
    dpif_dump_flows_reply abi nl reply out =
      .done EPROTO (out ++ (List.range j).map
        (dump_record reply.mem (nl_attr_get (nl_attrs_get attrs nl.DP_GENL_A_FLOW)))) := by
  unfold dpif_dump_flows_reply
  simp only [hp]
  rw [if_neg (by omega)]
  rw [dump_records_first_bad reply.mem _ _ 0 j out hj (fun t ht => by simpa using hok t ht)
    (by simpa using hbad)]
  simp

/-! ## The loop of `dpif_dump_flows` -/

theorem dump_flows_loop_done (abi : ABI) (nl : openflow_netlink_h) (sock : List recv_result)
    (reply : nl_msg) (out out' : List Bytes) (n : Nat) (retval : Int)
    (h : dpif_dump_flows_reply abi nl reply out = .done retval out') :
    dpif_dump_flows_loop abi nl sock reply out n = some ⟨retval, out', n, sock⟩ := by
  cases sock <;> simp [dpif_dump_flows_loop, h]

theorem dump_flows_loop_more (abi : ABI) (nl : openflow_netlink_h) (rest : List recv_result)
    (reply next : nl_msg) (out out' : List Bytes) (n : Nat)
    (h : dpif_dump_flows_reply abi nl reply out = .more out') :
    dpif_dump_flows_loop abi nl (.msg next :: rest) reply out n =
      dpif_dump_flows_loop abi nl rest next out' (n + 1) := by
  simp [dpif_dump_flows_loop, h]

/-- Through well-formed replies that carry records the loop prints the records
of each and reads the next reply. -/
theorem dump_flows_loop_wf_replies (abi : ABI) (nl : openflow_netlink_h)
    (rest : List recv_result) (last : nl_msg) (replies : List nl_msg) :
    ∀ (first : nl_msg) (later : List nl_msg) (out : List Bytes) (n : Nat),
      first :: later = replies ++ [last] →
      (∀ m ∈ replies, flow_reply_wf abi nl m = true) →
      dpif_dump_flows_loop abi nl (later.map .msg ++ rest) first out n =
        dpif_dump_flows_loop abi nl rest last
          (out ++ (replies.map (flow_reply_records abi nl)).flatten) (n + replies.length) := by
  induction replies with
  | nil =>
    intro first later out n hseq _
    simp only [List.nil_append, List.cons.injEq] at hseq
    obtain ⟨rfl, rfl⟩ := hseq
    simp
  | cons r rs ih =>
    intro first later out n hseq hwf
    simp only [List.cons_append, List.cons.injEq] at hseq
    obtain ⟨rfl, rfl⟩ := hseq
    obtain ⟨first', later', hfl⟩ : ∃ first' later', first' :: later' = rs ++ [last] := by
      cases rs with
      | nil => exact ⟨last, [], rfl⟩
      | cons a as => exact ⟨a, as ++ [last], rfl⟩
    rw [← hfl, List.map_cons, List.cons_append,
      dump_flows_loop_more abi nl _ first first' out _ n
        (dump_flows_reply_wf abi nl first out (hwf first (List.mem_cons_self _ _))),
      ih first' later' _ (n + 1) hfl (fun m hm => hwf m (List.mem_cons_of_mem _ hm))]
    simp only [List.map_cons, List.flatten_cons, List.append_assoc, List.length_cons]
    congr 1
    omega

theorem length_flow_reply_records (abi : ABI) (nl : openflow_netlink_h) (reply : nl_msg)
    (h : flow_reply_wf abi nl reply = true) :
    (flow_reply_records abi nl reply).length = flow_reply_numflows abi nl reply := by
  unfold flow_reply_wf at h
  unfold flow_reply_records
  cases hp : nl_policy_parse reply (flow_policy nl) with
  | none => simp [hp] at h
  | some attrs => simp

theorem length_flow_replies_records (abi : ABI) (nl : openflow_netlink_h)
    (replies : List nl_msg) (h : ∀ m ∈ replies, flow_reply_wf abi nl m = true) :
    ((replies.map (flow_reply_records abi nl)).flatten).length =
      (replies.map (flow_reply_numflows abi nl)).sum := by
  induction replies with
  | nil => simp
  | cons r rs ih =>
    simp only [List.map_cons, List.flatten_cons, List.length_append, List.sum_cons]
    rw [length_flow_reply_records abi nl r (h r (List.mem_cons_self _ _)),
      ih (fun m hm => h m (List.mem_cons_of_mem _ hm))]

/-! ## C strings -/

theorem strcspn_no_reject (s reject : List Char) (h : ∀ c ∈ s, c ∉ reject) :
    strcspn s reject = s.length := by
  unfold strcspn
  congr 1
  rw [List.takeWhile_eq_self_iff]
  intro c hc
  simpa using h c hc

theorem strcspn_split (pre args reject : List Char) (c : Char) (hc : c ∈ reject)
    (h : ∀ x ∈ pre, x ∉ reject) :
    strcspn (pre ++ c :: args) reject = pre.length := by
  unfold strcspn
  congr 1
  induction pre with
  | nil => simp [List.takeWhile, hc]
  | cons x xs ih =>
    have hx : x ∉ reject := h x (List.mem_cons_self _ _)
    simp only [List.cons_append, List.takeWhile_cons, List.elem_eq_mem, hx, decide_False,
      Bool.not_false, ↓reduceIte, List.cons.injEq, true_and]
    simpa using ih (fun y hy => h y (List.mem_cons_of_mem _ hy))

theorem strcspn_colon_split (pre args : List Char) (h : ':' ∉ pre) :
    strcspn (pre ++ ':' :: args) ":".toList = pre.length :=
  strcspn_split pre args _ ':' (by simp) (fun x hx hm => by
    have : x = ':' := by simpa using hm
    exact h (this ▸ hx))

theorem strcspn_colon_eq_length (name : List Char) :
    strcspn name ":".toList = strlen name ↔ ':' ∉ name := by
  constructor
  · intro h hmem
    obtain ⟨pre, args, hsplit, hpre⟩ := List.eq_append_cons_of_mem hmem
    rw [hsplit, strcspn_colon_split pre args hpre] at h
    simp [strlen] at h
  · intro h
    exact strcspn_no_reject name _ (fun c hc => by
      intro hcm
      have : c = ':' := by simpa using hcm
      exact h (this ▸ hc))

theorem char_sub_ne_zero (a b : Char) (h : a ≠ b) : ((a.toNat : Int) - (b.toNat : Int)) ≠ 0 := by
  intro h0
  apply h
  have : a.toNat = b.toNat := by omega
  rw [← Char.ofNat_toNat a, ← Char.ofNat_toNat b, this]

theorem memcmp_eq_zero (n : Nat) : ∀ (a b : List Char), n ≤ a.length → n ≤ b.length →
    (memcmp a b n = 0 ↔ a.take n = b.take n) := by
  induction n with
  | zero => intro a b _ _; simp [memcmp]
  | succ n ih =>
    intro a b ha hb
    cases a with
    | nil => simp at ha
    | cons x xs =>
      cases b with
      | nil => simp at hb
      | cons y ys =>
        simp only [List.length_cons, Nat.add_le_add_iff_right] at ha hb
        by_cases hxy : x = y
        · simp [memcmp, hxy, ih xs ys ha hb]
        · simp [memcmp, hxy, char_sub_ne_zero x y hxy]

/-- The test that `vconn_open` makes on a class name. -/
theorem vconn_open_name_test (cls_name pre args : List Char) :
    (strlen cls_name = pre.length ∧ memcmp cls_name (pre ++ ':' :: args) pre.length = 0) ↔
      cls_name = pre := by
  constructor
  · rintro ⟨hlen, hcmp⟩
    unfold strlen at hlen
    rw [memcmp_eq_zero pre.length cls_name _ (by omega) (by simp)] at hcmp
    rw [← hlen, List.take_length] at hcmp
    rw [hcmp, hlen]
    simp
  · rintro rfl
    refine ⟨rfl, ?_⟩
    rw [memcmp_eq_zero _ _ _ (by omega) (by simp)]
    simp

/-! ## The registry of `vconn.c` -/

theorem check_vconn_classes_of_valid {P M : Type} (NDEBUG : Bool)
    (classes : List (vconn_class P M)) (h : ∀ c ∈ classes, check_vconn_class c = true) :
    check_vconn_classes NDEBUG classes = true := by
  unfold check_vconn_classes
  rw [Bool.or_eq_true]
  right
  rw [List.all_eq_true]
  exact h

theorem check_vconn_class_members {P M : Type} (cls : vconn_class P M)
    (h : check_vconn_class cls = true) :
    cls.name.isSome = true ∧ cls.open_.isSome = true := by
  unfold check_vconn_class at h
  simp only [Bool.and_eq_true] at h
  exact ⟨h.1.1.1.1, h.1.1.1.2⟩

theorem vconn_open_loop_unknown {P M : Type} (pre args : List Char) (vconnp : Option P) :
    ∀ (classes : List (vconn_class P M)) (i : Nat),
      (∀ c ∈ classes, check_vconn_class c = true) →
      (∀ c ∈ classes, c.name ≠ some pre) →
      vconn_open_loop (pre ++ ':' :: args) pre.length vconnp classes i =
        ⟨.fatal_unknown pre, []⟩ := by
  intro classes
  induction classes with
  | nil => intro i _ _; simp [vconn_open_loop]
  | cons c rest ih =>
    intro i hv hn
    have hc := check_vconn_class_members c (hv c (List.mem_cons_self _ _))
    obtain ⟨cn, hcn⟩ := Option.isSome_iff_exists.mp hc.1
    have hne : cn ≠ pre := fun h => hn c (List.mem_cons_self _ _) (by rw [hcn, h])
    have htest : ¬ (strlen cn = pre.length ∧
        memcmp cn (pre ++ ':' :: args) pre.length = 0) := by
      rw [vconn_open_name_test]; exact hne
    rw [vconn_open_loop]
    simp only [hcn, htest, ↓reduceIte]
    exact ih (i + 1) (fun c hc => hv c (List.mem_cons_of_mem _ hc))
      (fun c hc => hn c (List.mem_cons_of_mem _ hc))

theorem vconn_open_loop_found {P M : Type} (pre args : List Char) (vconnp : Option P)
    (cls : vconn_class P M) (rest : List (vconn_class P M))
    (f : List Char → List Char → Option P → Int × Option P)
    (hname : cls.name = some pre) (hopen : cls.open_ = some f) :
    ∀ (before : List (vconn_class P M)) (i : Nat),
      (∀ c ∈ before, check_vconn_class c = true) →
      (∀ c ∈ before, c.name ≠ some pre) →
      vconn_open_loop (pre ++ ':' :: args) pre.length vconnp (before ++ cls :: rest) i =
        ⟨.returned (f (pre ++ ':' :: args) args vconnp).1
            (if (f (pre ++ ':' :: args) args vconnp).1 ≠ 0 then none
             else (f (pre ++ ':' :: args) args vconnp).2),
          [⟨i + before.length, pre ++ ':' :: args, args⟩]⟩ := by
  intro before
  induction before with
  | nil =>
    intro i _ _
    have htest : strlen pre = pre.length ∧
        memcmp pre (pre ++ ':' :: args) pre.length = 0 :=
      (vconn_open_name_test pre pre args).mpr rfl
    rw [List.nil_append, vconn_open_loop]
    simp only [hname, hopen, htest, and_self, ↓reduceIte, List.length_nil, Nat.add_zero]
    simp
  | cons c before ih =>
    intro i hv hn
    have hc := check_vconn_class_members c (hv c (List.mem_cons_self _ _))
    obtain ⟨cn, hcn⟩ := Option.isSome_iff_exists.mp hc.1
    have hne : cn ≠ pre := fun h => hn c (List.mem_cons_self _ _) (by rw [hcn, h])
    have htest : ¬ (strlen cn = pre.length ∧
        memcmp cn (pre ++ ':' :: args) pre.length = 0) := by
      rw [vconn_open_name_test]; exact hne
    rw [List.cons_append, vconn_open_loop]
    simp only [hcn, htest, ↓reduceIte]
    rw [ih (i + 1) (fun c hc => hv c (List.mem_cons_of_mem _ hc))
      (fun c hc => hn c (List.mem_cons_of_mem _ hc))]
    simp only [List.length_cons]
    have : i + 1 + before.length = i + (before.length + 1) := by omega
    rw [this]

theorem vconn_open_of_split {P M : Type} (NDEBUG : Bool) (classes : List (vconn_class P M))
    (pre args : List Char) (vconnp : Option P)
    (hvalid : ∀ c ∈ classes, check_vconn_class c = true) (hpre : ':' ∉ pre) :
    vconn_open NDEBUG classes (pre ++ ':' :: args) vconnp =
      vconn_open_loop (pre ++ ':' :: args) pre.length vconnp classes 0 := by
  unfold vconn_open
  rw [check_vconn_classes_of_valid NDEBUG classes hvalid, strcspn_colon_split pre args hpre]
  have : ¬ pre.length = strlen (pre ++ ':' :: args) := by simp [strlen]
  simp [this]

theorem vconn_open_of_no_colon {P M : Type} (NDEBUG : Bool)
    (classes : List (vconn_class P M)) (name : List Char) (vconnp : Option P)
    (hvalid : ∀ c ∈ classes, check_vconn_class c = true) (hname : ':' ∉ name) :
    vconn_open NDEBUG classes name vconnp = ⟨.fatal_format name, []⟩ := by
  unfold vconn_open
  have h := (strcspn_colon_eq_length name).mpr hname
  rw [check_vconn_classes_of_valid NDEBUG classes hvalid]
  simp only [Bool.true_eq_false, ↓reduceIte, h]

/-! ## C strings that are compared -/

theorem mem_c_str_ne_nul (buf : List Char) : ∀ c ∈ c_str buf, c ≠ NUL := by
  intro c hc
  have := List.mem_takeWhile_imp hc
  simpa using this

theorem strncmp_eq_zero (n : Nat) : ∀ (a b : List Char), (∀ c ∈ a, c ≠ NUL) →
    (∀ c ∈ b, c ≠ NUL) → (strncmp a b n = 0 ↔ a.take n = b.take n) := by
  induction n with
  | zero => intro a b _ _; simp [strncmp]
  | succ n ih =>
    intro a b ha hb
    cases a with
    | nil =>
      cases b with
      | nil => simp [strncmp]
      | cons y ys =>
        have hy : y ≠ NUL := hb y (List.mem_cons_self _ _)
        have hy' : NUL ≠ y := fun h => hy h.symm
        simp [strncmp, hy', char_sub_ne_zero NUL y hy']
    | cons x xs =>
      have hx : x ≠ NUL := ha x (List.mem_cons_self _ _)
      cases b with
      | nil => simp [strncmp, hx, char_sub_ne_zero x NUL hx]
      | cons y ys =>
        by_cases hxy : x = y
        · subst hxy
          simp [strncmp, hx, ih xs ys (fun c hc => ha c (List.mem_cons_of_mem _ hc))
            (fun c hc => hb c (List.mem_cons_of_mem _ hc))]
        · simp [strncmp, hxy, char_sub_ne_zero x y hxy]

theorem char_toNat_ne_zero (y : Char) (h : y ≠ NUL) : (y.toNat : Int) ≠ 0 := by
  have h1 : NUL.toNat = 0 := by decide
  have := char_sub_ne_zero y NUL h
  rw [h1] at this
  simpa using this

theorem strcmp_eq_zero : ∀ (a b : List Char), (∀ c ∈ a, c ≠ NUL) →
    (∀ c ∈ b, c ≠ NUL) → (strcmp a b = 0 ↔ a = b) := by
  intro a
  induction a with
  | nil =>
    intro b _ hb
    have h1 : NUL.toNat = 0 := by decide
    cases b with
    | nil => simp [strcmp, h1]
    | cons y ys =>
      have hy := char_toNat_ne_zero y (hb y (List.mem_cons_self _ _))
      simp only [strcmp, List.headD_cons, zero_sub, neg_eq_zero]
      constructor
      · intro h; exact absurd h hy
      · intro h; simp at h
  | cons x xs ih =>
    intro b ha hb
    have hx : x ≠ NUL := ha x (List.mem_cons_self _ _)
    cases b with
    | nil => simp [strcmp, hx, char_sub_ne_zero x NUL hx]
    | cons y ys =>
      by_cases hxy : x = y
      · subst hxy
        simp [strcmp, hx, ih ys (fun c hc => ha c (List.mem_cons_of_mem _ hc))
          (fun c hc => hb c (List.mem_cons_of_mem _ hc))]
      · simp [strcmp, hxy, char_sub_ne_zero x y hxy]

/-- The reply of the server in the words of the commands. -/
theorem vlog_server_poll_reply_eq {σ : Type} (vlog : vlog_h σ) (st : σ) (c : List Char)
    (hc : ∀ x ∈ c, x ≠ NUL) :
    vlog_server_poll_reply vlog st c =
      if c.take 4 = "set ".toList then
        ((vlog.vlog_set_levels_from_string st (c.drop 4)).1,
          (vlog.vlog_set_levels_from_string st (c.drop 4)).2.getD "ack".toList)
      else if c = "list".toList then (st, vlog.vlog_get_levels st)
      else (st, "nak".toList) := by
  have h1 : strncmp c "set ".toList 4 = 0 ↔ c.take 4 = "set ".toList := by
    rw [strncmp_eq_zero 4 c _ hc (by decide)]
    rfl
  have h2 : strcmp c "list".toList = 0 ↔ c = "list".toList :=
    strcmp_eq_zero c _ hc (by decide)
  unfold vlog_server_poll_reply
  by_cases hs : c.take 4 = "set ".toList
  · rw [if_pos (h1.mpr hs), if_pos hs]
    generalize vlog.vlog_set_levels_from_string st (c.drop 4) = r
    obtain ⟨r1, r2⟩ := r
    cases r2 <;> rfl
  · rw [if_neg (fun h => hs (h1.mp h)), if_neg hs]
    by_cases hl : c = "list".toList
    · rw [if_pos (h2.mpr hl), if_pos hl]
    · rw [if_neg (fun h => hl (h2.mp h)), if_neg hl]

/-! ## The credentials of a datagram -/

theorem recv_with_creds_cmsgs_none (abi : ABI) : ∀ (cmsgs : List cmsghdr) (cred : Option Bytes),
    cmsgs.filter cmsg_is_credentials = [] →
    (recv_with_creds_cmsgs abi cmsgs cred).1 = cred := by
  intro cmsgs
  induction cmsgs with
  | nil => intro cred _; rfl
  | cons x rest ih =>
    intro cred h
    have hx : cmsg_is_credentials x = false := by
      by_contra hx
      rw [List.filter_cons_of_pos (by simpa using hx)] at h
      simp at h
    rw [List.filter_cons_of_neg (by simp [hx])] at h
    have hx' : ¬ (x.cmsg_level = SOL_SOCKET ∧ x.cmsg_type = SCM_CREDENTIALS) := by
      simpa [cmsg_is_credentials] using hx
    rw [recv_with_creds_cmsgs]
    simp only [hx', ↓reduceIte]
    split <;> exact ih cred h

theorem recv_with_creds_cmsgs_one (abi : ABI) (c : cmsghdr) :
    ∀ (cmsgs : List cmsghdr) (cred : Option Bytes),
    cmsgs.filter cmsg_is_credentials = [c] →
    (recv_with_creds_cmsgs abi cmsgs cred).1 = some c.data := by
  intro cmsgs
  induction cmsgs with
  | nil => intro cred h; simp at h
  | cons x rest ih =>
    intro cred h
    by_cases hx : cmsg_is_credentials x = true
    · rw [List.filter_cons_of_pos hx] at h
      have hx' : x.cmsg_level = SOL_SOCKET ∧ x.cmsg_type = SCM_CREDENTIALS := by
        simpa [cmsg_is_credentials] using hx
      simp only [List.cons.injEq] at h
      rw [recv_with_creds_cmsgs]
      simp only [hx', and_self, ↓reduceIte]
      rw [recv_with_creds_cmsgs_none abi rest _ h.2, h.1]
    · rw [List.filter_cons_of_neg hx] at h
      have hx' : ¬ (x.cmsg_level = SOL_SOCKET ∧ x.cmsg_type = SCM_CREDENTIALS) := by
        simpa [cmsg_is_credentials] using hx
      rw [recv_with_creds_cmsgs]
      simp only [hx', ↓reduceIte]
      split <;> exact ih cred h

theorem datagram_authorized_iff (abi : ABI) (getuid : Nat) (d : vlog_datagram) :
    datagram_authorized abi getuid d = true ↔
      ∃ c ∈ d.cmsgs.filter cmsg_is_credentials,
        ucred_uid abi c.data = 0 ∨ ucred_uid abi c.data = getuid := by
  simp [datagram_authorized, List.mem_filter, and_assoc]

/-- The return value of `recv_with_creds` on a datagram with at most one
credentials message. -/
theorem recv_with_creds_error (abi : ABI) (getuid : Nat) (cmd_buf : List Char)
    (un : sockaddr_un) (d : vlog_datagram)
    (h1 : (d.cmsgs.filter cmsg_is_credentials).length ≤ 1) :
    recv_with_creds abi getuid cmd_buf 512 un (.datagram d) =
      ⟨if datagram_authorized abi getuid d = true then 0 else -1,
        c_str (d.data.take 511), d.src, d.src_len,
        (recv_with_creds_cmsgs abi d.cmsgs none).2⟩ := by
  have hn : min d.data.length (512 - 1) = min d.data.length 511 := rfl
  have htake : d.data.take (min d.data.length 511) = d.data.take 511 := by
    rw [Nat.min_comm, ← List.take_take, List.take_length]
  cases hf : d.cmsgs.filter cmsg_is_credentials with
  | nil =>
    have hauth : datagram_authorized abi getuid d = false := by
      rw [← Bool.not_eq_true, datagram_authorized_iff, hf]
      simp
    simp only [recv_with_creds, recv_with_creds_cmsgs_none abi d.cmsgs none hf, hauth, hn,
      htake]
    simp
  | cons c tl =>
    have htl : tl = [] := by
      rw [hf] at h1
      simp only [List.length_cons] at h1
      exact List.eq_nil_of_length_eq_zero (by omega)
    subst htl
    have hauth : datagram_authorized abi getuid d = true ↔
        (ucred_uid abi c.data = 0 ∨ ucred_uid abi c.data = getuid) := by
      rw [datagram_authorized_iff, hf]
      simp
    simp only [recv_with_creds, recv_with_creds_cmsgs_one abi c d.cmsgs none hf, hn, htake]
    by_cases hok : ucred_uid abi c.data = 0 ∨ ucred_uid abi c.data = getuid
    · have hcond : ¬ (ucred_uid abi c.data ≠ 0 ∧ ucred_uid abi c.data ≠ getuid) := by
        rcases hok with h | h <;> simp [h]
      rw [if_neg hcond, if_pos (hauth.mpr hok)]
    · have hcond : ucred_uid abi c.data ≠ 0 ∧ ucred_uid abi c.data ≠ getuid := by
        constructor
        · exact fun h => hok (Or.inl h)
        · exact fun h => hok (Or.inr h)
      rw [if_pos hcond, if_neg (fun h => hok (hauth.mp h))]

/-! ## One pass of `vlog_server_poll` -/

theorem vlog_server_poll_body_datagram {σ : Type} (abi : ABI) (vlog : vlog_h σ)
    (getuid : Nat) (cmd_buf : List Char) (un : sockaddr_un) (d : vlog_datagram) (st : σ)
    (h1 : (d.cmsgs.filter cmsg_is_credentials).length ≤ 1) :
    vlog_server_poll_body abi vlog getuid cmd_buf un (.datagram d) st =
      if datagram_authorized abi getuid d = true then
        .next (vlog_server_poll_reply vlog st (c_str (d.data.take 511))).1
          (some ⟨(vlog_server_poll_reply vlog st (c_str (d.data.take 511))).2,
            d.src, d.src_len⟩)
          (recv_with_creds_cmsgs abi d.cmsgs none).2
      else .next st none (recv_with_creds_cmsgs abi d.cmsgs none).2 := by
  unfold vlog_server_poll_body
  rw [recv_with_creds_error abi getuid cmd_buf un d h1]
  by_cases ha : datagram_authorized abi getuid d = true
  · simp [ha]
  · simp [ha]

/-- The number of replies does not depend on the state of the logging
module. -/
theorem vlog_server_poll_sent_length {σ : Type} (abi : ABI) (vlog : vlog_h σ)
    (getuid : Nat) (cmd_buf : List Char) (un : sockaddr_un) :
    ∀ (sock : List recvmsg_result) (st st1 : σ),
      (vlog_server_poll abi vlog getuid cmd_buf un sock st).sent.length =
        (vlog_server_poll abi vlog getuid cmd_buf un sock st1).sent.length := by
  intro sock
  induction sock with
  | nil => intro st st1; rfl
  | cons r rest ih =>
    intro st st1
    simp only [vlog_server_poll, vlog_server_poll_body]
    by_cases hpos : (recv_with_creds abi getuid cmd_buf 512 un r).error > 0
    · simp [hpos]
    · by_cases hneg : (recv_with_creds abi getuid cmd_buf 512 un r).error < 0
      · simp only [hpos, hneg, ↓reduceIte, Option.toList, List.nil_append]
        exact ih st st1
      · simp only [hpos, hneg, ↓reduceIte, Option.toList, List.singleton_append,
          List.length_cons]
        rw [ih _ (vlog_server_poll_reply vlog st1
          (recv_with_creds abi getuid cmd_buf 512 un r).cmd_buf).1]

/-! ## The fields that `recv_with_creds` fills -/

theorem recv_with_creds_fields (abi : ABI) (getuid : Nat) (cmd_buf : List Char)
    (un : sockaddr_un) (d : vlog_datagram) :
    (recv_with_creds abi getuid cmd_buf 512 un (.datagram d)).cmd_buf =
      c_str (d.data.take 511) ∧
    (recv_with_creds abi getuid cmd_buf 512 un (.datagram d)).un = d.src ∧
    (recv_with_creds abi getuid cmd_buf 512 un (.datagram d)).un_len = d.src_len := by
  have hn : min d.data.length (512 - 1) = min d.data.length 511 := rfl
  have htake : d.data.take (min d.data.length 511) = d.data.take 511 := by
    rw [Nat.min_comm, ← List.take_take, List.take_length]
  simp only [recv_with_creds, hn, htake]
  split
  · exact ⟨rfl, rfl, rfl⟩
  · split <;> exact ⟨rfl, rfl, rfl⟩

theorem vlog_server_poll_cons_of_error_zero {σ : Type} (abi : ABI) (vlog : vlog_h σ)
    (getuid : Nat) (cmd_buf : List Char) (un : sockaddr_un) (d : vlog_datagram)
    (rest : List recvmsg_result) (st : σ)
    (h0 : (recv_with_creds abi getuid cmd_buf 512 un (.datagram d)).error = 0) :
    (vlog_server_poll abi vlog getuid cmd_buf un (.datagram d :: rest) st).sent =
      ⟨(vlog_server_poll_reply vlog st (c_str (d.data.take 511))).2, d.src, d.src_len⟩ ::
        (vlog_server_poll abi vlog getuid cmd_buf un rest
          (vlog_server_poll_reply vlog st (c_str (d.data.take 511))).1).sent := by
  obtain ⟨hc, hu, hl⟩ := recv_with_creds_fields abi getuid cmd_buf un d
  simp only [vlog_server_poll, vlog_server_poll_body, h0, hc, hu, hl]
  simp

/-! ## The conversion `%ld` -/

theorem toDigitsCore_head (fuel : Nat) : ∀ (n : Nat) (ds : List Char),
    ((∃ d tl, d < 10 ∧ ds = Nat.digitChar d :: tl) ∨ 0 < fuel) →
    ∃ d tl, d < 10 ∧ Nat.toDigitsCore 10 fuel n ds = Nat.digitChar d :: tl := by
  induction fuel with
  | zero =>
    intro n ds h
    rcases h with h | h
    · simpa [Nat.toDigitsCore] using h
    · omega
  | succ fuel ih =>
    intro n ds _
    rw [Nat.toDigitsCore]
    by_cases h0 : n / 10 = 0
    · simp only [h0, ↓reduceIte]
      exact ⟨n % 10, ds, Nat.mod_lt _ (by decide), rfl⟩
    · simp only [h0, ↓reduceIte]
      exact ih (n / 10) _ (Or.inl ⟨n % 10, ds, Nat.mod_lt _ (by decide), rfl⟩)

theorem digitChar_ne_slash (d : Nat) (h : d < 10) : Nat.digitChar d ≠ '/' := by
  interval_cases d <;> decide

/-- The text that `%ld` gives is not empty and does not begin with a slash. -/
theorem printf_ld_head (n : Int) (s : List Char) : (printf_ld n ++ s).headD NUL ≠ '/' := by
  unfold printf_ld
  obtain ⟨d, tl, hd, h⟩ := toDigitsCore_head (n.natAbs + 1) n.natAbs [] (Or.inr (by omega))
  have h' : Nat.toDigits 10 n.natAbs = Nat.digitChar d :: tl := h
  by_cases hn : n < 0
  · simp only [hn, ↓reduceIte, List.cons_append, List.headD_cons]
    decide
  · simp only [hn, ↓reduceIte, h', List.cons_append, List.headD_cons]
    exact digitChar_ne_slash d hd

/-! ## `make_unix_socket` as the server and the client call it -/

theorem make_unix_socket_bound (sys : unix_socket_calls) (nonblock passcred : Bool)
    (bind_path : List Char) (connect_path : Option (List Char)) (a : sockaddr_un × Nat)
    (h : (make_unix_socket sys nonblock passcred (some bind_path) connect_path).bound =
      some a) :
    a = make_sockaddr_un bind_path := by
  unfold make_unix_socket at h
  simp only at h
  split at h
  · simp at h
  · split at h
    · simp at h
    · split at h
      · simpa using h.symm
      · split at h
        · simpa using h.symm
        · split at h <;> simpa using h.symm

theorem make_unix_socket_connected (sys : unix_socket_calls) (nonblock passcred : Bool)
    (bind_path : Option (List Char)) (connect_path : List Char) (a : sockaddr_un × Nat)
    (h : (make_unix_socket sys nonblock passcred bind_path (some connect_path)).connected =
      some a) :
    a = make_sockaddr_un connect_path := by
  unfold make_unix_socket at h
  simp only at h
  split at h
  · simp at h
  · split at h
    · simp at h
    · split at h
      · simp at h
      · split at h
        · simpa using h.symm
        · split at h <;> simpa using h.symm

/-! ## The loop of `vlog_client_transact` -/

theorem vlog_client_recv_reply (sys : vlog_client_recv_calls) :
    (vlog_client_recv sys).1 ≠ 0 → (vlog_client_recv sys).2 = none := by
  unfold vlog_client_recv
  simp only
  split
  · exact fun _ => rfl
  · split
    · exact fun _ => rfl
    · split
      · exact fun _ => rfl
      · exact fun h => absurd rfl h

/-! ## The path of the server socket -/

theorem vlog_server_listen_path_abs (getpid : Int) (tl : List Char) :
    vlog_server_listen_path getpid (some ('/' :: tl)) = '/' :: tl := by
  simp [vlog_server_listen_path]

theorem vlog_server_listen_path_null (getpid : Int) :
    vlog_server_listen_path getpid none = "/tmp/vlogs.".toList ++ printf_ld getpid := by
  simp [vlog_server_listen_path]

theorem vlog_server_listen_path_rel (getpid : Int) (p : List Char)
    (hp : p.head? ≠ some '/') :
    vlog_server_listen_path getpid (some p) =
      "/tmp/vlogs.".toList ++ printf_ld getpid ++ p := by
  have h : ¬ p.headD NUL = '/' := by
    cases p with
    | nil => decide
    | cons x xs => simpa using hp
  simp only [vlog_server_listen_path, Option.isSome_some, Option.getD_some, true_and, h,
    ↓reduceIte]

theorem vlog_server_listen_server_path (sys : unix_socket_calls) (getpid : Int)
    (path : Option (List Char)) (server : vlog_server)
    (h : (vlog_server_listen sys getpid path).serverp = some server) :
    server.path = vlog_server_listen_path getpid path := by
  unfold vlog_server_listen at h
  simp only at h
  split at h
  · simp at h
  · simp only [Option.some.injEq] at h
    rw [← h]

theorem vlog_server_listen_bound (sys : unix_socket_calls) (getpid : Int)
    (path : Option (List Char)) (a : sockaddr_un × Nat)
    (h : (vlog_server_listen sys getpid path).sock.bound = some a) :
    a = make_sockaddr_un (vlog_server_listen_path getpid path) := by
  have hs : (vlog_server_listen sys getpid path).sock =
      make_unix_socket sys true true (some (vlog_server_listen_path getpid path)) none := by
    unfold vlog_server_listen
    simp only
    split <;> rfl
  rw [hs] at h
  exact make_unix_socket_bound sys true true _ none a h

theorem vlog_client_connect_connected (sys : unix_socket_calls) (getpid : Int)
    (path : List Char) (a : sockaddr_un × Nat)
    (h : (vlog_client_connect sys getpid path).sock.connected = some a) :
    a = make_sockaddr_un (vlog_client_connect_path path) := by
  have hs : (vlog_client_connect sys getpid path).sock =
      make_unix_socket sys false false (some ("/tmp/vlog.".toList ++ printf_ld getpid))
        (some (vlog_client_connect_path path)) := by
    unfold vlog_client_connect
    simp only
    split <;> rfl
  rw [hs] at h
  exact make_unix_socket_connected sys false false _ _ a h

theorem vlog_client_connect_client_path (sys : unix_socket_calls) (getpid : Int)
    (path : List Char) (client : vlog_client)
    (h : (vlog_client_connect sys getpid path).clientp = some client) :
    client.connect_path = vlog_client_connect_path path := by
  unfold vlog_client_connect at h
  simp only at h
  split at h
  · simp only [Option.some.injEq] at h
    rw [← h]
  · simp at h

/-! ## `vlog_client_transact` unfolded -/

theorem vlog_client_transact_eq (request : List Char)
    (sys : Nat → vlog_client_transact_calls) :
    vlog_client_transact request sys =
      if vlog_client_send request (sys 0).sendmsg ≠ 0 then
        ⟨vlog_client_send request (sys 0).sendmsg, none, 1, 0⟩
      else if (vlog_client_recv (sys 0).recv).1 ≠ ETIMEDOUT then
        ⟨(vlog_client_recv (sys 0).recv).1, (vlog_client_recv (sys 0).recv).2, 1, 1⟩
      else if vlog_client_send request (sys 1).sendmsg ≠ 0 then
        ⟨vlog_client_send request (sys 1).sendmsg, none, 2, 1⟩
      else if (vlog_client_recv (sys 1).recv).1 ≠ ETIMEDOUT then
        ⟨(vlog_client_recv (sys 1).recv).1, (vlog_client_recv (sys 1).recv).2, 2, 2⟩
      else if vlog_client_send request (sys 2).sendmsg ≠ 0 then
        ⟨vlog_client_send request (sys 2).sendmsg, none, 3, 2⟩
      else if (vlog_client_recv (sys 2).recv).1 ≠ ETIMEDOUT then
        ⟨(vlog_client_recv (sys 2).recv).1, (vlog_client_recv (sys 2).recv).2, 3, 3⟩
      else ⟨ETIMEDOUT, none, 3, 3⟩ := by
  simp only [vlog_client_transact, vlog_client_transact_loop]

/-! ## The socket of the server and of the client -/

theorem vlog_server_listen_sock (sys : unix_socket_calls) (getpid : Int)
    (path : Option (List Char)) :
    (vlog_server_listen sys getpid path).sock =
      make_unix_socket sys true true (some (vlog_server_listen_path getpid path)) none := by
  unfold vlog_server_listen
  simp only
  split <;> rfl

theorem vlog_client_connect_sock (sys : unix_socket_calls) (getpid : Int)
    (path : List Char) :
    (vlog_client_connect sys getpid path).sock =
      make_unix_socket sys false false (some ("/tmp/vlog.".toList ++ printf_ld getpid))
        (some (vlog_client_connect_path path)) := by
  unfold vlog_client_connect
  simp only
  split <;> rfl

/-- The socket of the server gets as far as `bind` when `socket` and the two
calls of `fcntl` succeed. -/
theorem make_unix_socket_server_bound (sys : unix_socket_calls) (name : List Char)
    (h0 : 0 ≤ sys.socket.ret) (h1 : sys.fcntl_getfl.ret ≠ -1)
    (h2 : sys.fcntl_setfl.ret ≠ -1) :
    (make_unix_socket sys true true (some name) none).bound =
      some (make_sockaddr_un name) := by
  have h0' : ¬ sys.socket.ret < 0 := not_lt.mpr h0
  simp only [make_unix_socket, make_unix_socket_nonblock, h0', h1, h2, ↓reduceIte,
    Option.map_some']
  split
  · rfl
  · split
    · rfl
    · split <;> rfl

/-- The socket of the server when every system call succeeds. -/
theorem make_unix_socket_server_ok (sys : unix_socket_calls) (name : List Char)
    (h0 : 0 ≤ sys.socket.ret) (h1 : sys.fcntl_getfl.ret ≠ -1)
    (h2 : sys.fcntl_setfl.ret ≠ -1) (h3 : sys.bind.ret = 0) (h4 : sys.fchmod.ret = 0)
    (h5 : sys.setsockopt.ret = 0) :
    make_unix_socket sys true true (some name) none =
      ⟨sys.socket.ret, sys.setsockopt.errno, some (make_sockaddr_un name), none⟩ := by
  have h0' : ¬ sys.socket.ret < 0 := not_lt.mpr h0
  simp [make_unix_socket, make_unix_socket_nonblock, make_unix_socket_bind,
    make_unix_socket_connect, make_unix_socket_passcred, h0', h1, h2, h3, h4, h5]

/-- The socket of the client gets as far as `connect` when `socket`, `bind`
and `fchmod` succeed. -/
theorem make_unix_socket_client_connected (sys : unix_socket_calls)
    (bind_name name : List Char) (h0 : 0 ≤ sys.socket.ret) (h3 : sys.bind.ret = 0)
    (h4 : sys.fchmod.ret = 0) :
    (make_unix_socket sys false false (some bind_name) (some name)).connected =
      some (make_sockaddr_un name) := by
  have h0' : ¬ sys.socket.ret < 0 := not_lt.mpr h0
  simp only [make_unix_socket, make_unix_socket_nonblock, make_unix_socket_bind, h0', h3, h4,
    ↓reduceIte, Option.map_some', Option.isSome_some, ne_eq, not_true_eq_false,
    Bool.false_eq_true]
  split
  · rfl
  · split <;> rfl

/-- The socket of the client when every system call succeeds. -/
theorem make_unix_socket_client_ok (sys : unix_socket_calls) (bind_name name : List Char)
    (h0 : 0 ≤ sys.socket.ret) (h3 : sys.bind.ret = 0) (h4 : sys.fchmod.ret = 0)
    (h6 : sys.connect.ret = 0) :
    make_unix_socket sys false false (some bind_name) (some name) =
      ⟨sys.socket.ret, sys.connect.errno, some (make_sockaddr_un bind_name),
        some (make_sockaddr_un name)⟩ := by
  have h0' : ¬ sys.socket.ret < 0 := not_lt.mpr h0
  simp [make_unix_socket, make_unix_socket_nonblock, make_unix_socket_bind,
    make_unix_socket_connect, make_unix_socket_passcred, h0', h3, h4, h6]

/-- The result of `vlog_server_listen` when every system call succeeds. -/
theorem vlog_server_listen_ok (sys : unix_socket_calls) (getpid : Int)
    (path : Option (List Char)) (h0 : 0 ≤ sys.socket.ret) (h1 : sys.fcntl_getfl.ret ≠ -1)
    (h2 : sys.fcntl_setfl.ret ≠ -1) (h3 : sys.bind.ret = 0) (h4 : sys.fchmod.ret = 0)
    (h5 : sys.setsockopt.ret = 0) :
    vlog_server_listen sys getpid path =
      ⟨0, some ⟨vlog_server_listen_path getpid path, sys.socket.ret⟩,
        ⟨sys.socket.ret, sys.setsockopt.errno,
          some (make_sockaddr_un (vlog_server_listen_path getpid path)), none⟩⟩ := by
  have h0' : ¬ sys.socket.ret < 0 := not_lt.mpr h0
  unfold vlog_server_listen
  simp only [make_unix_socket_server_ok sys _ h0 h1 h2 h3 h4 h5, h0', ↓reduceIte]

/-- The result of `vlog_client_connect` when every system call succeeds. -/
theorem vlog_client_connect_ok (sys : unix_socket_calls) (getpid : Int) (path : List Char)
    (h0 : 0 ≤ sys.socket.ret) (h3 : sys.bind.ret = 0) (h4 : sys.fchmod.ret = 0)
    (h6 : sys.connect.ret = 0) :
    vlog_client_connect sys getpid path =
      ⟨0, some ⟨vlog_client_connect_path path, "/tmp/vlog.".toList ++ printf_ld getpid,
          sys.socket.ret⟩,
        ⟨sys.socket.ret, sys.connect.errno,
          some (make_sockaddr_un ("/tmp/vlog.".toList ++ printf_ld getpid)),
          some (make_sockaddr_un (vlog_client_connect_path path))⟩⟩ := by
  unfold vlog_client_connect
  simp only [make_unix_socket_client_ok sys _ _ h0 h3 h4 h6, ge_iff_le, h0, ↓reduceIte]

/-- The path of the server in the three cases. -/
theorem vlog_server_listen_path_chosen (getpid : Int) (path : Option (List Char))
    (chosen : List Char)
    (hpath : (∃ tl, path = some ('/' :: tl) ∧ chosen = '/' :: tl) ∨
      (path = none ∧ chosen = "/tmp/vlogs.".toList ++ printf_ld getpid) ∨
      (∃ p, path = some p ∧ p.head? ≠ some '/' ∧
        chosen = "/tmp/vlogs.".toList ++ printf_ld getpid ++ p)) :
    vlog_server_listen_path getpid path = chosen := by
  rcases hpath with ⟨tl, rfl, rfl⟩ | ⟨rfl, rfl⟩ | ⟨p, rfl, hp, rfl⟩
  · exact vlog_server_listen_path_abs getpid tl
  · exact vlog_server_listen_path_null getpid
  · exact vlog_server_listen_path_rel getpid p hp

/-- The path of the client for the digits of a process id and a suffix, and
for a path that begins with a slash. -/
theorem vlog_paths_chosen (p : Int) (s : Option (List Char)) (arg chosen : List Char)
    (h : ((s = none ∨ ∃ x, s = some x ∧ x.head? ≠ some '/') ∧
        arg = printf_ld p ++ s.getD [] ∧ chosen = "/tmp/vlogs.".toList ++ arg) ∨
      (∃ tl, s = some ('/' :: tl) ∧ arg = '/' :: tl ∧ chosen = '/' :: tl)) :
    vlog_server_listen_path p s = chosen ∧ vlog_client_connect_path arg = chosen := by
  rcases h with ⟨hs, rfl, rfl⟩ | ⟨tl, rfl, rfl, rfl⟩
  · have hc : vlog_client_connect_path (printf_ld p ++ s.getD []) =
        "/tmp/vlogs.".toList ++ (printf_ld p ++ s.getD []) := by
      unfold vlog_client_connect_path
      rw [if_neg (printf_ld_head p _)]
    refine ⟨?_, hc⟩
    rcases hs with rfl | ⟨x, rfl, hx⟩
    · rw [vlog_server_listen_path_null]
      simp
    · rw [vlog_server_listen_path_rel p x hx]
      simp
  · exact ⟨vlog_server_listen_path_abs p tl, by simp [vlog_client_connect_path]⟩

/-! ## The claims -/

/-- C1: the buffers returned by `make_add_simple_flow` and by
`make_buffered_packet_out` start with an OpenFlow header of version 1, of type
`OFPT_FLOW_MOD` (resp. `OFPT_PACKET_OUT`), whose length field read as a
big-endian 16-bit integer is the size of the buffer. -/
theorem built_header_length_is_size (abi : ABI) (junk : Nat → Nat) (f : flow)
    (buffer_id in_port out_port : Nat) :
    (load_u8 (make_add_simple_flow abi junk f buffer_id out_port).data
        (ofp_header_at 0 "version") = 1 ∧
      load_u8 (make_add_simple_flow abi junk f buffer_id out_port).data
        (ofp_header_at 0 "type") = OFPT_FLOW_MOD ∧
      be16 (make_add_simple_flow abi junk f buffer_id out_port).data
        (ofp_header_at 0 "length") =
          (make_add_simple_flow abi junk f buffer_id out_port).size) ∧
    (load_u8 (make_buffered_packet_out abi junk buffer_id in_port out_port).data
        (ofp_header_at 0 "version") = 1 ∧
      load_u8 (make_buffered_packet_out abi junk buffer_id in_port out_port).data
        (ofp_header_at 0 "type") = OFPT_PACKET_OUT ∧
      be16 (make_buffered_packet_out abi junk buffer_id in_port out_port).data
        (ofp_header_at 0 "length") =
          (make_buffered_packet_out abi junk buffer_id in_port out_port).size) := by
  rw [size_make_add_simple_flow, size_make_buffered_packet_out]
  obtain ⟨le, ps, ua⟩ := abi
  cases le <;>
  simp [make_add_simple_flow_data, make_buffered_packet_out_data, off_header_version,
    off_header_type, off_header_length, OFPT_FLOW_MOD, OFPT_PACKET_OUT, load_u8, be16,
    peek_store_u16, peek_store_u32, peek_store_u8, peek_memset, peek_memcpy, peek_uninit,
    htons, bswap16]

/-- C2 (counterexample): for a packet of 65520 bytes the message built by
`make_unbuffered_packet_out` is 65536 bytes long, and its header length field,
converted to host order, is not the size of the message. -/
theorem unbuffered_packet_out_length_wraps :
    ntohs lp64 (load_u16 lp64
      (make_unbuffered_packet_out lp64 (fun _ => 0) ⟨List.replicate 65520 0⟩ 1 2).data
      (ofp_header_at 0 "length")) ≠
    (make_unbuffered_packet_out lp64 (fun _ => 0) ⟨List.replicate 65520 0⟩ 1 2).size := by
  have h1 := unbuffered_length_field lp64 (fun _ => 0) ⟨List.replicate 65520 0⟩ 1 2
  have h2 := size_make_unbuffered_packet_out lp64 (fun _ => 0) ⟨List.replicate 65520 0⟩ 1 2
  have h3 : (⟨List.replicate 65520 0⟩ : buffer).size = 65520 := List.length_replicate _ _
  rw [h3] at h1 h2
  rw [off_header_length, h1, h2]
  decide

/-- C2 (amended): the message built by `make_unbuffered_packet_out` has size
`sizeof (struct ofp_packet_out) + packet.size`, its header length field holds
that size modulo 2^16, and so the field equals the size exactly when the size
is below 65536. -/
theorem unbuffered_packet_out_length_mod (abi : ABI) (junk : Nat → Nat) (packet : buffer)
    (in_port out_port : Nat) :
    (make_unbuffered_packet_out abi junk packet in_port out_port).size =
      ofp_packet_out.size + packet.size ∧
    ntohs abi (load_u16 abi (make_unbuffered_packet_out abi junk packet in_port out_port).data
      (ofp_header_at 0 "length")) =
      (make_unbuffered_packet_out abi junk packet in_port out_port).size % 65536 ∧
    (ntohs abi (load_u16 abi (make_unbuffered_packet_out abi junk packet in_port out_port).data
      (ofp_header_at 0 "length")) =
      (make_unbuffered_packet_out abi junk packet in_port out_port).size ↔
      (make_unbuffered_packet_out abi junk packet in_port out_port).size < 65536) := by
  rw [off_header_length, size_make_unbuffered_packet_out, unbuffered_length_field,
    sizeof_ofp_packet_out]
  refine ⟨rfl, rfl, ?_⟩
  constructor
  · intro h; omega
  · intro h; omega

/-- C3 (counterexample): on the flow of scenario S1 the message is not 80 bytes
long, `struct ofp_flow_mod` is not 72 bytes, `struct ofp_action` is not 8
bytes and the header length field is not `htons (80)`. -/
theorem add_simple_flow_not_80_bytes :
    (make_add_simple_flow lp64 (fun _ => 0) flow_S1 0xffffffff 2).size ≠ 80 ∧
    ofp_flow_mod.size ≠ 72 ∧ ofp_action.size ≠ 8 ∧
    load_u16 lp64 (make_add_simple_flow lp64 (fun _ => 0) flow_S1 0xffffffff 2).data
      (ofp_header_at 0 "length") ≠ htons lp64 80 := by
  decide

/-- C3 (amended): `make_add_simple_flow` produces a message of exactly 68 bytes,
being `sizeof (struct ofp_flow_mod)` = 56 plus `sizeof (struct ofp_action)` =
12, and its header length field is `htons (68)`. -/
theorem add_simple_flow_is_68_bytes (abi : ABI) (junk : Nat → Nat) (f : flow)
    (buffer_id out_port : Nat) :
    (make_add_simple_flow abi junk f buffer_id out_port).size = 68 ∧
    ofp_flow_mod.size + ofp_action.size = 68 ∧
    ofp_flow_mod.size = 56 ∧ ofp_action.size = 12 ∧
    load_u16 abi (make_add_simple_flow abi junk f buffer_id out_port).data
      (ofp_header_at 0 "length") = htons abi 68 := by
  refine ⟨size_make_add_simple_flow abi junk f buffer_id out_port, by decide, by decide,
    by decide, ?_⟩
  obtain ⟨le, ps, ua⟩ := abi
  cases le <;>
  simp [make_add_simple_flow_data, off_header_length, load_u16,
    peek_store_u16, peek_store_u32, peek_store_u8, peek_memset, peek_memcpy, peek_uninit,
    htons, bswap16]

/-- C4 (counterexample): neither the sum of the declared member sizes of
`struct ofp_match` nor its `sizeof` is 40. -/
theorem ofp_match_is_not_40_bytes :
    declared_size ofp_match_fields ≠ 40 ∧ ofp_match.size ≠ 40 := by
  decide

/-- C4 (amended): `struct ofp_match` occupies exactly 36 bytes, laid out
without gaps as wildcards:u16, in_port:u16, dl_src[6], dl_dst[6], dl_vlan:u16,
dl_type:u16, nw_src:u32, nw_dst:u32, nw_proto:u8, 3 pad bytes, tp_src:u16,
tp_dst:u16; the sum of the declared member sizes, which is also
`sizeof (struct ofp_match)`, is 36. -/
theorem ofp_match_is_36_bytes :
    ofp_match_fields.map (fun f => (f.name, f.ty.size)) =
      [("wildcards", 2), ("in_port", 2), ("dl_src", 6), ("dl_dst", 6), ("dl_vlan", 2),
       ("dl_type", 2), ("nw_src", 4), ("nw_dst", 4), ("nw_proto", 1), ("pad", 3),
       ("tp_src", 2), ("tp_dst", 2)] ∧
    ofp_match_fields.map (fun f => c_offsetof ofp_match_fields f.name) =
      [0, 2, 4, 10, 16, 18, 20, 24, 28, 29, 32, 34] ∧
    declared_size ofp_match_fields = 36 ∧
    ofp_match.size = 36 := by
  decide

/-- C5: in `struct ofp_packet_in`, `offsetof (data)` is `sizeof - 2` and is
congruent to 2 modulo 4, so a 14-byte Ethernet header placed at `data` ends,
and the IP header after it starts, at a multiple of 4 from the start of the
message. -/
theorem ofp_packet_in_data_offset :
    c_offsetof ofp_packet_in_fields "data" = ofp_packet_in.size - 2 ∧
    2 ≤ ofp_packet_in.size ∧
    c_offsetof ofp_packet_in_fields "data" % 4 = 2 ∧
    (ofp_packet_in_at 0 "data" + 14) % 4 = 0 := by
  decide

/-- C6: for a flow, a buffer id and an output port in the range of their C
types, the message `B` built by `make_add_simple_flow` has wildcards 0, every
match member holding the value of the same member of the flow, command
`OFPFC_ADD`, max_idle 60, the given buffer id, group id 0, and exactly one
action, of type `OFPAT_OUTPUT` with max_len 0 and the given port; command,
max_idle, buffer_id, group_id, the action type, max_len and port read
big-endian. -/
theorem add_simple_flow_contents (abi : ABI) (junk : Nat → Nat) (f : flow)
    (buffer_id out_port : Nat) (B : Bytes)
    (hB : B = (make_add_simple_flow abi junk f buffer_id out_port).data)
    (hf : f.wf) (hb : buffer_id < 4294967296) (hp : out_port < 65536) :
    be16 B (ofp_match_at (ofp_flow_mod_at 0 "match") "wildcards") = 0 ∧
    load_u16 abi B (ofp_match_at (ofp_flow_mod_at 0 "match") "in_port") = f.in_port ∧
    bytes_at B (ofp_match_at (ofp_flow_mod_at 0 "match") "dl_src") OFP_ETH_ALEN = f.dl_src ∧
    bytes_at B (ofp_match_at (ofp_flow_mod_at 0 "match") "dl_dst") OFP_ETH_ALEN = f.dl_dst ∧
    load_u16 abi B (ofp_match_at (ofp_flow_mod_at 0 "match") "dl_vlan") = f.dl_vlan ∧
    load_u16 abi B (ofp_match_at (ofp_flow_mod_at 0 "match") "dl_type") = f.dl_type ∧
    load_u32 abi B (ofp_match_at (ofp_flow_mod_at 0 "match") "nw_src") = f.nw_src ∧
    load_u32 abi B (ofp_match_at (ofp_flow_mod_at 0 "match") "nw_dst") = f.nw_dst ∧
    load_u8 B (ofp_match_at (ofp_flow_mod_at 0 "match") "nw_proto") = f.nw_proto ∧
    load_u16 abi B (ofp_match_at (ofp_flow_mod_at 0 "match") "tp_src") = f.tp_src ∧
    load_u16 abi B (ofp_match_at (ofp_flow_mod_at 0 "match") "tp_dst") = f.tp_dst ∧
    be16 B (ofp_flow_mod_at 0 "command") = OFPFC_ADD ∧
    be16 B (ofp_flow_mod_at 0 "max_idle") = 60 ∧
    be32 B (ofp_flow_mod_at 0 "buffer_id") = buffer_id ∧
    be32 B (ofp_flow_mod_at 0 "group_id") = 0 ∧
    (be16 B (ofp_header_at 0 "length") - ofp_flow_mod.size) / ofp_action.size = 1 ∧
    (be16 B (ofp_header_at 0 "length") - ofp_flow_mod.size) % ofp_action.size = 0 ∧
    be16 B (ofp_action_at (elem_at ofp_action (ofp_flow_mod_at 0 "actions") 0) "type") =
      OFPAT_OUTPUT ∧
    be16 B (ofp_action_output_at (union_at (ofp_action_at
      (elem_at ofp_action (ofp_flow_mod_at 0 "actions") 0) "arg") "output") "max_len") = 0 ∧
    be16 B (ofp_action_output_at (union_at (ofp_action_at
      (elem_at ofp_action (ofp_flow_mod_at 0 "actions") 0) "arg") "output") "port") =
      out_port := by
  subst hB
  obtain ⟨h1, h2, h3, h4, h5, h6, h7, h8, h9, h10, h11, h12⟩ := hf
  have e1 := list_length_six f.dl_src h8
  have e2 := list_length_six f.dl_dst h10
  simp only [off_header_length, off_match_wildcards,
    off_match_in_port, off_match_dl_src, off_match_dl_dst, off_match_dl_vlan, off_match_dl_type,
    off_match_nw_src, off_match_nw_dst, off_match_nw_proto, off_match_tp_src,
    off_match_tp_dst, off_flow_mod_match, off_flow_mod_command,
    off_flow_mod_max_idle, off_flow_mod_buffer_id, off_flow_mod_group_id, off_flow_mod_actions,
    off_action_type, off_action_arg, off_output_max_len, off_output_port, union_at, elem_at,
    sizeof_ofp_flow_mod, sizeof_ofp_action, OFP_ETH_ALEN, OFPFC_ADD, OFPAT_OUTPUT,
    Nat.zero_add, Nat.reduceAdd, Nat.zero_mul, Nat.add_zero]
  have hlen : (make_add_simple_flow abi junk f buffer_id out_port).data.length = 68 :=
    size_make_add_simple_flow abi junk f buffer_id out_port
  rw [bytes_at_six _ 12 (by omega), bytes_at_six _ 18 (by omega)]
  obtain ⟨le, ps, ua⟩ := abi
  cases le <;>
  simp [make_add_simple_flow_data, be16, be32, load_u8, load_u16, load_u32,
    peek_store_u16, peek_store_u32, peek_store_u8, peek_memset, peek_memcpy, peek_uninit,
    htons, htonl, bswap16_mod, bswap16_div_mod, bswap32_mod, bswap32_div_mod_1,
    bswap32_div_mod_2, bswap32_div_mod_3]
  all_goals exact ⟨by omega, e1.symm, e2.symm, by omega, by omega, by omega, by omega, h12,
    by omega, by omega, by omega, by omega⟩

/-- C6 (witness): the flow of scenario S1 with buffer id 0xffffffff and output
port 2, on a big-endian host. -/
theorem add_simple_flow_contents_witness :
    flow_S1.wf ∧ 4294967295 < 4294967296 ∧ 2 < 65536 ∧
    be16 (make_add_simple_flow ppc32 (fun _ => 0) flow_S1 4294967295 2).data (ofp_match_at (ofp_flow_mod_at 0 "match") "wildcards") = 0 ∧
    load_u16 ppc32 (make_add_simple_flow ppc32 (fun _ => 0) flow_S1 4294967295 2).data (ofp_match_at (ofp_flow_mod_at 0 "match") "in_port") = flow_S1.in_port ∧
    bytes_at (make_add_simple_flow ppc32 (fun _ => 0) flow_S1 4294967295 2).data (ofp_match_at (ofp_flow_mod_at 0 "match") "dl_src") OFP_ETH_ALEN = flow_S1.dl_src ∧
    bytes_at (make_add_simple_flow ppc32 (fun _ => 0) flow_S1 4294967295 2).data (ofp_match_at (ofp_flow_mod_at 0 "match") "dl_dst") OFP_ETH_ALEN = flow_S1.dl_dst ∧
    load_u16 ppc32 (make_add_simple_flow ppc32 (fun _ => 0) flow_S1 4294967295 2).data (ofp_match_at (ofp_flow_mod_at 0 "match") "dl_vlan") = flow_S1.dl_vlan ∧
    load_u16 ppc32 (make_add_simple_flow ppc32 (fun _ => 0) flow_S1 4294967295 2).data (ofp_match_at (ofp_flow_mod_at 0 "match") "dl_type") = flow_S1.dl_type ∧
    load_u32 ppc32 (make_add_simple_flow ppc32 (fun _ => 0) flow_S1 4294967295 2).data (ofp_match_at (ofp_flow_mod_at 0 "match") "nw_src") = flow_S1.nw_src ∧
    load_u32 ppc32 (make_add_simple_flow ppc32 (fun _ => 0) flow_S1 4294967295 2).data (ofp_match_at (ofp_flow_mod_at 0 "match") "nw_dst") = flow_S1.nw_dst ∧
    load_u8 (make_add_simple_flow ppc32 (fun _ => 0) flow_S1 4294967295 2).data (ofp_match_at (ofp_flow_mod_at 0 "match") "nw_proto") = flow_S1.nw_proto ∧
    load_u16 ppc32 (make_add_simple_flow ppc32 (fun _ => 0) flow_S1 4294967295 2).data (ofp_match_at (ofp_flow_mod_at 0 "match") "tp_src") = flow_S1.tp_src ∧
    load_u16 ppc32 (make_add_simple_flow ppc32 (fun _ => 0) flow_S1 4294967295 2).data (ofp_match_at (ofp_flow_mod_at 0 "match") "tp_dst") = flow_S1.tp_dst ∧
    be16 (make_add_simple_flow ppc32 (fun _ => 0) flow_S1 4294967295 2).data (ofp_flow_mod_at 0 "command") = OFPFC_ADD ∧
    be16 (make_add_simple_flow ppc32 (fun _ => 0) flow_S1 4294967295 2).data (ofp_flow_mod_at 0 "max_idle") = 60 ∧
    be32 (make_add_simple_flow ppc32 (fun _ => 0) flow_S1 4294967295 2).data (ofp_flow_mod_at 0 "buffer_id") = 4294967295 ∧
    be32 (make_add_simple_flow ppc32 (fun _ => 0) flow_S1 4294967295 2).data (ofp_flow_mod_at 0 "group_id") = 0 ∧
    (be16 (make_add_simple_flow ppc32 (fun _ => 0) flow_S1 4294967295 2).data (ofp_header_at 0 "length") - ofp_flow_mod.size) / ofp_action.size = 1 ∧
    (be16 (make_add_simple_flow ppc32 (fun _ => 0) flow_S1 4294967295 2).data (ofp_header_at 0 "length") - ofp_flow_mod.size) % ofp_action.size = 0 ∧
    be16 (make_add_simple_flow ppc32 (fun _ => 0) flow_S1 4294967295 2).data (ofp_action_at (elem_at ofp_action (ofp_flow_mod_at 0 "actions") 0) "type") =
      OFPAT_OUTPUT ∧
    be16 (make_add_simple_flow ppc32 (fun _ => 0) flow_S1 4294967295 2).data (ofp_action_output_at (union_at (ofp_action_at
      (elem_at ofp_action (ofp_flow_mod_at 0 "actions") 0) "arg") "output") "max_len") = 0 ∧
    be16 (make_add_simple_flow ppc32 (fun _ => 0) flow_S1 4294967295 2).data (ofp_action_output_at (union_at (ofp_action_at
      (elem_at ofp_action (ofp_flow_mod_at 0 "actions") 0) "arg") "output") "port") =
      2 :=
  ⟨by decide, by decide, by decide,
    add_simple_flow_contents ppc32 (fun _ => 0) flow_S1 4294967295 2 _ rfl (by decide)
      (by decide) (by decide)⟩

/-- C7: in the messages built by `make_add_simple_flow` and by
`make_buffered_packet_out` the padding and unused bytes are zero: the three
pad bytes of the match (flow_mod only), the two bytes between the type of the
action and its argument union, the four bytes of the union after the output
payload, and the header xid. -/
theorem built_padding_is_zero (abi : ABI) (junk : Nat → Nat) (f : flow)
    (buffer_id in_port out_port : Nat) :
    (bytes_at (make_add_simple_flow abi junk f buffer_id out_port).data
        (ofp_match_at (ofp_flow_mod_at 0 "match") "pad") 3 = [0, 0, 0] ∧
      bytes_at (make_add_simple_flow abi junk f buffer_id out_port).data
        (ofp_action_at (elem_at ofp_action (ofp_flow_mod_at 0 "actions") 0) "type"
          + uint16_t.size) 2 = [0, 0] ∧
      ofp_action_at (elem_at ofp_action (ofp_flow_mod_at 0 "actions") 0) "type"
          + uint16_t.size + 2 =
        ofp_action_at (elem_at ofp_action (ofp_flow_mod_at 0 "actions") 0) "arg" ∧
      bytes_at (make_add_simple_flow abi junk f buffer_id out_port).data
        (union_at (ofp_action_at (elem_at ofp_action (ofp_flow_mod_at 0 "actions") 0) "arg")
          "output" + ofp_action_output.size) 4 = [0, 0, 0, 0] ∧
      ofp_action_output.size + 4 = ofp_action_arg.size ∧
      bytes_at (make_add_simple_flow abi junk f buffer_id out_port).data
        (ofp_header_at 0 "xid") 4 = [0, 0, 0, 0]) ∧
    (bytes_at (make_buffered_packet_out abi junk buffer_id in_port out_port).data
        (ofp_action_at (elem_at ofp_action (union_at (ofp_packet_out_at 0 "u") "actions") 0)
          "type" + uint16_t.size) 2 = [0, 0] ∧
      ofp_action_at (elem_at ofp_action (union_at (ofp_packet_out_at 0 "u") "actions") 0)
          "type" + uint16_t.size + 2 =
        ofp_action_at (elem_at ofp_action (union_at (ofp_packet_out_at 0 "u") "actions") 0)
          "arg" ∧
      bytes_at (make_buffered_packet_out abi junk buffer_id in_port out_port).data
        (union_at (ofp_action_at
          (elem_at ofp_action (union_at (ofp_packet_out_at 0 "u") "actions") 0) "arg")
          "output" + ofp_action_output.size) 4 = [0, 0, 0, 0] ∧
      bytes_at (make_buffered_packet_out abi junk buffer_id in_port out_port).data
        (ofp_header_at 0 "xid") 4 = [0, 0, 0, 0]) := by
  have hlen : (make_add_simple_flow abi junk f buffer_id out_port).data.length = 68 :=
    size_make_add_simple_flow abi junk f buffer_id out_port
  have hlen2 : (make_buffered_packet_out abi junk buffer_id in_port out_port).data.length = 28 :=
    size_make_buffered_packet_out abi junk buffer_id in_port out_port
  simp only [off_header_xid, off_match_pad, off_flow_mod_match, off_flow_mod_actions,
    off_action_type, off_action_arg, off_packet_out_u, union_at, elem_at,
    sizeof_ofp_action_output, sizeof_ofp_action_arg, uint16_t,
    Nat.zero_add, Nat.reduceAdd, Nat.zero_mul, Nat.add_zero]
  rw [bytes_at_three _ 37 (by omega), bytes_at_two _ 58 (by omega),
    bytes_at_four _ 64 (by omega), bytes_at_four _ 4 (by omega),
    bytes_at_two _ 18 (by omega), bytes_at_four _ 24 (by omega),
    bytes_at_four _ 4 (by omega)]
  obtain ⟨le, ps, ua⟩ := abi
  cases le <;>
  simp [make_add_simple_flow_data, make_buffered_packet_out_data,
    peek_store_u16, peek_store_u32, peek_store_u8, peek_memset, peek_memcpy, peek_uninit]

/-- C8: for ports in the range of `uint16_t`, the message built by
`make_unbuffered_packet_out` has buffer_id 0xffffffff, in_port and out_port
stored big-endian, and its bytes from offset `sizeof (struct ofp_packet_out)`
to the end are exactly the bytes of the packet. -/
theorem unbuffered_packet_out_contents (abi : ABI) (junk : Nat → Nat) (packet : buffer)
    (in_port out_port : Nat) (hi : in_port < 65536) (ho : out_port < 65536) :
    be32 (make_unbuffered_packet_out abi junk packet in_port out_port).data
      (ofp_packet_out_at 0 "buffer_id") = 0xffffffff ∧
    be16 (make_unbuffered_packet_out abi junk packet in_port out_port).data
      (ofp_packet_out_at 0 "in_port") = in_port ∧
    be16 (make_unbuffered_packet_out abi junk packet in_port out_port).data
      (ofp_packet_out_at 0 "out_port") = out_port ∧
    (make_unbuffered_packet_out abi junk packet in_port out_port).data.drop
      ofp_packet_out.size = packet.data ∧
    bytes_at (make_unbuffered_packet_out abi junk packet in_port out_port).data
      (union_at (ofp_packet_out_at 0 "u") "data") packet.size = packet.data := by
  have h8 : 8 < 16 + packet.data.length := by omega
  have h9 : 9 < 16 + packet.data.length := by omega
  have h10 : 10 < 16 + packet.data.length := by omega
  have h11 : 11 < 16 + packet.data.length := by omega
  have h12 : 12 < 16 + packet.data.length := by omega
  have h13 : 13 < 16 + packet.data.length := by omega
  have h14 : 14 < 16 + packet.data.length := by omega
  have h15 : 15 < 16 + packet.data.length := by omega
  have hd : (make_unbuffered_packet_out abi junk packet in_port out_port).data.drop 16 =
      packet.data := by
    rw [make_unbuffered_packet_out_data]
    exact drop_memcpy _ _ 16 (by simp)
  simp only [off_packet_out_buffer_id, off_packet_out_in_port, off_packet_out_out_port,
    off_packet_out_u, union_at, sizeof_ofp_packet_out, Nat.zero_add, bytes_at, hd, buffer.size,
    List.take_length, true_and, and_true]
  obtain ⟨le, ps, ua⟩ := abi
  cases le <;>
  simp [make_unbuffered_packet_out_data, be16, be32,
    peek_store_u16, peek_store_u32, peek_store_u8, peek_memset, peek_memcpy, peek_uninit,
    htons, htonl, bswap16_mod, bswap16_div_mod, bswap32_mod, bswap32_div_mod_1,
    bswap32_div_mod_2, bswap32_div_mod_3, h8, h9, h10, h11, h12, h13, h14, h15] <;> omega

/-- C8 (witness): a four-byte packet, input port 1, output port 2, with 0xaa
in the uninitialized bytes. -/
theorem unbuffered_packet_out_contents_witness :
    1 < 65536 ∧ 2 < 65536 ∧
    be32 (make_unbuffered_packet_out lp64 (fun _ => 0xaa) (⟨[0xde, 0xad, 0xbe, 0xef]⟩ : buffer) 1 2).data
      (ofp_packet_out_at 0 "buffer_id") = 0xffffffff ∧
    be16 (make_unbuffered_packet_out lp64 (fun _ => 0xaa) (⟨[0xde, 0xad, 0xbe, 0xef]⟩ : buffer) 1 2).data
      (ofp_packet_out_at 0 "in_port") = 1 ∧
    be16 (make_unbuffered_packet_out lp64 (fun _ => 0xaa) (⟨[0xde, 0xad, 0xbe, 0xef]⟩ : buffer) 1 2).data
      (ofp_packet_out_at 0 "out_port") = 2 ∧
    (make_unbuffered_packet_out lp64 (fun _ => 0xaa) (⟨[0xde, 0xad, 0xbe, 0xef]⟩ : buffer) 1 2).data.drop
      ofp_packet_out.size = (⟨[0xde, 0xad, 0xbe, 0xef]⟩ : buffer).data ∧
    bytes_at (make_unbuffered_packet_out lp64 (fun _ => 0xaa) (⟨[0xde, 0xad, 0xbe, 0xef]⟩ : buffer) 1 2).data
      (union_at (ofp_packet_out_at 0 "u") "data") (⟨[0xde, 0xad, 0xbe, 0xef]⟩ : buffer).size = (⟨[0xde, 0xad, 0xbe, 0xef]⟩ : buffer).data :=
  ⟨by decide, by decide,
    unbuffered_packet_out_contents lp64 (fun _ => 0xaa) ⟨[0xde, 0xad, 0xbe, 0xef]⟩ 1 2
      (by decide) (by decide)⟩

/-- C9 (the code at the failing input): in the request of `dpif_dump_flows`
the length field of the FLOW_MOD header holds the size of a pointer, 8 on
x86-64 (table 0, null match) and 4 on i386 (table 3, a match given), while
56 bytes, `sizeof (struct ofp_flow_mod)`, are reserved for the message in the
attribute. -/
theorem dump_flows_request_length_is_pointer_size :
    ntohs lp64 (load_u16 lp64
      (dpif_dump_flows_request lp64 nl_example (fun _ => 0) 23 dp_example 0 none).1.data
      (ofp_header_at (ofp_flow_mod_at
        (dpif_dump_flows_request lp64 nl_example (fun _ => 0) 23 dp_example 0 none).2
        "header") "length")) = 8 ∧
    (dpif_dump_flows_request lp64 nl_example (fun _ => 0) 23 dp_example 0 none).1.size -
      (dpif_dump_flows_request lp64 nl_example (fun _ => 0) 23 dp_example 0 none).2 = 56 ∧
    ntohs ilp32 (load_u16 ilp32
      (dpif_dump_flows_request ilp32 nl_example (fun _ => 0) 23 dp_example 3
        (some match_example)).1.data
      (ofp_header_at (ofp_flow_mod_at
        (dpif_dump_flows_request ilp32 nl_example (fun _ => 0) 23 dp_example 3
          (some match_example)).2 "header") "length")) = 4 ∧
    (dpif_dump_flows_request ilp32 nl_example (fun _ => 0) 23 dp_example 3
        (some match_example)).1.size -
      (dpif_dump_flows_request ilp32 nl_example (fun _ => 0) 23 dp_example 3
        (some match_example)).2 = 56 ∧
    ofp_flow_mod.size = 56 := by
  decide

/-- C10 (the code at the failing input): on x86-64, for an 8-byte OpenFlow
message, the attribute emitted by `dpif_send_openflow` has `nla_len` 16, not
4 + 8; 8 bytes, not 4, are in front of the payload, the last four of them
uninitialized (here 0xaa); no padding follows the payload. -/
theorem send_openflow_lp64_attribute :
    load_u16 lp64
      (dpif_send_openflow_frame lp64 nl_example (fun _ => 0xaa) 23 dp_example hello_example
        true).call.datagram
      (nlattr_at (dpif_send_openflow_frame lp64 nl_example (fun _ => 0xaa) 23 dp_example
        hello_example true).nla "nla_len") = 16 ∧
    NLA_HDRLEN + hello_example.size = 12 ∧
    bytes_at
      (dpif_send_openflow_frame lp64 nl_example (fun _ => 0xaa) 23 dp_example hello_example
        true).call.datagram
      ((dpif_send_openflow_frame lp64 nl_example (fun _ => 0xaa) 23 dp_example hello_example
        true).nla + NLA_HDRLEN) hello_example.size = [0xaa, 0xaa, 0xaa, 0xaa, 1, 0, 0, 8] ∧
    (dpif_send_openflow_frame lp64 nl_example (fun _ => 0xaa) 23 dp_example hello_example
        true).call.datagram.drop
      ((dpif_send_openflow_frame lp64 nl_example (fun _ => 0xaa) 23 dp_example hello_example
        true).nla + 8) = hello_example.data := by
  decide

/-- C11: for every buffer that `dpif_send_openflow` is given whose netlink
message fits the 32 bits of `nlmsg_len` (every OpenFlow message does, being
below 2^16 bytes), the `nlmsg_len` in the header part equals the sum of the
`iov_len` handed to `nl_sock_sendv`: the header part, the payload and the
padding, the padding range being there exactly when the pad length is not
zero. -/
theorem send_openflow_nlmsg_len_is_iov_sum (abi : ABI) (nl : openflow_netlink_h)
    (junk : Nat → Nat) (fam : Nat) (nl_sock_sendv : sendv_call → Nat) (dp : dpif)
    (buf : buffer) (wait : Bool) (hn : 28 + abi.ptr_size + buf.size + 3 < 4294967296) :
    load_u32 abi ((dpif_send_openflow abi nl junk fam nl_sock_sendv dp buf wait).1.iov.headD [])
        (nlmsghdr_at 0 "nlmsg_len") =
      ((dpif_send_openflow abi nl junk fam nl_sock_sendv dp buf wait).1.iov.map
        List.length).sum ∧
    (dpif_send_openflow abi nl junk fam nl_sock_sendv dp buf wait).1.iov.map List.length =
      [(dpif_send_openflow_frame abi nl junk fam dp buf wait).hdr_size, buf.size] ++
        (if (dpif_send_openflow_frame abi nl junk fam dp buf wait).pad_bytes ≠ 0 then
          [(dpif_send_openflow_frame abi nl junk fam dp buf wait).pad_bytes] else []) ∧
    ((dpif_send_openflow abi nl junk fam nl_sock_sendv dp buf wait).1.n_iov = 3 ↔
      (dpif_send_openflow_frame abi nl junk fam dp buf wait).pad_bytes ≠ 0) ∧
    ((dpif_send_openflow abi nl junk fam nl_sock_sendv dp buf wait).1.n_iov = 2 ↔
      (dpif_send_openflow_frame abi nl junk fam dp buf wait).pad_bytes = 0) := by
  obtain ⟨H, hH, hlen, hpad, hsize, _, hiov⟩ :=
    send_openflow_frame_iov abi nl junk fam dp buf wait
  have hcall : (dpif_send_openflow abi nl junk fam nl_sock_sendv dp buf wait).1 =
      (dpif_send_openflow_frame abi nl junk fam dp buf wait).call := rfl
  rw [hcall, sendv_call.n_iov, hiov, hsize, off_nlmsg_len]
  generalize (dpif_send_openflow_frame abi nl junk fam dp buf wait).pad_bytes = pad at *
  have hn' : 28 + abi.ptr_size + buf.data.length + 3 < 4294967296 := hn
  simp only [OpenFlow.buffer.size] at hlen ⊢
  by_cases h0 : pad = 0
  · subst h0
    rw [Nat.mod_eq_of_lt (by omega)] at hlen
    simp [hlen, hH]
  · rw [Nat.mod_eq_of_lt (by omega)] at hlen
    simp [h0, hlen, hH]
    omega

/-- C11 (witness): the 8-byte message `hello_example` on x86-64. -/
theorem send_openflow_nlmsg_len_is_iov_sum_witness :
    28 + lp64.ptr_size + hello_example.size + 3 < 4294967296 ∧
    load_u32 lp64 ((dpif_send_openflow lp64 nl_example (fun _ => 0) 23 (fun _ => 0) dp_example
        hello_example true).1.iov.headD []) (nlmsghdr_at 0 "nlmsg_len") =
      ((dpif_send_openflow lp64 nl_example (fun _ => 0) 23 (fun _ => 0) dp_example
        hello_example true).1.iov.map List.length).sum :=
  ⟨by decide,
    (send_openflow_nlmsg_len_is_iov_sum lp64 nl_example (fun _ => 0) 23 (fun _ => 0)
      dp_example hello_example true (by decide)).1⟩

/-- C12 (the code at the failing input): called with `wait` true,
`dpif_send_openflow` calls `nl_sock_sendv` with `wait` false. -/
theorem send_openflow_ignores_wait :
    (dpif_send_openflow lp64 nl_example (fun _ => 0) 23 (fun _ => 0) dp_example
      hello_example true).1.wait = false := by
  decide

/-- C14: when `dpif_recv_openflow` succeeds, the buffer it returns is the
message read last, its data begins at the first payload byte of the
`OPENFLOW` attribute and its size is `min (L, a)`, `a` being the payload
length and `L` the header length field; when the attribute is longer than `L`
the size is exactly `L`. -/
theorem recv_openflow_truncates (abi : ABI) (nl : openflow_netlink_h) (fam : Nat)
    (dp : dpif) (sock : List recv_result) (wait : Bool) (out : recv_outcome)
    (hs : ∀ e, recv_result.err e ∈ sock → e ≠ 0)
    (h : dpif_recv_openflow abi nl fam dp sock wait = some out) (h0 : out.retval = 0) :
    ∃ b attrs, out.bufferp = some b ∧ recv_result.msg b.msg ∈ sock ∧
      nl_policy_parse b.msg (openflow_policy abi nl) = some attrs ∧
      b.data = nl_attr_get (nl_attrs_get attrs nl.DP_GENL_A_OPENFLOW) ∧
      b.size = min (ntohs abi (load_u16 abi b.msg.mem (ofp_header_at b.data "length")))
        (nl_attr_get_size (nl_attrs_get attrs nl.DP_GENL_A_OPENFLOW)) ∧
      (ntohs abi (load_u16 abi b.msg.mem (ofp_header_at b.data "length")) <
          nl_attr_get_size (nl_attrs_get attrs nl.DP_GENL_A_OPENFLOW) →
        b.size = ntohs abi (load_u16 abi b.msg.mem (ofp_header_at b.data "length"))) ∧
      b.bytes = bytes_at b.msg.mem (nl_attr_get (nl_attrs_get attrs nl.DP_GENL_A_OPENFLOW))
        (min (ntohs abi (load_u16 abi b.msg.mem (ofp_header_at b.data "length")))
          (nl_attr_get_size (nl_attrs_get attrs nl.DP_GENL_A_OPENFLOW))) := by
  obtain ⟨m, attrs, hm, _, _, _, _, hp, _, hb⟩ :=
    recv_openflow_success abi nl fam dp sock wait out hs h h0
  refine ⟨_, attrs, hb, hm, hp, rfl, rfl, ?_, rfl⟩
  intro hlt
  exact Nat.min_eq_left (Nat.le_of_lt hlt)

/-- C14 (witness): a message whose length field says 4 in an attribute of 8
bytes; the returned buffer has 4 bytes. -/
theorem recv_openflow_truncates_witness :
    ∃ b attrs, (⟨0, some ⟨openflow_msg_example 4, 32, 4⟩, 1, []⟩ : recv_outcome).bufferp =
        some b ∧
      recv_result.msg b.msg ∈ [recv_result.msg (openflow_msg_example 4)] ∧
      nl_policy_parse b.msg (openflow_policy lp64 nl_example) = some attrs ∧
      b.data = nl_attr_get (nl_attrs_get attrs nl_example.DP_GENL_A_OPENFLOW) ∧
      b.size = min (ntohs lp64 (load_u16 lp64 b.msg.mem (ofp_header_at b.data "length")))
        (nl_attr_get_size (nl_attrs_get attrs nl_example.DP_GENL_A_OPENFLOW)) ∧
      (ntohs lp64 (load_u16 lp64 b.msg.mem (ofp_header_at b.data "length")) <
          nl_attr_get_size (nl_attrs_get attrs nl_example.DP_GENL_A_OPENFLOW) →
        b.size = ntohs lp64 (load_u16 lp64 b.msg.mem (ofp_header_at b.data "length"))) ∧
      b.bytes = bytes_at b.msg.mem
        (nl_attr_get (nl_attrs_get attrs nl_example.DP_GENL_A_OPENFLOW))
        (min (ntohs lp64 (load_u16 lp64 b.msg.mem (ofp_header_at b.data "length")))
          (nl_attr_get_size (nl_attrs_get attrs nl_example.DP_GENL_A_OPENFLOW))) :=
  recv_openflow_truncates lp64 nl_example 23 dp_example [.msg (openflow_msg_example 4)]
    true ⟨0, some ⟨openflow_msg_example 4, 32, 4⟩, 1, []⟩ (by simp) (by decide) rfl

/-- C15: when the message on which the read loop ends is too short for a
generic-netlink header, or its `nlmsg_type` is not the OpenFlow family, or the
policy parse fails, or its `DP_IDX` attribute differs from the `dp_idx` of the
handle (as `uint32_t`), `dpif_recv_openflow` returns `EPROTO` and stores a
null pointer. -/
theorem recv_openflow_eproto (abi : ABI) (nl : openflow_netlink_h) (fam : Nat)
    (dp : dpif) (sock : List recv_result) (wait : Bool) (m : nl_msg)
    (sock' : List recv_result) (n : Nat)
    (hl : dpif_recv_openflow_loop wait sock 0 = some (.msg m, sock', n))
    (hbad : m.genlmsghdr = false ∨ m.nlmsg_type ≠ fam ∨
      nl_policy_parse m (openflow_policy abi nl) = none ∨
      ∃ attrs, nl_policy_parse m (openflow_policy abi nl) = some attrs ∧
        nl_attr_get_u32 abi m (nl_attrs_get attrs nl.DP_GENL_A_DP_IDX) ≠ to_u32 dp.dp_idx) :
    dpif_recv_openflow abi nl fam dp sock wait = some ⟨EPROTO, none, n, sock'⟩ := by
  rw [recv_openflow_of_loop_msg abi nl fam dp sock wait m sock' n hl]
  have hc : dpif_recv_openflow_check abi nl fam dp m = (EPROTO, none) := by
    unfold dpif_recv_openflow_check
    by_cases h1 : m.genlmsghdr = false
    · simp [h1]
    · by_cases h2 : m.nlmsg_type ≠ fam
      · simp [h1, h2]
      · rcases hbad with hb | hb | hb | ⟨attrs, hb, hne⟩
        · exact absurd hb h1
        · exact absurd hb h2
        · simp [h1, h2, hb]
        · simp [h1, h2, hb, hne]
  rw [hc]

/-- C15 (witness): a message of family 23 read by a handle whose family is
24, after a netlink error message. -/
theorem recv_openflow_eproto_witness :
    dpif_recv_openflow_loop true
      [.msg nlmsgerr_example, .msg (openflow_msg_example 8)] 0 =
      some (.msg (openflow_msg_example 8), [], 2) ∧
    (openflow_msg_example 8).nlmsg_type ≠ 24 ∧
    dpif_recv_openflow lp64 nl_example 24 dp_example
      [.msg nlmsgerr_example, .msg (openflow_msg_example 8)] true =
      some ⟨EPROTO, none, 2, []⟩ :=
  ⟨by decide, by decide,
    recv_openflow_eproto lp64 nl_example 24 dp_example
      [.msg nlmsgerr_example, .msg (openflow_msg_example 8)] true (openflow_msg_example 8)
      [] 2 (by decide) (Or.inr (Or.inl (by decide)))⟩

/-- C16: when the socket reports errors by positive errno values, every
outcome of `dpif_recv_openflow` with a non-zero return value has a positive
return value and a null `*bufferp`, and every outcome with return value 0 has
a non-null `*bufferp`; on an empty socket with `wait` false the return value
is `EAGAIN`. -/
theorem recv_openflow_outcome (abi : ABI) (nl : openflow_netlink_h) (fam : Nat)
    (dp : dpif) (sock : List recv_result) (wait : Bool) (out : recv_outcome)
    (hs : ∀ e, recv_result.err e ∈ sock → 0 < e)
    (h : dpif_recv_openflow abi nl fam dp sock wait = some out) :
    (out.retval ≠ 0 → 0 < out.retval ∧ out.bufferp = none) ∧
    (out.retval = 0 → out.bufferp ≠ none) ∧
    (sock = [] → out.retval = EAGAIN ∧ wait = false) := by
  cases hl : dpif_recv_openflow_loop wait sock 0 with
  | none => simp [dpif_recv_openflow, hl] at h
  | some res =>
    obtain ⟨r, sock', n⟩ := res
    obtain ⟨_, hr2, hr3⟩ := recv_loop_result wait sock 0 r sock' n hl
    cases r with
    | err e =>
      rw [recv_openflow_of_loop_err abi nl fam dp sock wait e sock' n hl] at h
      simp only [Option.some.injEq] at h
      subst h
      have hpos : 0 < e := by
        rcases hr2 with hr2 | hr2
        · exact hs e hr2
        · have he : e = EAGAIN := by simpa using hr2.1
          rw [he]; decide
      refine ⟨fun _ => ⟨hpos, rfl⟩, fun hz => absurd hz (by simp only; omega), ?_⟩
      intro hnil
      have he : e = EAGAIN := by simpa using hr3 hnil
      refine ⟨he, ?_⟩
      rcases hr2 with hr2 | hr2
      · rw [hnil] at hr2; simp at hr2
      · exact hr2.2
    | msg m =>
      rw [recv_openflow_of_loop_msg abi nl fam dp sock wait m sock' n hl] at h
      simp only [Option.some.injEq] at h
      subst h
      refine ⟨?_, ?_, fun hnil => absurd (hr3 hnil) (by simp)⟩
      · intro hne
        rcases recv_openflow_check_cases abi nl fam dp m with hc | ⟨attrs, _, _, _, _, hc⟩
        · rw [hc]; exact ⟨(by decide : (0 : Int) < EPROTO), rfl⟩
        · simp only [hc] at hne; exact absurd rfl hne
      · intro hz
        rcases recv_openflow_check_cases abi nl fam dp m with hc | ⟨attrs, _, _, _, _, hc⟩
        · simp only [hc] at hz; exact absurd hz eproto_ne_zero
        · simp only [hc]; simp

/-- C16 (witness): an empty socket read with `wait` false gives `EAGAIN`. -/
theorem recv_openflow_outcome_witness :
    dpif_recv_openflow lp64 nl_example 23 dp_example [] false = some ⟨EAGAIN, none, 1, []⟩ ∧
    ((⟨EAGAIN, none, 1, []⟩ : recv_outcome).retval ≠ 0 →
      0 < (⟨EAGAIN, none, 1, []⟩ : recv_outcome).retval ∧
      (⟨EAGAIN, none, 1, []⟩ : recv_outcome).bufferp = none) :=
  ⟨by decide,
    (recv_openflow_outcome lp64 nl_example 23 dp_example [] false ⟨EAGAIN, none, 1, []⟩
      (by simp) (by decide)).1⟩

/-- C17: after `k` read results that are the error `ENOBUFS` or a netlink
error message, followed by a result `r` that is neither,
`dpif_recv_openflow` has read `k + 1` times and returns what it returns when
`r` is the first read result. -/
theorem recv_openflow_rereads (abi : ABI) (nl : openflow_netlink_h) (fam : Nat)
    (dp : dpif) (wait : Bool) (skipped : List recv_result) (r : recv_result)
    (rest : List recv_result)
    (hs : ∀ x ∈ skipped, x = .err ENOBUFS ∨ ∃ m, x = .msg m ∧ m.nlmsgerr = true)
    (hr : r ≠ .err ENOBUFS ∧ ∀ m, r = .msg m → m.nlmsgerr = false) :
    ∃ o o1, dpif_recv_openflow abi nl fam dp (skipped ++ r :: rest) wait = some o ∧
      dpif_recv_openflow abi nl fam dp (r :: rest) wait = some o1 ∧
      o.retval = o1.retval ∧ o.bufferp = o1.bufferp ∧ o.sock = o1.sock ∧ o.sock = rest ∧
      o.n_reads = skipped.length + 1 ∧ o1.n_reads = 1 := by
  have hs' : ∀ x ∈ skipped, recv_again x = true := by
    intro x hx
    rcases hs x hx with rfl | ⟨m, rfl, hm⟩
    · decide
    · simpa [recv_again] using hm
  have hr' : recv_again r = false := by
    cases r with
    | err e =>
      have : e ≠ ENOBUFS := fun he => hr.1 (by rw [he])
      simpa [recv_again] using this
    | msg m => simpa [recv_again] using hr.2 m rfl
  have h1 : dpif_recv_openflow_loop wait (skipped ++ r :: rest) 0 =
      some (r, rest, skipped.length + 1) := by
    rw [recv_loop_skip wait skipped (r :: rest) 0 hs', dpif_recv_openflow_loop]
    simp [hr']
  have h2 : dpif_recv_openflow_loop wait (r :: rest) 0 = some (r, rest, 1) := by
    rw [dpif_recv_openflow_loop]
    simp [hr']
  cases r with
  | err e =>
    exact ⟨_, _, recv_openflow_of_loop_err abi nl fam dp _ wait e rest _ h1,
      recv_openflow_of_loop_err abi nl fam dp _ wait e rest _ h2, rfl, rfl, rfl, rfl, rfl, rfl⟩
  | msg m =>
    exact ⟨_, _, recv_openflow_of_loop_msg abi nl fam dp _ wait m rest _ h1,
      recv_openflow_of_loop_msg abi nl fam dp _ wait m rest _ h2, rfl, rfl, rfl, rfl, rfl, rfl⟩

/-- C17 (witness): `ENOBUFS`, then a netlink error message, then an OpenFlow
message. -/
theorem recv_openflow_rereads_witness :
    ∃ o o1, dpif_recv_openflow lp64 nl_example 23 dp_example
        ([.err ENOBUFS, .msg nlmsgerr_example] ++ .msg (openflow_msg_example 8) :: []) true =
        some o ∧
      dpif_recv_openflow lp64 nl_example 23 dp_example
        (.msg (openflow_msg_example 8) :: []) true = some o1 ∧
      o.retval = o1.retval ∧ o.bufferp = o1.bufferp ∧ o.sock = o1.sock ∧ o.sock = [] ∧
      o.n_reads = [recv_result.err ENOBUFS, .msg nlmsgerr_example].length + 1 ∧
      o1.n_reads = 1 :=
  recv_openflow_rereads lp64 nl_example 23 dp_example true
    [.err ENOBUFS, .msg nlmsgerr_example] (.msg (openflow_msg_example 8)) []
    (by
      intro x hx
      simp only [List.mem_cons, List.mem_singleton, List.not_mem_nil, or_false] at hx
      rcases hx with rfl | rfl
      · exact Or.inl rfl
      · exact Or.inr ⟨nlmsgerr_example, rfl, rfl⟩)
    ⟨by simp, fun m hm => by cases hm; rfl⟩

/-- C18: for well-formed replies `r1 .. rk`, each carrying at least one record
with valid headers and `NUMFLOWS` equal to its number of records, followed by
a reply with `NUMFLOWS` 0, `dpif_dump_flows` prints the records of `r1 .. rk`
in order, `n_1 + ... + n_k` in all, reads nothing after the last reply and
returns 0. -/
theorem dump_flows_until_empty_reply (abi : ABI) (nl : openflow_netlink_h)
    (junk : Nat → Nat) (fam : Nat) (nl_sock_transact : buffer → recv_result) (dp : dpif)
    (table : Int) (mtch : Option Bytes) (replies : List nl_msg) (last first : nl_msg)
    (later : List nl_msg) (rest : List recv_result)
    (hseq : first :: later = replies ++ [last])
    (htx : nl_sock_transact (dpif_dump_flows_request abi nl junk fam dp table mtch).1 =
      .msg first)
    (hwf : ∀ m ∈ replies, flow_reply_wf abi nl m = true)
    (hend : flow_reply_end abi nl last = true) :
    dpif_dump_flows abi nl junk fam nl_sock_transact (later.map .msg ++ rest) dp table mtch =
      some ⟨0, (replies.map (flow_reply_records abi nl)).flatten, replies.length, rest⟩ ∧
    ((replies.map (flow_reply_records abi nl)).flatten).length =
      (replies.map (flow_reply_numflows abi nl)).sum := by
  refine ⟨?_, length_flow_replies_records abi nl replies hwf⟩
  unfold dpif_dump_flows
  simp only [htx]
  rw [dump_flows_loop_wf_replies abi nl rest last replies first later [] 0 hseq hwf,
    dump_flows_loop_done abi nl rest last _ _ _ 0 (dump_flows_reply_end abi nl last _ hend)]
  simp

set_option maxRecDepth 100000 in
/-- C18 (witness): scenario S4: a reply with two records and `NUMFLOWS` 2,
then a reply with `NUMFLOWS` 0; one more read result stays on the socket. -/
theorem dump_flows_until_empty_reply_witness :
    dpif_dump_flows lp64 nl_example (fun _ => 0) 23
        (fun _ => .msg (flow_reply_example 2 (flow_records_example 2) []))
        ([flow_reply_example 0 [] []].map .msg ++ [.err 5]) dp_example 0 none =
      some ⟨0, ([flow_reply_example 2 (flow_records_example 2) []].map
        (flow_reply_records lp64 nl_example)).flatten,
        [flow_reply_example 2 (flow_records_example 2) []].length, [.err 5]⟩ ∧
    (([flow_reply_example 2 (flow_records_example 2) []].map
        (flow_reply_records lp64 nl_example)).flatten).length =
      ([flow_reply_example 2 (flow_records_example 2) []].map
        (flow_reply_numflows lp64 nl_example)).sum :=
  dump_flows_until_empty_reply lp64 nl_example (fun _ => 0) 23
    (fun _ => .msg (flow_reply_example 2 (flow_records_example 2) [])) dp_example 0 none
    [flow_reply_example 2 (flow_records_example 2) []] (flow_reply_example 0 [] [])
    (flow_reply_example 2 (flow_records_example 2) []) [flow_reply_example 0 [] []]
    [.err 5] rfl rfl (by decide) (by decide)

set_option maxRecDepth 100000 in
/-- C19 (the code at the failing input): for a reply with `NUMFLOWS` 10 whose
`FLOW` attribute has 340 bytes, five records of 68 bytes, `dpif_dump_flows`
computes `n_flows` = 6 where `min (N, B / R)` is 5; it walks a sixth record
that starts at the end of the attribute, here in the attribute that follows,
and prints six records. -/
theorem dump_flows_walks_past_attribute :
    (nl_policy_parse (flow_reply_example 10 (flow_records_example 5) unknown_attr_example)
        (flow_policy nl_example)).map
      (fun attrs => (nl_attr_get_size (nl_attrs_get attrs nl_example.DP_GENL_A_FLOW),
        dpif_dump_flows_n_flows lp64 nl_example
          (flow_reply_example 10 (flow_records_example 5) unknown_attr_example) attrs)) =
      some (340, 6) ∧
    min 10 (340 / _dump_ofp_flow_mod.size) = 5 ∧
    (dpif_dump_flows lp64 nl_example (fun _ => 0) 23
        (fun _ => .msg (flow_reply_example 10 (flow_records_example 5) unknown_attr_example))
        [.msg (flow_reply_example 0 [] [])] dp_example 0 none).map
      (fun o => (o.retval, o.emitted.length, o.emitted.map (fun r => r.take 4))) =
      some (0, 6, [[1, 4, 0, 68], [1, 4, 0, 68], [1, 4, 0, 68], [1, 4, 0, 68], [1, 4, 0, 68],
        [1, 4, 99, 0]]) := by
  decide

/-- C20: when, after well-formed replies, a reply has its first record with a
bad version or type at position `j` among the records that `dpif_dump_flows`
walks, `dpif_dump_flows` returns `EPROTO`, has printed the records of the
replies before and the `j` records before the bad one, and reads no further
reply. -/
theorem dump_flows_bad_record (abi : ABI) (nl : openflow_netlink_h)
    (junk : Nat → Nat) (fam : Nat) (nl_sock_transact : buffer → recv_result) (dp : dpif)
    (table : Int) (mtch : Option Bytes) (replies : List nl_msg) (bad first : nl_msg)
    (later : List nl_msg) (rest : List recv_result) (attrs : List nlattr_ref) (j : Nat)
    (hseq : first :: later = replies ++ [bad])
    (htx : nl_sock_transact (dpif_dump_flows_request abi nl junk fam dp table mtch).1 =
      .msg first)
    (hwf : ∀ m ∈ replies, flow_reply_wf abi nl m = true)
    (hp : nl_policy_parse bad (flow_policy nl) = some attrs)
    (hj : j < dpif_dump_flows_n_flows abi nl bad attrs)
    (hok : ∀ i, i < j → dump_record_header_ok bad.mem
      (nl_attr_get (nl_attrs_get attrs nl.DP_GENL_A_FLOW)) i = true)
    (hbad : dump_record_header_ok bad.mem
      (nl_attr_get (nl_attrs_get attrs nl.DP_GENL_A_FLOW)) j = false) :
    dpif_dump_flows abi nl junk fam nl_sock_transact (later.map .msg ++ rest) dp table mtch =
      some ⟨EPROTO, (replies.map (flow_reply_records abi nl)).flatten ++
        (List.range j).map
          (dump_record bad.mem (nl_attr_get (nl_attrs_get attrs nl.DP_GENL_A_FLOW))),
        replies.length, rest⟩ := by
  unfold dpif_dump_flows
  simp only [htx]
  rw [dump_flows_loop_wf_replies abi nl rest bad replies first later [] 0 hseq hwf,
    dump_flows_loop_done abi nl rest bad _ _ _ EPROTO
      (dump_flows_reply_bad abi nl bad _ attrs j hp hj hok hbad)]
  simp

set_option maxRecDepth 100000 in
/-- C20 (witness): a reply with two good records, then a reply with
`NUMFLOWS` 3 whose second record has version 2. -/
theorem dump_flows_bad_record_witness :
    dpif_dump_flows lp64 nl_example (fun _ => 0) 23
        (fun _ => .msg (flow_reply_example 2 (flow_records_example 2) []))
        ([flow_reply_example 3
            (flow_record_example 7 ++ ([2, 4, 0, 68] ++ List.replicate 64 0) ++
              flow_record_example 9) []].map .msg ++ [.err 5])
        dp_example 0 none =
      some ⟨EPROTO, ([flow_reply_example 2 (flow_records_example 2) []].map
          (flow_reply_records lp64 nl_example)).flatten ++
        (List.range 1).map (dump_record (flow_reply_example 3
            (flow_record_example 7 ++ ([2, 4, 0, 68] ++ List.replicate 64 0) ++
              flow_record_example 9) []).mem
          (nl_attr_get (nl_attrs_get [⟨7, 40, 204⟩, ⟨8, 32, 4⟩, ⟨9, 24, 2⟩]
            nl_example.DP_GENL_A_FLOW))),
        [flow_reply_example 2 (flow_records_example 2) []].length, [.err 5]⟩ :=
  dump_flows_bad_record lp64 nl_example (fun _ => 0) 23
    (fun _ => .msg (flow_reply_example 2 (flow_records_example 2) [])) dp_example 0 none
    [flow_reply_example 2 (flow_records_example 2) []]
    (flow_reply_example 3
      (flow_record_example 7 ++ ([2, 4, 0, 68] ++ List.replicate 64 0) ++
        flow_record_example 9) [])
    (flow_reply_example 2 (flow_records_example 2) [])
    [flow_reply_example 3
      (flow_record_example 7 ++ ([2, 4, 0, 68] ++ List.replicate 64 0) ++
        flow_record_example 9) []]
    [.err 5] [⟨7, 40, 204⟩, ⟨8, 32, 4⟩, ⟨9, 24, 2⟩] 1 rfl rfl (by decide) (by decide)
    (by decide) (by decide) (by decide)

/-- C21: the assertions of `check_vconn_classes` hold for a class exactly when
`name`, `open`, `close` and `prepoll` are present and either `accept` is
present with `recv` and `send` both absent, or `accept` is absent with `recv`
and `send` both present; for a class that passes, `vconn_is_passive` is true
exactly when the class has no `send` and no `recv`. -/
theorem vconn_class_assertion_iff {P M : Type} (cls : vconn_class P M) :
    (check_vconn_class cls = true ↔
      cls.name ≠ none ∧ cls.open_ ≠ none ∧ cls.close ≠ none ∧ cls.prepoll ≠ none ∧
      ((cls.accept ≠ none ∧ cls.recv = none ∧ cls.send = none) ∨
        (cls.accept = none ∧ cls.recv ≠ none ∧ cls.send ≠ none))) ∧
    (check_vconn_class cls = true →
      ∀ self : P, (vconn_is_passive ⟨cls, self⟩ = true ↔ cls.send = none ∧ cls.recv = none)) := by
  obtain ⟨name, op, cl, pp, post, acc, rcv, snd⟩ := cls
  cases name <;> cases op <;> cases cl <;> cases pp <;> cases acc <;> cases rcv <;>
    cases snd <;> simp [check_vconn_class, vconn_is_passive]

/-- C21 (witness): the passive class `ptcp` passes the check and is passive. -/
theorem vconn_class_assertion_iff_witness :
    check_vconn_class ptcp_class_example = true ∧
    (vconn_is_passive ⟨ptcp_class_example, 8⟩ = true ↔
      ptcp_class_example.send = none ∧ ptcp_class_example.recv = none) :=
  ⟨by decide, (vconn_class_assertion_iff ptcp_class_example).2 (by decide) 8⟩

/-- C22: over a registry of valid classes, `vconn_open` ends in `fatal`
without calling any `open` when `name` has no colon, or when no class is named
by the text before the first colon; otherwise it calls `open` once, of the
first class named by that text, with `name` and the text after the first
colon, and returns. -/
theorem vconn_open_dispatches {P M : Type} (NDEBUG : Bool)
    (classes : List (vconn_class P M)) (name : List Char) (vconnp : Option P)
    (hvalid : ∀ c ∈ classes, check_vconn_class c = true) :
    (':' ∉ name → vconn_open NDEBUG classes name vconnp = ⟨.fatal_format name, []⟩) ∧
    (∀ pre args, name = pre ++ ':' :: args → ':' ∉ pre →
      (∀ c ∈ classes, c.name ≠ some pre) →
      vconn_open NDEBUG classes name vconnp = ⟨.fatal_unknown pre, []⟩) ∧
    (∀ pre args before cls rest, name = pre ++ ':' :: args → ':' ∉ pre →
      classes = before ++ cls :: rest → (∀ c ∈ before, c.name ≠ some pre) →
      cls.name = some pre →
      ∃ retval p, vconn_open NDEBUG classes name vconnp =
        ⟨.returned retval p, [⟨before.length, name, args⟩]⟩) := by
  refine ⟨vconn_open_of_no_colon NDEBUG classes name vconnp hvalid, ?_, ?_⟩
  · intro pre args hname hpre hnone
    subst hname
    rw [vconn_open_of_split NDEBUG classes pre args vconnp hvalid hpre]
    exact vconn_open_loop_unknown pre args vconnp classes 0 hvalid hnone
  · intro pre args before cls rest hname hpre hcls hbefore hcn
    subst hname
    subst hcls
    have hc := check_vconn_class_members cls (hvalid cls (by simp))
    obtain ⟨f, hf⟩ := Option.isSome_iff_exists.mp hc.2
    rw [vconn_open_of_split NDEBUG _ pre args vconnp hvalid hpre,
      vconn_open_loop_found pre args vconnp cls rest f hcn hf before 0
        (fun c hc => hvalid c (by simp [hc])) hbefore]
    rw [Nat.zero_add]
    exact ⟨_, _, rfl⟩

/-- C22 (witness): the name `ptcp:975` over the registry `tcp`, `ptcp`: only
the `open` of the second class is called, with the arguments `975`. -/
theorem vconn_open_dispatches_witness :
    ∃ retval p, vconn_open false vconn_classes_example "ptcp:975".toList (some 1) =
      ⟨.returned retval p,
        [⟨[tcp_class_example].length, "ptcp:975".toList, "975".toList⟩]⟩ :=
  (vconn_open_dispatches false vconn_classes_example "ptcp:975".toList (some 1)
    (by decide)).2.2 "ptcp".toList "975".toList [tcp_class_example] ptcp_class_example []
    rfl (by decide) rfl (by decide) rfl

/-- C23: `vconn_open`, when it reaches a class, `vconn_accept` and
`vconn_recv` return the value that the class function returns; the output
pointer is null when that value is not 0, whatever the class function stored,
and is what the class function stored when the value is 0. -/
theorem vconn_calls_null_on_error {P M : Type} (NDEBUG : Bool)
    (before : List (vconn_class P M)) (cls : vconn_class P M)
    (rest : List (vconn_class P M)) (pre args : List Char) (vconnp : Option P)
    (v : vconn P M) (new_vconn : Option P) (msgp : Option M) :
    (∀ f, (∀ c ∈ before ++ cls :: rest, check_vconn_class c = true) → ':' ∉ pre →
      (∀ c ∈ before, c.name ≠ some pre) → cls.name = some pre → cls.open_ = some f →
      ∃ p, (vconn_open NDEBUG (before ++ cls :: rest) (pre ++ ':' :: args) vconnp).exit =
          .returned (f (pre ++ ':' :: args) args vconnp).1 p ∧
        ((f (pre ++ ':' :: args) args vconnp).1 ≠ 0 → p = none) ∧
        ((f (pre ++ ':' :: args) args vconnp).1 = 0 →
          p = (f (pre ++ ':' :: args) args vconnp).2)) ∧
    (∀ f, v.cls.accept = some f →
      ∃ p, vconn_accept v new_vconn = some ((f v.self new_vconn).1, p) ∧
        ((f v.self new_vconn).1 ≠ 0 → p = none) ∧
        ((f v.self new_vconn).1 = 0 → p = (f v.self new_vconn).2)) ∧
    (∀ f, v.cls.recv = some f →
      ∃ p, vconn_recv v msgp = some ((f v.self msgp).1, p) ∧
        ((f v.self msgp).1 ≠ 0 → p = none) ∧
        ((f v.self msgp).1 = 0 → p = (f v.self msgp).2)) := by
  refine ⟨?_, ?_, ?_⟩
  · intro f hvalid hpre hbefore hcn hf
    rw [vconn_open_of_split NDEBUG _ pre args vconnp hvalid hpre,
      vconn_open_loop_found pre args vconnp cls rest f hcn hf before 0
        (fun c hc => hvalid c (by simp [hc])) hbefore]
    refine ⟨_, rfl, ?_, ?_⟩
    · intro h; simp [h]
    · intro h; simp [h]
  · intro f hf
    unfold vconn_accept
    rw [hf]
    refine ⟨_, rfl, ?_, ?_⟩
    · intro h; simp [h]
    · intro h; simp [h]
  · intro f hf
    unfold vconn_recv
    rw [hf]
    refine ⟨_, rfl, ?_, ?_⟩
    · intro h; simp [h]
    · intro h; simp [h]

/-- C23 (witness): the `recv` of the class `tcp` stores message 5 and returns
`EOF`; `vconn_recv` returns `EOF` with a null `*msgp`. -/
theorem vconn_calls_null_on_error_witness :
    vconn_recv ⟨tcp_class_example, 7⟩ (some 1) = some (EOF, none) ∧
    ∃ p, vconn_recv ⟨tcp_class_example, 7⟩ (some 1) =
        some ((tcp_recv_example 7 (some 1)).1, p) ∧
      ((tcp_recv_example 7 (some 1)).1 ≠ 0 → p = none) ∧
      ((tcp_recv_example 7 (some 1)).1 = 0 →
        p = (tcp_recv_example 7 (some 1)).2) :=
  ⟨by decide,
    (vconn_calls_null_on_error false [] tcp_class_example [ptcp_class_example] "tcp".toList
      "".toList (some 1) ⟨tcp_class_example, 7⟩ (some 1) (some 1)).2.2
      tcp_recv_example rfl⟩

/-- C24: on a datagram with at most one credentials message,
`vlog_server_poll` sends a reply exactly when the datagram carries an
`SCM_CREDENTIALS` message whose `uid` is 0 or the `uid` of the server; the
reply goes to the address of the sender; for a datagram without such
credentials nothing is sent, the state of the logging module stays, and in
both cases the server goes on with the next datagram. -/
theorem vlog_server_poll_replies_iff_authorized {σ : Type} (abi : ABI) (vlog : vlog_h σ)
    (getuid : Nat) (cmd_buf : List Char) (un : sockaddr_un) (d : vlog_datagram)
    (rest : List recvmsg_result) (st : σ)
    (h1 : (d.cmsgs.filter cmsg_is_credentials).length ≤ 1) :
    (datagram_authorized abi getuid d = true ↔
      ∃ c ∈ d.cmsgs, c.cmsg_level = SOL_SOCKET ∧ c.cmsg_type = SCM_CREDENTIALS ∧
        (ucred_uid abi c.data = 0 ∨ ucred_uid abi c.data = getuid)) ∧
    ((vlog_server_poll abi vlog getuid cmd_buf un (.datagram d :: rest) st).sent.length =
        (vlog_server_poll abi vlog getuid cmd_buf un rest st).sent.length + 1 ↔
      datagram_authorized abi getuid d = true) ∧
    (datagram_authorized abi getuid d = true →
      ∃ reply st1,
        (vlog_server_poll abi vlog getuid cmd_buf un (.datagram d :: rest) st).sent =
          ⟨reply, d.src, d.src_len⟩ ::
            (vlog_server_poll abi vlog getuid cmd_buf un rest st1).sent ∧
        (vlog_server_poll abi vlog getuid cmd_buf un (.datagram d :: rest) st).sock =
          (vlog_server_poll abi vlog getuid cmd_buf un rest st1).sock) ∧
    (datagram_authorized abi getuid d = false →
      (vlog_server_poll abi vlog getuid cmd_buf un (.datagram d :: rest) st).sent =
        (vlog_server_poll abi vlog getuid cmd_buf un rest st).sent ∧
      (vlog_server_poll abi vlog getuid cmd_buf un (.datagram d :: rest) st).vlog =
        (vlog_server_poll abi vlog getuid cmd_buf un rest st).vlog ∧
      (vlog_server_poll abi vlog getuid cmd_buf un (.datagram d :: rest) st).sock =
        (vlog_server_poll abi vlog getuid cmd_buf un rest st).sock) := by
  have hbody := vlog_server_poll_body_datagram abi vlog getuid cmd_buf un d st h1
  have hyes : datagram_authorized abi getuid d = true →
      (vlog_server_poll abi vlog getuid cmd_buf un (.datagram d :: rest) st).sent =
          ⟨(vlog_server_poll_reply vlog st (c_str (d.data.take 511))).2, d.src, d.src_len⟩ ::
            (vlog_server_poll abi vlog getuid cmd_buf un rest
              (vlog_server_poll_reply vlog st (c_str (d.data.take 511))).1).sent ∧
        (vlog_server_poll abi vlog getuid cmd_buf un (.datagram d :: rest) st).sock =
          (vlog_server_poll abi vlog getuid cmd_buf un rest
            (vlog_server_poll_reply vlog st (c_str (d.data.take 511))).1).sock := by
    intro ha
    rw [if_pos ha] at hbody
    simp only [vlog_server_poll, hbody]
    simp
  have hno : datagram_authorized abi getuid d = false →
      (vlog_server_poll abi vlog getuid cmd_buf un (.datagram d :: rest) st).sent =
        (vlog_server_poll abi vlog getuid cmd_buf un rest st).sent ∧
      (vlog_server_poll abi vlog getuid cmd_buf un (.datagram d :: rest) st).vlog =
        (vlog_server_poll abi vlog getuid cmd_buf un rest st).vlog ∧
      (vlog_server_poll abi vlog getuid cmd_buf un (.datagram d :: rest) st).sock =
        (vlog_server_poll abi vlog getuid cmd_buf un rest st).sock := by
    intro ha
    rw [if_neg (by simp [ha])] at hbody
    simp only [vlog_server_poll, hbody]
    simp
  refine ⟨?_, ?_, fun ha => ⟨_, _, hyes ha⟩, hno⟩
  · simp [datagram_authorized, cmsg_is_credentials, and_assoc]
  · constructor
    · intro hlen
      by_contra ha
      rw [(hno (by simpa using ha)).1] at hlen
      omega
    · intro ha
      rw [(hyes ha).1, List.length_cons,
        vlog_server_poll_sent_length abi vlog getuid cmd_buf un rest _ st]

/-- C24 (witness): the command `list` from user 1001 to a server of user 1000
gets no reply, and the command `list` that follows, from user 0, gets one. -/
theorem vlog_server_poll_replies_iff_authorized_witness :
    (datagram_example "list" 1001).cmsgs.filter cmsg_is_credentials =
      (datagram_example "list" 1001).cmsgs ∧
    datagram_authorized lp64 1000 (datagram_example "list" 1001) = false ∧
    (vlog_server_poll lp64 vlog_example 1000 [] ⟨0, []⟩
        (.datagram (datagram_example "list" 1001) ::
          [.datagram (datagram_example "list" 0)]) []).sent =
      (vlog_server_poll lp64 vlog_example 1000 [] ⟨0, []⟩
        [.datagram (datagram_example "list" 0)] []).sent ∧
    (vlog_server_poll lp64 vlog_example 1000 [] ⟨0, []⟩
        [.datagram (datagram_example "list" 0)] []).sent =
      [⟨"levels ".toList, client_addr_example, 15⟩] :=
  ⟨by decide, by decide,
    ((vlog_server_poll_replies_iff_authorized lp64 vlog_example 1000 [] ⟨0, []⟩
      (datagram_example "list" 1001) [.datagram (datagram_example "list" 0)] []
      (by decide)).2.2.2 (by decide)).1,
    by decide⟩

/-- C25: for a datagram that `recv_with_creds` accepts, with `c` the command
string received (the datagram up to its first NUL, at most 511 bytes), the
reply is: when `c` begins with `set `, the error text of the setter applied to
the rest of `c`, or `ack` when the setter returns none; when `c` is `list`,
the listing of the levels; and `nak` otherwise, as for `set` without the
space and for `list` followed by anything. -/
theorem vlog_server_poll_reply_text {σ : Type} (abi : ABI) (vlog : vlog_h σ)
    (getuid : Nat) (cmd_buf : List Char) (un : sockaddr_un) (d : vlog_datagram)
    (rest : List recvmsg_result) (st : σ) (c : List Char)
    (hauth : (recv_with_creds abi getuid cmd_buf 512 un (.datagram d)).error = 0)
    (hc : (recv_with_creds abi getuid cmd_buf 512 un (.datagram d)).cmd_buf = c) :
    c = c_str (d.data.take 511) ∧
    (vlog_server_poll abi vlog getuid cmd_buf un (.datagram d :: rest) st).sent.head? =
      some ⟨if c.take 4 = "set ".toList then
          (vlog.vlog_set_levels_from_string st (c.drop 4)).2.getD "ack".toList
        else if c = "list".toList then vlog.vlog_get_levels st
        else "nak".toList, d.src, d.src_len⟩ ∧
    (c = "set".toList →
      (vlog_server_poll abi vlog getuid cmd_buf un (.datagram d :: rest) st).sent.head? =
        some ⟨"nak".toList, d.src, d.src_len⟩) ∧
    (∀ x xs, c = "list".toList ++ x :: xs →
      (vlog_server_poll abi vlog getuid cmd_buf un (.datagram d :: rest) st).sent.head? =
        some ⟨"nak".toList, d.src, d.src_len⟩) := by
  have hcs : c = c_str (d.data.take 511) := by
    rw [← hc]; exact (recv_with_creds_fields abi getuid cmd_buf un d).1
  have hnul : ∀ x ∈ c, x ≠ NUL := by
    rw [hcs]; exact mem_c_str_ne_nul _
  have hsent := vlog_server_poll_cons_of_error_zero abi vlog getuid cmd_buf un d rest st hauth
  rw [← hcs, vlog_server_poll_reply_eq vlog st c hnul] at hsent
  have hmain : (vlog_server_poll abi vlog getuid cmd_buf un (.datagram d :: rest)
      st).sent.head? =
      some ⟨if c.take 4 = "set ".toList then
          (vlog.vlog_set_levels_from_string st (c.drop 4)).2.getD "ack".toList
        else if c = "list".toList then vlog.vlog_get_levels st
        else "nak".toList, d.src, d.src_len⟩ := by
    rw [hsent, List.head?_cons]
    split_ifs <;> rfl
  refine ⟨hcs, hmain, ?_, ?_⟩
  · intro h
    rw [hmain, h]
    rfl
  · intro x xs h
    rw [hmain, h]
    have h1 : ¬ ("list".toList ++ x :: xs).take 4 = "set ".toList := by
      have : ("list".toList ++ x :: xs).take 4 = "list".toList := by
        rw [List.take_append_of_le_length (by decide)]
        rfl
      rw [this]
      decide
    have h2 : ¬ "list".toList ++ x :: xs = "list".toList := by
      intro h'
      have := congrArg List.length h'
      simp at this
    rw [if_neg h1, if_neg h2]

/-- C25 (witness): the command `set a:b` from user 0 is answered with `ack`. -/
theorem vlog_server_poll_reply_text_witness :
    (vlog_server_poll lp64 vlog_example 1000 [] ⟨0, []⟩
        (.datagram (datagram_example "set a:b" 0) :: []) []).sent.head? =
      some ⟨if "set a:b".toList.take 4 = "set ".toList then
          (vlog_example.vlog_set_levels_from_string [] ("set a:b".toList.drop 4)).2.getD
            "ack".toList
        else if "set a:b".toList = "list".toList then vlog_example.vlog_get_levels []
        else "nak".toList, (datagram_example "set a:b" 0).src,
        (datagram_example "set a:b" 0).src_len⟩ ∧
    (vlog_example.vlog_set_levels_from_string [] ("set a:b".toList.drop 4)).2.getD
      "ack".toList = "ack".toList :=
  ⟨(vlog_server_poll_reply_text lp64 vlog_example 1000 [] ⟨0, []⟩
      (datagram_example "set a:b" 0) [] [] "set a:b".toList (by decide) (by decide)).2.1,
    by decide⟩

/-- C26 (the code on a failure): when `socket` fails with `EMFILE`,
`vlog_server_listen` returns `-EMFILE`, a negative value, with a null
`*serverp`; it never returns a positive value: it returns 0 with a server, or
the negative value that `make_unix_socket` returned with a null
`*serverp`. -/
theorem vlog_server_listen_returns_negative :
    (vlog_server_listen socket_fails_example 1234 none).retval = -EMFILE ∧
    (vlog_server_listen socket_fails_example 1234 none).serverp = none ∧
    ∀ (sys : unix_socket_calls) (getpid : Int) (path : Option (List Char)),
      ((vlog_server_listen sys getpid path).retval = 0 ∧
        (vlog_server_listen sys getpid path).serverp ≠ none) ∨
      ((vlog_server_listen sys getpid path).retval < 0 ∧
        (vlog_server_listen sys getpid path).retval =
          (vlog_server_listen sys getpid path).sock.ret ∧
        (vlog_server_listen sys getpid path).serverp = none) := by
  refine ⟨by decide, by decide, ?_⟩
  intro sys getpid path
  unfold vlog_server_listen
  simp only
  by_cases h : (make_unix_socket sys true true
      (some (vlog_server_listen_path getpid path)) none).ret < 0
  · right
    simp only [h, ↓reduceIte]
    exact ⟨trivial, trivial, trivial⟩
  · left
    simp only [h, ↓reduceIte]
    exact ⟨trivial, by simp⟩

/-- C27: `vlog_server_listen` makes its socket with the name `chosen`, which
is `path` itself when `path` begins with a slash, `/tmp/vlogs.` followed by
the process id in decimal when `path` is null, and that followed by `path`
when `path` does not begin with a slash (every `path` is one of the three).
That name is given to `bind` as soon as `socket` and the calls of `fcntl`
succeed, and when every system call succeeds the function returns 0 with a
server whose `path` member is `chosen`. -/
theorem vlog_server_listen_path_cases (sys : unix_socket_calls) (getpid : Int)
    (path : Option (List Char)) (chosen : List Char)
    (hpath : (∃ tl, path = some ('/' :: tl) ∧ chosen = '/' :: tl) ∨
      (path = none ∧ chosen = "/tmp/vlogs.".toList ++ printf_ld getpid) ∨
      (∃ p, path = some p ∧ p.head? ≠ some '/' ∧
        chosen = "/tmp/vlogs.".toList ++ printf_ld getpid ++ p)) :
    (vlog_server_listen sys getpid path).sock =
      make_unix_socket sys true true (some chosen) none ∧
    (0 ≤ sys.socket.ret → sys.fcntl_getfl.ret ≠ -1 → sys.fcntl_setfl.ret ≠ -1 →
      (vlog_server_listen sys getpid path).sock.bound = some (make_sockaddr_un chosen)) ∧
    (0 ≤ sys.socket.ret → sys.fcntl_getfl.ret ≠ -1 → sys.fcntl_setfl.ret ≠ -1 →
      sys.bind.ret = 0 → sys.fchmod.ret = 0 → sys.setsockopt.ret = 0 →
      vlog_server_listen sys getpid path =
        ⟨0, some ⟨chosen, sys.socket.ret⟩,
          ⟨sys.socket.ret, sys.setsockopt.errno, some (make_sockaddr_un chosen), none⟩⟩) ∧
    ((vlog_server_listen sys getpid path).serverp = none ∨
      (vlog_server_listen sys getpid path).serverp =
        some ⟨chosen, (vlog_server_listen sys getpid path).sock.ret⟩) := by
  have hc := vlog_server_listen_path_chosen getpid path chosen hpath
  refine ⟨?_, ?_, ?_, ?_⟩
  · rw [vlog_server_listen_sock, hc]
  · intro h0 h1 h2
    rw [vlog_server_listen_sock, hc]
    exact make_unix_socket_server_bound sys chosen h0 h1 h2
  · intro h0 h1 h2 h3 h4 h5
    rw [vlog_server_listen_ok sys getpid path h0 h1 h2 h3 h4 h5, hc]
  · unfold vlog_server_listen
    simp only [hc]
    split
    · exact Or.inl rfl
    · exact Or.inr rfl

/-- C27 (witness): in process 1234, with system calls that all succeed on
descriptor 3, the suffix `x` gives a server on `/tmp/vlogs.1234x`, and the
null path a socket made with the name `/tmp/vlogs.1234`. -/
theorem vlog_server_listen_path_cases_witness :
    vlog_server_listen unix_socket_calls_example 1234 (some "x".toList) =
      ⟨0, some ⟨"/tmp/vlogs.1234x".toList, 3⟩,
        ⟨3, 0, some (make_sockaddr_un "/tmp/vlogs.1234x".toList), none⟩⟩ ∧
    (vlog_server_listen socket_fails_example 1234 none).sock =
      make_unix_socket socket_fails_example true true (some "/tmp/vlogs.1234".toList) none :=
  ⟨(vlog_server_listen_path_cases unix_socket_calls_example 1234 (some "x".toList)
      "/tmp/vlogs.1234x".toList
      (Or.inr (Or.inr ⟨"x".toList, rfl, by decide, by decide⟩))).2.2.1
      (by decide) (by decide) (by decide) rfl rfl rfl,
    (vlog_server_listen_path_cases socket_fails_example 1234 none "/tmp/vlogs.1234".toList
      (Or.inr (Or.inl ⟨rfl, by decide⟩))).1⟩

/-- C28 (counterexample): a first `sendmsg` that fails with `ETIMEDOUT` makes
`vlog_client_transact` return `ETIMEDOUT` with a null `*reply` after one send
and no receive; so does an empty request that `sendmsg` sends (it returns 0)
while `errno` still holds `ETIMEDOUT` from an earlier call, since
`vlog_client_send` then returns `errno`. -/
theorem vlog_client_transact_etimedout_from_send :
    vlog_client_transact "list".toList (fun _ => transact_send_fails_example ETIMEDOUT) =
      ⟨ETIMEDOUT, none, 1, 0⟩ ∧
    vlog_client_transact "".toList (fun _ => ⟨⟨0, ETIMEDOUT⟩, ⟨⟨0, 0⟩, ⟨0, 0⟩, []⟩⟩) =
      ⟨ETIMEDOUT, none, 1, 0⟩ := by
  decide

/-- C28 (amended): `vlog_client_transact` sends at most 3 times; a send that
fails, after passes that all timed out, ends it with the error of that send
and a null `*reply`; a receive that does not return `ETIMEDOUT` ends it with
the result of that receive; three sends that succeed with three receives that
time out end it with `ETIMEDOUT` and a null `*reply`; and it returns
`ETIMEDOUT` only in that case or when a send itself returned `ETIMEDOUT`. -/
theorem vlog_client_transact_outcome (request : List Char)
    (sys : Nat → vlog_client_transact_calls) :
    (vlog_client_transact request sys).n_sends ≤ 3 ∧
    (∀ i, i < 3 →
      (∀ j, j < i → vlog_client_send request (sys j).sendmsg = 0 ∧
        (vlog_client_recv (sys j).recv).1 = ETIMEDOUT) →
      vlog_client_send request (sys i).sendmsg ≠ 0 →
      vlog_client_transact request sys =
        ⟨vlog_client_send request (sys i).sendmsg, none, i + 1, i⟩) ∧
    (∀ i, i < 3 →
      (∀ j, j < i → vlog_client_send request (sys j).sendmsg = 0 ∧
        (vlog_client_recv (sys j).recv).1 = ETIMEDOUT) →
      vlog_client_send request (sys i).sendmsg = 0 →
      (vlog_client_recv (sys i).recv).1 ≠ ETIMEDOUT →
      vlog_client_transact request sys =
        ⟨(vlog_client_recv (sys i).recv).1, (vlog_client_recv (sys i).recv).2, i + 1, i + 1⟩ ∧
      ((vlog_client_recv (sys i).recv).1 ≠ 0 → (vlog_client_recv (sys i).recv).2 = none)) ∧
    ((∀ j, j < 3 → vlog_client_send request (sys j).sendmsg = 0 ∧
        (vlog_client_recv (sys j).recv).1 = ETIMEDOUT) →
      vlog_client_transact request sys = ⟨ETIMEDOUT, none, 3, 3⟩) ∧
    ((vlog_client_transact request sys).retval = ETIMEDOUT →
      (vlog_client_transact request sys).reply = none ∧
      ((∀ j, j < 3 → vlog_client_send request (sys j).sendmsg = 0 ∧
          (vlog_client_recv (sys j).recv).1 = ETIMEDOUT) ∨
        ∃ i, i < 3 ∧
          (∀ j, j < i → vlog_client_send request (sys j).sendmsg = 0 ∧
            (vlog_client_recv (sys j).recv).1 = ETIMEDOUT) ∧
          vlog_client_send request (sys i).sendmsg = ETIMEDOUT)) := by
  have hE := vlog_client_transact_eq request sys
  refine ⟨?_, ?_, ?_, ?_, ?_⟩
  · rw [hE]
    split_ifs <;> simp
  · intro i hi hprev hne
    interval_cases i
    · rw [hE, if_pos hne]
    · have h0 := hprev 0 (by omega)
      rw [hE, if_neg (not_not.mpr h0.1), if_neg (not_not.mpr h0.2), if_pos hne]
    · have h0 := hprev 0 (by omega)
      have h1 := hprev 1 (by omega)
      rw [hE, if_neg (not_not.mpr h0.1), if_neg (not_not.mpr h0.2),
        if_neg (not_not.mpr h1.1), if_neg (not_not.mpr h1.2), if_pos hne]
  · intro i hi hprev hz hne
    refine ⟨?_, vlog_client_recv_reply (sys i).recv⟩
    interval_cases i
    · rw [hE, if_neg (not_not.mpr hz), if_pos hne]
    · have h0 := hprev 0 (by omega)
      rw [hE, if_neg (not_not.mpr h0.1), if_neg (not_not.mpr h0.2),
        if_neg (not_not.mpr hz), if_pos hne]
    · have h0 := hprev 0 (by omega)
      have h1 := hprev 1 (by omega)
      rw [hE, if_neg (not_not.mpr h0.1), if_neg (not_not.mpr h0.2),
        if_neg (not_not.mpr h1.1), if_neg (not_not.mpr h1.2),
        if_neg (not_not.mpr hz), if_pos hne]
  · intro hall
    have h0 := hall 0 (by omega)
    have h1 := hall 1 (by omega)
    have h2 := hall 2 (by omega)
    rw [hE, if_neg (not_not.mpr h0.1), if_neg (not_not.mpr h0.2),
      if_neg (not_not.mpr h1.1), if_neg (not_not.mpr h1.2),
      if_neg (not_not.mpr h2.1), if_neg (not_not.mpr h2.2)]
  · intro h
    rw [hE] at h ⊢
    by_cases c0 : vlog_client_send request (sys 0).sendmsg ≠ 0
    · rw [if_pos c0] at h ⊢
      exact ⟨rfl, Or.inr ⟨0, by omega, fun j hj => absurd hj (by omega), h⟩⟩
    · rw [if_neg c0] at h ⊢
      by_cases d0 : (vlog_client_recv (sys 0).recv).1 ≠ ETIMEDOUT
      · rw [if_pos d0] at h
        exact absurd h d0
      · rw [if_neg d0] at h ⊢
        have p0 : ∀ j, j < 1 → vlog_client_send request (sys j).sendmsg = 0 ∧
            (vlog_client_recv (sys j).recv).1 = ETIMEDOUT := by
          intro j hj
          interval_cases j
          exact ⟨not_not.mp c0, not_not.mp d0⟩
        by_cases c1 : vlog_client_send request (sys 1).sendmsg ≠ 0
        · rw [if_pos c1] at h ⊢
          exact ⟨rfl, Or.inr ⟨1, by omega, p0, h⟩⟩
        · rw [if_neg c1] at h ⊢
          by_cases d1 : (vlog_client_recv (sys 1).recv).1 ≠ ETIMEDOUT
          · rw [if_pos d1] at h
            exact absurd h d1
          · rw [if_neg d1] at h ⊢
            have p1 : ∀ j, j < 2 → vlog_client_send request (sys j).sendmsg = 0 ∧
                (vlog_client_recv (sys j).recv).1 = ETIMEDOUT := by
              intro j hj
              interval_cases j
              · exact ⟨not_not.mp c0, not_not.mp d0⟩
              · exact ⟨not_not.mp c1, not_not.mp d1⟩
            by_cases c2 : vlog_client_send request (sys 2).sendmsg ≠ 0
            · rw [if_pos c2] at h ⊢
              exact ⟨rfl, Or.inr ⟨2, by omega, p1, h⟩⟩
            · rw [if_neg c2] at h ⊢
              by_cases d2 : (vlog_client_recv (sys 2).recv).1 ≠ ETIMEDOUT
              · rw [if_pos d2] at h
                exact absurd h d2
              · rw [if_neg d2]
                refine ⟨rfl, Or.inl ?_⟩
                intro j hj
                interval_cases j
                · exact ⟨not_not.mp c0, not_not.mp d0⟩
                · exact ⟨not_not.mp c1, not_not.mp d1⟩
                · exact ⟨not_not.mp c2, not_not.mp d2⟩

/-- C28 (witness): three passes in which the request is sent and no reply
comes end with `ETIMEDOUT` after three sends; a reply in the third pass is
returned with 0. -/
theorem vlog_client_transact_outcome_witness :
    vlog_client_transact "list".toList (fun _ => transact_timeout_example) =
      ⟨ETIMEDOUT, none, 3, 3⟩ :=
  (vlog_client_transact_outcome "list".toList (fun _ => transact_timeout_example)).2.2.2.1
    (fun _ _ => by decide)

set_option maxRecDepth 100000 in
/-- C29 (the code at the failing input): for the reply with `NUMFLOWS` 10 and
a `FLOW` attribute of 340 bytes, `dpif_dump_flows` walks `n_flows` = 6 records
of 68 bytes, 408 bytes in all; the sixth begins where the attribute ends, and
what is printed for it, header included, are bytes after the attribute.  For a
reply with `NUMFLOWS` 1 and a `FLOW` attribute of 56 bytes it walks one record
of 68 bytes. -/
theorem dump_flows_record_outside_attribute :
    (nl_policy_parse (flow_reply_example 10 (flow_records_example 5) unknown_attr_example)
        (flow_policy nl_example)).map
      (fun attrs =>
        (nl_attr_get_size (nl_attrs_get attrs nl_example.DP_GENL_A_FLOW),
          dpif_dump_flows_n_flows lp64 nl_example
            (flow_reply_example 10 (flow_records_example 5) unknown_attr_example) attrs *
            _dump_ofp_flow_mod.size,
          _dump_ofp_flow_mod_at (elem_at _dump_ofp_flow_mod
            (nl_attr_get (nl_attrs_get attrs nl_example.DP_GENL_A_FLOW)) 5) "ofm" -
            nl_attr_get (nl_attrs_get attrs nl_example.DP_GENL_A_FLOW))) =
      some (340, 408, 340) ∧
    (dpif_dump_flows lp64 nl_example (fun _ => 0) 23
        (fun _ => .msg (flow_reply_example 10 (flow_records_example 5) unknown_attr_example))
        [.msg (flow_reply_example 0 [] [])] dp_example 0 none).map
      (fun o => o.emitted.getLast?) =
      some (some (unknown_attr_example.take ofp_flow_mod.size)) ∧
    (nl_policy_parse (flow_reply_example 1 ((flow_record_example 7).take 56)
        unknown_attr_example) (flow_policy nl_example)).map
      (fun attrs =>
        (nl_attr_get_size (nl_attrs_get attrs nl_example.DP_GENL_A_FLOW),
          dpif_dump_flows_n_flows lp64 nl_example
            (flow_reply_example 1 ((flow_record_example 7).take 56) unknown_attr_example)
            attrs * _dump_ofp_flow_mod.size)) =
      some (56, 68) := by
  decide

/-- C30: for a suffix `s` that is null or does not begin with a slash, the
server of process `p` and the client called with the decimal digits of `p`
followed by `s` make their sockets with the same name `chosen`, the server to
bind it and the client to connect to it; for a path that begins with a slash
both use that path.  As soon as the calls before succeed, the address that the
server gives to `bind` is the address that the client gives to `connect`, and
when every system call succeeds the `path` of the server is the
`connect_path` of the client. -/
theorem vlog_server_client_paths_agree (sys1 sys2 : unix_socket_calls) (p q : Int)
    (s : Option (List Char)) (arg chosen : List Char)
    (h : ((s = none ∨ ∃ x, s = some x ∧ x.head? ≠ some '/') ∧
        arg = printf_ld p ++ s.getD [] ∧ chosen = "/tmp/vlogs.".toList ++ arg) ∨
      (∃ tl, s = some ('/' :: tl) ∧ arg = '/' :: tl ∧ chosen = '/' :: tl)) :
    (vlog_server_listen sys1 p s).sock =
      make_unix_socket sys1 true true (some chosen) none ∧
    (vlog_client_connect sys2 q arg).sock =
      make_unix_socket sys2 false false (some ("/tmp/vlog.".toList ++ printf_ld q))
        (some chosen) ∧
    (0 ≤ sys1.socket.ret → sys1.fcntl_getfl.ret ≠ -1 → sys1.fcntl_setfl.ret ≠ -1 →
      0 ≤ sys2.socket.ret → sys2.bind.ret = 0 → sys2.fchmod.ret = 0 →
      (vlog_server_listen sys1 p s).sock.bound = some (make_sockaddr_un chosen) ∧
      (vlog_client_connect sys2 q arg).sock.connected = some (make_sockaddr_un chosen) ∧
      (vlog_server_listen sys1 p s).sock.bound =
        (vlog_client_connect sys2 q arg).sock.connected) ∧
    (0 ≤ sys1.socket.ret → sys1.fcntl_getfl.ret ≠ -1 → sys1.fcntl_setfl.ret ≠ -1 →
      sys1.bind.ret = 0 → sys1.fchmod.ret = 0 → sys1.setsockopt.ret = 0 →
      0 ≤ sys2.socket.ret → sys2.bind.ret = 0 → sys2.fchmod.ret = 0 →
      sys2.connect.ret = 0 →
      (vlog_server_listen sys1 p s).retval = 0 ∧
      (vlog_server_listen sys1 p s).serverp = some ⟨chosen, sys1.socket.ret⟩ ∧
      (vlog_client_connect sys2 q arg).retval = 0 ∧
      (vlog_client_connect sys2 q arg).clientp =
        some ⟨chosen, "/tmp/vlog.".toList ++ printf_ld q, sys2.socket.ret⟩) ∧
    (∀ server client, (vlog_server_listen sys1 p s).serverp = some server →
      (vlog_client_connect sys2 q arg).clientp = some client →
      server.path = client.connect_path) := by
  obtain ⟨hsv, hcl⟩ := vlog_paths_chosen p s arg chosen h
  refine ⟨?_, ?_, ?_, ?_, ?_⟩
  · rw [vlog_server_listen_sock, hsv]
  · rw [vlog_client_connect_sock, hcl]
  · intro a0 a1 a2 b0 b3 b4
    have hb : (vlog_server_listen sys1 p s).sock.bound = some (make_sockaddr_un chosen) := by
      rw [vlog_server_listen_sock, hsv]
      exact make_unix_socket_server_bound sys1 chosen a0 a1 a2
    have hc : (vlog_client_connect sys2 q arg).sock.connected =
        some (make_sockaddr_un chosen) := by
      rw [vlog_client_connect_sock, hcl]
      exact make_unix_socket_client_connected sys2 _ chosen b0 b3 b4
    exact ⟨hb, hc, by rw [hb, hc]⟩
  · intro a0 a1 a2 a3 a4 a5 b0 b3 b4 b6
    rw [vlog_server_listen_ok sys1 p s a0 a1 a2 a3 a4 a5,
      vlog_client_connect_ok sys2 q arg b0 b3 b4 b6, hsv, hcl]
    exact ⟨rfl, rfl, rfl, rfl⟩
  · intro server client ha hb
    rw [vlog_server_listen_server_path sys1 p s server ha,
      vlog_client_connect_client_path sys2 q arg client hb, hsv, hcl]

/-- C30 (witness): with system calls that all succeed, the server of process
1234 with the suffix `x` and the client of process 77 called with `1234x`
both hold `/tmp/vlogs.1234x`. -/
theorem vlog_server_client_paths_agree_witness :
    (vlog_server_listen unix_socket_calls_example 1234 (some "x".toList)).retval = 0 ∧
    (vlog_server_listen unix_socket_calls_example 1234 (some "x".toList)).serverp =
      some ⟨"/tmp/vlogs.1234x".toList, 3⟩ ∧
    (vlog_client_connect unix_socket_calls_example 77 "1234x".toList).retval = 0 ∧
    (vlog_client_connect unix_socket_calls_example 77 "1234x".toList).clientp =
      some ⟨"/tmp/vlogs.1234x".toList, "/tmp/vlog.77".toList, 3⟩ :=
  (vlog_server_client_paths_agree unix_socket_calls_example unix_socket_calls_example 1234 77
    (some "x".toList) "1234x".toList "/tmp/vlogs.1234x".toList
    (Or.inl ⟨Or.inr ⟨"x".toList, rfl, by decide⟩, by decide, by decide⟩)).2.2.2.1
    (by decide) (by decide) (by decide) rfl rfl rfl (by decide) rfl rfl rfl

end OpenFlow
